import Mathlib

/-!
# Metadata builders of the TMDB/TVDB addon

A shallow embedding of `addon/lib/getMeta.js` and `addon/utils/parseProps.js`.

* JavaScript strings are Lean strings; the string builtins the code calls
  (`startsWith`, `replace`, `split`, `substring`, `encodeURIComponent`, `join`) are
  written out over the character list so that they evaluate in the kernel.
* A slot that may hold `undefined` or `null` is a `JsOpt`.
* Promises are their outcomes: `Except String α`, the error being the message of
  the rejection.  `Promise.all` takes the first rejection in list order.
* The collaborators that are not part of the two source files (the TMDB and TVDB
  clients, the logo and rating lookups, the language map) are the fields of `Collab`.
* Builtins whose result depends on tables outside the program (Unicode lower-casing,
  date parsing, exponent notation of very large numbers) and the environment
  variable `HOST_NAME` are the fields of `Env`.
-/

namespace TmdbAddon

/-! ## JavaScript values -/

/-- A slot holding `undefined`, `null` or a value. -/
inductive JsOpt (α : Type) where
  | undefined : JsOpt α
  | null : JsOpt α
  | val (a : α) : JsOpt α
deriving DecidableEq

namespace JsOpt

/-- Truthiness of a string slot: a non-empty string. -/
def truthy : JsOpt String → Bool
  | val s => s != ""
  | _ => false

/-- Truthiness of a number slot: a non-zero number. -/
def truthyNat : JsOpt Nat → Bool
  | val n => n != 0
  | _ => false

/-- The operator `a || b`. -/
def or (a b : JsOpt String) : JsOpt String :=
  if a.truthy then a else b

/-- The operator `a || s` with a string literal on the right: always a string. -/
def orStr (a : JsOpt String) (s : String) : String :=
  match a with
  | val t => if t != "" then t else s
  | _ => s

/-- String conversion as done by a template literal. -/
def toStr : JsOpt String → String
  | undefined => "undefined"
  | null => "null"
  | val s => s

/-- String conversion of a number slot as done by a template literal. -/
def natToStr : JsOpt Nat → String
  | undefined => "undefined"
  | null => "null"
  | val n => toString n

/-- Optional call `x?.toString()` on a number slot. -/
def natToString : JsOpt Nat → JsOpt String
  | val n => val (toString n)
  | _ => undefined

/-- Optional call `x?.toString()` on a string slot. -/
def strToString : JsOpt String → JsOpt String
  | val s => val s
  | _ => undefined

end JsOpt

/-- Optional chaining `o?.f` where `f` is itself a slot. -/
def optField {α β : Type} (o : Option α) (f : α → JsOpt β) : JsOpt β :=
  match o with
  | some a => f a
  | none => JsOpt.undefined

/-- Optional chaining `o?.f` where the field is an object or array that may be missing. -/
def optObj {α β : Type} (o : Option α) (f : α → Option β) : Option β :=
  match o with
  | some a => f a
  | none => none

/-- A finite number `num / 2 ^ exp`; every finite double has this form. -/
structure JsNum where
  num : Int
  exp : Nat
deriving DecidableEq

namespace JsNum

/-- The number is greater than zero. -/
def pos (x : JsNum) : Bool := decide (0 < x.num)

/-- A whole number. -/
def ofNat (n : Nat) : JsNum := ⟨n, 0⟩

end JsNum

/-- A `Date` object: its time value in milliseconds, `none` for an invalid date. -/
abbrev JsDate := Option Int

/-- Values of the environment and builtins that depend on tables outside the program. -/
structure Env where
  /-- The variable `process.env.HOST_NAME`. -/
  HOST_NAME : String
  /-- The builtin `String.prototype.toLowerCase`. -/
  toLowerCase : String → String
  /-- The time value of `new Date(s)` for a string `s`. -/
  dateParse : String → Option Int
  /-- The builtin `Number::toString` on the magnitudes of `10 ^ 21` and above. -/
  bigToString : JsNum → String
  /-- The time value that the `i`-th evaluation of `new Date()` of a build reads. -/
  now : Nat → Int

/-! ## String builtins -/

/-- The builtin `s.startsWith(p)`. -/
def startsWith (s p : String) : Bool := p.data.isPrefixOf s.data

/-- The builtin `s.replace(pat, rep)` on character lists: the first occurrence only. -/
def replaceFirstChars (pat rep : List Char) : List Char → List Char
  | [] => if pat.isEmpty then rep else []
  | c :: cs =>
    if pat.isPrefixOf (c :: cs) then rep ++ (c :: cs).drop pat.length
    else c :: replaceFirstChars pat rep cs

/-- The builtin `s.replace(pat, rep)` for a string pattern and a replacement without `$`. -/
def replaceFirst (s pat rep : String) : String :=
  ⟨replaceFirstChars pat.data rep.data s.data⟩

/-- The call `s.replace(/ /g, "-")`. -/
def replaceSpaces (s : String) : String :=
  ⟨s.data.map (fun c => if c = Char.ofNat 32 then Char.ofNat 45 else c)⟩

/-- The builtin `split` with a one-character separator, on character lists. -/
def splitChars (sep : Char) : List Char → List (List Char)
  | [] => [[]]
  | c :: cs =>
    if c = sep then [] :: splitChars sep cs
    else
      match splitChars sep cs with
      | [] => [[c]]
      | h :: t => (c :: h) :: t

/-- The builtin `s.split(sep)` for a one-character separator. -/
def split (s : String) (sep : Char) : List String :=
  (splitChars sep s.data).map String.mk

/-- Array indexing `xs[i]`. -/
def index (xs : List String) (i : Nat) : JsOpt String :=
  match xs.get? i with
  | some s => JsOpt.val s
  | none => JsOpt.undefined

/-- The call `s.substring(0, 4)`. -/
def substring04 (s : String) : String := ⟨s.data.take 4⟩

/-- The builtin `Array.prototype.join`: `undefined` and `null` elements print as empty. -/
def join (sep : String) : List (JsOpt String) → String
  | [] => ""
  | [x] => (match x with | JsOpt.val s => s | _ => "")
  | x :: y :: rest =>
    (match x with | JsOpt.val s => s | _ => "") ++ sep ++ join sep (y :: rest)

/-- An upper-case hexadecimal digit. -/
def hexDigit (n : Nat) : Char :=
  if n < 10 then Char.ofNat (48 + n) else Char.ofNat (55 + n)

/-- The UTF-8 bytes of a code point. -/
def utf8Bytes (v : Nat) : List Nat :=
  if v < 128 then [v]
  else if v < 2048 then [192 + v / 64, 128 + v % 64]
  else if v < 65536 then [224 + v / 4096, 128 + (v / 64) % 64, 128 + v % 64]
  else [240 + v / 262144, 128 + (v / 4096) % 64, 128 + (v / 64) % 64, 128 + v % 64]

/-- The characters `encodeURIComponent` leaves as they are. -/
def uriUnreserved (c : Char) : Bool :=
  c.isAlphanum || "-_.!~*()".data.contains c || c = Char.ofNat 39

/-- The escape sequence of one byte. -/
def percentByte (b : Nat) : List Char :=
  [Char.ofNat 37, hexDigit (b / 16), hexDigit (b % 16)]

/-- The encoding of one character. -/
def encodeChar (c : Char) : List Char :=
  if uriUnreserved c then [c]
  else
    match utf8Bytes c.toNat with
    | [] => []
    | [a] => percentByte a
    | [a, b] => percentByte a ++ percentByte b
    | [a, b, d] => percentByte a ++ percentByte b ++ percentByte d
    | a :: b :: d :: e :: _ => percentByte a ++ percentByte b ++ percentByte d ++ percentByte e

/-- The encoding of a character list. -/
def encodeChars : List Char → List Char
  | [] => []
  | c :: cs => encodeChar c ++ encodeChars cs

/-- The builtin `encodeURIComponent` on a string. -/
def encodeURIComponent (s : String) : String := ⟨encodeChars s.data⟩

/-- The builtin `x.toFixed(1)`. -/
def toFixed1 (env : Env) (x : JsNum) : String :=
  let a := x.num.natAbs
  let sign := if x.num < 0 then "-" else ""
  if 10 ^ 21 * 2 ^ x.exp ≤ a then sign ++ env.bigToString ⟨a, x.exp⟩
  else
    let n := (20 * a + 2 ^ x.exp) / 2 ^ (x.exp + 1)
    sign ++ (toString (n / 10) ++ "." ++ toString (n % 10))

/-- The expression `new Date(x)` for a string slot. -/
def newDate (env : Env) : JsOpt String → JsDate
  | JsOpt.undefined => none
  | JsOpt.null => some 0
  | JsOpt.val s => env.dateParse s

/-! ## Provider payloads -/

/-- A genre entry. -/
structure Genre where
  name : JsOpt String
deriving DecidableEq

/-- A cast entry of a credits object. -/
structure CastEntry where
  name : JsOpt String
  character : JsOpt String
  profile_path : JsOpt String
deriving DecidableEq

/-- A crew entry of a credits object. -/
structure CrewEntry where
  name : JsOpt String
  job : JsOpt String
  department : JsOpt String
deriving DecidableEq

/-- A credits object; a list is `none` when the field is not an array. -/
structure Credits where
  cast : Option (List CastEntry)
  crew : Option (List CrewEntry)
deriving DecidableEq

/-- An entry of `videos.results`. -/
structure VideoEntry where
  site : JsOpt String
  type : JsOpt String
  key : JsOpt String
  name : JsOpt String
deriving DecidableEq

/-- The field `videos` of a movie payload. -/
structure Videos where
  results : Option (List VideoEntry)
deriving DecidableEq

/-- The field `external_ids` of a movie payload. -/
structure ExternalIds where
  imdb_id : JsOpt String
deriving DecidableEq

/-- A production country. -/
structure Country where
  name : JsOpt String
deriving DecidableEq

/-- The movie payload of the TMDB client. -/
structure MovieData where
  id : Nat
  title : JsOpt String
  external_ids : Option ExternalIds
  poster_path : JsOpt String
  credits : Option Credits
  original_language : JsOpt String
  vote_average : JsOpt JsNum
  genres : Option (List Genre)
  overview : JsOpt String
  release_date : JsOpt String
  runtime : Option Nat
  production_countries : Option (List Country)
  backdrop_path : JsOpt String
  videos : Option Videos
deriving DecidableEq

/-- An entry of `translations.nameTranslations`. -/
structure NameTranslation where
  language : JsOpt String
  name : JsOpt String
deriving DecidableEq

/-- An entry of `translations.overviewTranslations`. -/
structure OverviewTranslation where
  language : JsOpt String
  overview : JsOpt String
deriving DecidableEq

/-- The field `translations` of a series payload. -/
structure Translations where
  nameTranslations : Option (List NameTranslation)
  overviewTranslations : Option (List OverviewTranslation)
deriving DecidableEq

/-- An entry of `remoteIds`. -/
structure RemoteId where
  id : JsOpt String
  sourceName : JsOpt String
deriving DecidableEq

/-- An entry of `characters`. -/
structure Character where
  personName : JsOpt String
  name : JsOpt String
  image : JsOpt String
deriving DecidableEq

/-- An entry of `companies.production`. -/
structure Company where
  name : JsOpt String
deriving DecidableEq

/-- The field `companies` of a series payload. -/
structure Companies where
  production : Option (List Company)
deriving DecidableEq

/-- The field `status` of a series payload. -/
structure Status where
  name : JsOpt String
deriving DecidableEq

/-- An entry of `artworks`. -/
structure Artwork where
  type : JsOpt Nat
  image : JsOpt String
deriving DecidableEq

/-- The extended series payload of the TVDB client. -/
structure TvdbShow where
  id : JsOpt Nat
  year : JsOpt String
  image : JsOpt String
  remoteIds : Option (List RemoteId)
  characters : Option (List Character)
  translations : Option Translations
  name : JsOpt String
  overview : JsOpt String
  originalLanguage : JsOpt String
  score : JsOpt JsNum
  genres : Option (List Genre)
  companies : Option Companies
  firstAired : JsOpt String
  averageRuntime : Option Nat
  status : Option Status
  originalCountry : JsOpt String
  artworks : Option (List Artwork)
deriving DecidableEq

/-- An episode of the TVDB episode list. -/
structure Episode where
  image : JsOpt String
  name : JsOpt String
  overview : JsOpt String
  aired : JsOpt String
  seasonNumber : JsOpt Nat
  number : JsOpt Nat
deriving DecidableEq

/-- The episode payload of the TVDB client. -/
structure TvdbEpisodes where
  episodes : Option (List Episode)
deriving DecidableEq

/-- The value of `config.castCount`. -/
inductive CastCountSetting where
  | unset : CastCountSetting
  | text (s : String) : CastCountSetting
  | number (n : Nat) : CastCountSetting
  | other : CastCountSetting
deriving DecidableEq

/-- The decoded configuration object. -/
structure Config where
  castCount : CastCountSetting
  rpdbkey : JsOpt String
  /-- Truthiness of `config.hideEpisodeThumbnails`. -/
  hideEpisodeThumbnails : Bool
deriving DecidableEq

/-! ## Output records -/

/-- An entry of `app_extras.cast`. -/
structure CastMember where
  name : JsOpt String
  character : JsOpt String
  photo : JsOpt String
deriving DecidableEq

/-- A trailer entry. -/
structure Trailer where
  source : JsOpt String
  type : JsOpt String
  name : JsOpt String
  ytId : JsOpt String
deriving DecidableEq

/-- A trailer stream entry. -/
structure TrailerStream where
  title : JsOpt String
  ytId : JsOpt String
deriving DecidableEq

/-- A link of the record. -/
structure Link where
  name : JsOpt String
  category : String
  url : String
deriving DecidableEq

/-- The field `behaviorHints`. -/
structure BehaviorHints where
  defaultVideoId : JsOpt String
  hasScheduledVideos : Bool
deriving DecidableEq

/-- An episode record of the series record; `released` is `null` or a date. -/
structure EpisodeRecord where
  id : String
  title : String
  season : JsOpt Nat
  episode : JsOpt Nat
  thumbnail : JsOpt String
  overview : JsOpt String
  released : JsOpt JsDate
  available : Bool
deriving DecidableEq

/-- The record built for a movie. -/
structure MovieMeta where
  id : String
  type : String
  name : JsOpt String
  imdb_id : JsOpt String
  slug : String
  genres : List (JsOpt String)
  description : JsOpt String
  director : String
  writer : String
  year : String
  released : JsDate
  runtime : String
  country : String
  imdbRating : String
  poster : String
  background : String
  logo : JsOpt String
  trailers : List Trailer
  trailerStreams : List TrailerStream
  links : List Link
  behaviorHints : BehaviorHints
  app_extras_cast : List CastMember
deriving DecidableEq

/-- The record built for a series. -/
structure SeriesMeta where
  id : String
  type : String
  name : JsOpt String
  imdb_id : JsOpt String
  slug : String
  genres : List (JsOpt String)
  description : JsOpt String
  writer : String
  year : JsOpt String
  released : JsDate
  runtime : String
  status : JsOpt String
  country : JsOpt String
  imdbRating : String
  poster : String
  background : JsOpt String
  logo : JsOpt String
  videos : List EpisodeRecord
  links : List Link
  behaviorHints : BehaviorHints
  app_extras_cast : List CastMember
deriving DecidableEq

/-- The record of either kind. -/
inductive Meta where
  | movie (m : MovieMeta) : Meta
  | series (s : SeriesMeta) : Meta
deriving DecidableEq

/-- The identifier of a record. -/
def Meta.id : Meta → String
  | Meta.movie m => m.id
  | Meta.series s => s.id

/-- The links of a record. -/
def Meta.links : Meta → List Link
  | Meta.movie m => m.links
  | Meta.series s => s.links

/-- The object `{ meta }` returned by `getMeta`; `none` is `null`. -/
structure MetaResponse where
  meta : Option Meta
deriving DecidableEq

/-! ## parseProps.js -/

/-- The function `parseCast`; `count` is `none` for `undefined`. -/
def parseCast (credits : Option Credits) (count : Option Nat) : List CastMember :=
  match optObj credits Credits.cast with
  | none => []
  | some cast =>
    let toParse := match count with
      | none => cast
      | some k => cast.take k
    toParse.map fun el =>
      let photoUrl : JsOpt String :=
        if el.profile_path.truthy then
          if startsWith el.profile_path.toStr "http" then el.profile_path
          else JsOpt.val ("https://image.tmdb.org/t/p/w276_and_h350_face" ++ el.profile_path.toStr)
        else JsOpt.null
      { name := el.name, character := el.character, photo := photoUrl }

/-- The function `parseDirector`. -/
def parseDirector (credits : Option Credits) : List (JsOpt String) :=
  match optObj credits Credits.crew with
  | none => []
  | some crew => (crew.filter fun x => decide (x.job = JsOpt.val "Director")).map fun el => el.name

/-- The elements of `new Set(xs)` in insertion order: each value at its first occurrence. -/
def setOf : List (JsOpt String) → List (JsOpt String) → List (JsOpt String)
  | seen, [] => seen.reverse
  | seen, x :: xs => if x ∈ seen then setOf seen xs else setOf (x :: seen) xs

/-- The function `parseWriter`. -/
def parseWriter (credits : Option Credits) : List (JsOpt String) :=
  match optObj credits Credits.crew with
  | none => []
  | some crew =>
    let writers := (crew.filter fun x => decide (x.department = JsOpt.val "Writing")).map fun el => el.name
    let creators := (crew.filter fun x => decide (x.job = JsOpt.val "Creator")).map fun el => el.name
    setOf [] (writers ++ creators)

/-- The function `parseSlug`; reading `toLowerCase` of a missing title throws. -/
def parseSlug (env : Env) (type : String) (title imdb_id : JsOpt String) : Except String String :=
  match title with
  | JsOpt.val t =>
    Except.ok (type ++ "/" ++ replaceSpaces (env.toLowerCase t) ++ "-" ++
      (if imdb_id.truthy then replaceFirst imdb_id.toStr "tt" "" else ""))
  | _ => Except.error "Cannot read properties of undefined (reading toLowerCase)"

/-- The filter shared by `parseTrailers` and `parseTrailerStream`. -/
def isYouTubeTrailer (el : VideoEntry) : Bool :=
  decide (el.site = JsOpt.val "YouTube") && decide (el.type = JsOpt.val "Trailer")

/-- The function `parseTrailers`. -/
def parseTrailers (videos : Option Videos) : List Trailer :=
  match optObj videos Videos.results with
  | none => []
  | some results =>
    (results.filter isYouTubeTrailer).map fun el =>
      { source := el.key, type := el.type, name := el.name, ytId := el.key }

/-- The function `parseTrailerStream`. -/
def parseTrailerStream (videos : Option Videos) : List TrailerStream :=
  match optObj videos Videos.results with
  | none => []
  | some results =>
    (results.filter isYouTubeTrailer).map fun el => { title := el.name, ytId := el.key }

/-- The function `parseImdbLink`. -/
def parseImdbLink (vote_average : String) (imdb_id : JsOpt String) : Link :=
  { name := JsOpt.val vote_average, category := "imdb",
    url := "https://imdb.com/title/" ++ imdb_id.toStr }

/-- The function `parseShareLink`. -/
def parseShareLink (title imdb_id : JsOpt String) (type : String) : Link :=
  { name := JsOpt.val "Share", category := "share",
    url := "https://www.strem.io/s/" ++ type ++ "/" ++ imdb_id.toStr ++ "/" ++
      encodeURIComponent title.toStr }

/-- The public host: `HOST_NAME`, with `https://` put in front unless it starts with `http`. -/
def host (env : Env) : String :=
  if startsWith env.HOST_NAME "http" then env.HOST_NAME else "https://" ++ env.HOST_NAME

/-- The function `parseGenreLink`. -/
def parseGenreLink (env : Env) (genres : Option (List Genre)) (type : String)
    (configString : JsOpt String) : List Link :=
  match genres with
  | none => []
  | some gs =>
    if env.HOST_NAME = "" then []
    else
      let manifestPath :=
        if configString.truthy then configString.toStr ++ "/manifest.json" else "manifest.json"
      gs.filterMap fun genre =>
        if genre.name.truthy then
          some { name := genre.name, category := "Genres",
                 url := "stremio:///discover/" ++
                   encodeURIComponent (host env ++ "/" ++ manifestPath) ++ "/" ++ type ++
                   "/tmdb.top?genre=" ++ encodeURIComponent genre.name.toStr }
        else none

/-- The function `parseCreditsLink`. -/
def parseCreditsLink (credits : Option Credits) (castCount : Option Nat) : List Link :=
  let castData := parseCast credits castCount
  let cast := castData.map fun actor =>
    ({ name := actor.name, category := "Cast",
       url := "stremio:///search?search=" ++ encodeURIComponent actor.name.toStr } : Link)
  let director := (parseDirector credits).map fun d =>
    ({ name := d, category := "Directors",
       url := "stremio:///search?search=" ++ encodeURIComponent d.toStr } : Link)
  let writer := (parseWriter credits).map fun w =>
    ({ name := w, category := "Writers",
       url := "stremio:///search?search=" ++ encodeURIComponent w.toStr } : Link)
  cast ++ director ++ writer

/-- The function `buildLinks`; every element of the array is an object, so the final
`filter` keeps them all. -/
def buildLinks (env : Env) (imdbRating : String) (imdbId title : JsOpt String) (type : String)
    (genres : Option (List Genre)) (credits : Option Credits) (castCount : Option Nat)
    (catalogChoices : JsOpt String) : List Link :=
  if imdbId.truthy then
    [parseImdbLink imdbRating imdbId, parseShareLink title imdbId type] ++
      parseGenreLink env genres type catalogChoices ++ parseCreditsLink credits castCount
  else []

/-- The function `parseCoutry`. -/
def parseCoutry (production_countries : Option (List Country)) : String :=
  match production_countries with
  | some cs => join ", " (cs.map fun c => c.name)
  | none => ""

/-- The function `parseGenres`. -/
def parseGenres (genres : Option (List Genre)) : List (JsOpt String) :=
  match genres with
  | some gs => gs.map fun el => el.name
  | none => []

/-- The function `parseRunTime`; `none` is an absent runtime. -/
def parseRunTime (runtime : Option Nat) : String :=
  match runtime with
  | none => ""
  | some r =>
    if r = 0 then ""
    else
      let hours := r / 60
      let minutes := r % 60
      if r ≥ 60 then
        if hours > 0 then
          toString hours ++ "h" ++ (if minutes > 0 then toString minutes ++ "min" else "")
        else toString minutes ++ "min"
      else toString r ++ "min"

/-! ## getMeta.js -/

/-- An identifier value: a string cut out of the inbound identifier, or a provider number. -/
inductive JsId where
  | str (s : String) : JsId
  | num (n : Nat) : JsId
deriving DecidableEq

/-- Truthiness of an identifier slot. -/
def JsId.truthy : JsOpt JsId → Bool
  | JsOpt.val (JsId.str s) => s != ""
  | JsOpt.val (JsId.num n) => n != 0
  | _ => false

/-- The text of an identifier slot inside a request or a template literal. -/
def JsId.render : JsOpt JsId → String
  | JsOpt.val (JsId.str s) => s
  | JsOpt.val (JsId.num n) => toString n
  | JsOpt.null => "null"
  | JsOpt.undefined => "undefined"

/-- A string slot as an identifier slot. -/
def JsId.ofStr : JsOpt String → JsOpt JsId
  | JsOpt.val s => JsOpt.val (JsId.str s)
  | JsOpt.null => JsOpt.null
  | JsOpt.undefined => JsOpt.undefined

/-- A number slot as an identifier slot. -/
def JsId.ofNat : JsOpt Nat → JsOpt JsId
  | JsOpt.val n => JsOpt.val (JsId.num n)
  | JsOpt.null => JsOpt.null
  | JsOpt.undefined => JsOpt.undefined

/-- An item of the result lists of the external-id lookup. -/
structure FindItem where
  id : Nat
deriving DecidableEq

/-- The result of `moviedb.find`. -/
structure FindResults where
  movie_results : Option (List FindItem)
  tv_results : Option (List FindItem)
deriving DecidableEq

/-- The field `external_ids` of the TMDB series payload. -/
structure TvExternalIds where
  tvdb_id : JsOpt Nat
deriving DecidableEq

/-- The result of `moviedb.tvInfo`. -/
structure TvInfo where
  external_ids : Option TvExternalIds
deriving DecidableEq

/-- The identifiers handed to `getLogo`. -/
structure LogoIds where
  tmdbId : JsOpt String
  tvdbId : JsOpt String
deriving DecidableEq

/-- The collaborators: each call is the outcome of the promise it returns.  Requests are
keyed by the text of the identifier put into them. -/
structure Collab where
  /-- The call `moviedb.find` with `external_source: imdb_id`. -/
  find : String → Except String FindResults
  /-- The call `moviedb.movieInfo` with id and language. -/
  movieInfo : String → String → Except String MovieData
  /-- The call `moviedb.tvInfo`. -/
  tvInfo : String → Except String TvInfo
  /-- The call `tvdb.getSeriesExtended`; `none` is a falsy result. -/
  getSeriesExtended : String → Except String (Option TvdbShow)
  /-- The call `tvdb.getSeriesEpisodes` with id and language; `none` is a falsy result. -/
  getSeriesEpisodes : String → String → Except String (Option TvdbEpisodes)
  /-- The call `getLogo` with kind, ids, language and original language. -/
  getLogo : String → LogoIds → String → JsOpt String → Except String (JsOpt String)
  /-- The call `getImdbRating` with IMDb id and kind. -/
  getImdbRating : JsOpt String → String → Except String (JsOpt String)
  /-- The call `to3LetterCode`. -/
  to3LetterCode : String → Except String (JsOpt String)

/-- The constant `TVDB_IMAGE_BASE`. -/
def TVDB_IMAGE_BASE : String := "https://artworks.thetvdb.com"

/-- The function `processLogo`. -/
def processLogo (logoUrl : JsOpt String) : JsOpt String :=
  match logoUrl with
  | JsOpt.val s =>
    if s = "" then JsOpt.null
    else if startsWith s "http:" then JsOpt.val ("https:" ++ ⟨s.data.drop 5⟩)
    else JsOpt.val s
  | _ => JsOpt.null

/-- The cast count both builders compute from `config.castCount`; `none` is `undefined`. -/
def castCountOf (config : Config) : Option Nat :=
  match config.castCount with
  | CastCountSetting.text s => if s = "unlimited" then none else some 5
  | CastCountSetting.number n => if n = 5 ∨ n = 10 ∨ n = 15 then some n else some 5
  | _ => some 5

/-- The optional call `x?.toFixed(1)`. -/
def optToFixed1 (env : Env) : JsOpt JsNum → JsOpt String
  | JsOpt.val x => JsOpt.val (toFixed1 env x)
  | _ => JsOpt.undefined

/-- The function `buildMovieResponse`. -/
def buildMovieResponse (env : Env) (c : Collab) (movieData : MovieData) (language : String)
    (config : Config) (catalogChoices : JsOpt String) : Except String MovieMeta := do
  let tmdbId := movieData.id
  let title := movieData.title
  let credits := movieData.credits
  let imdbId := optField movieData.external_ids ExternalIds.imdb_id
  let castCount := castCountOf config
  let logoUrl ← c.getLogo "movie" ⟨JsOpt.val (toString tmdbId), JsOpt.undefined⟩ language
    movieData.original_language
  let imdbRatingValue ← c.getImdbRating imdbId "movie"
  let imdbRating := (imdbRatingValue.or (optToFixed1 env movieData.vote_average)).orStr "N/A"
  let fallbackPosterUrl := "https://image.tmdb.org/t/p/w500" ++ movieData.poster_path.toStr
  let posterProxyUrl := host env ++ "/poster/movie/tmdb:" ++ toString movieData.id ++
    "?fallback=" ++ encodeURIComponent fallbackPosterUrl ++ "&lang=" ++ language ++
    "&key=" ++ config.rpdbkey.toStr
  let slug ← parseSlug env "movie" title imdbId
  return {
    id := "tmdb:" ++ toString tmdbId
    type := "movie"
    name := title
    imdb_id := imdbId
    slug := slug
    genres := parseGenres movieData.genres
    description := movieData.overview
    director := join ", " (parseDirector credits)
    writer := join ", " (parseWriter credits)
    year := if movieData.release_date.truthy then substring04 movieData.release_date.toStr else ""
    released := newDate env movieData.release_date
    runtime := parseRunTime movieData.runtime
    country := parseCoutry movieData.production_countries
    imdbRating := imdbRating
    poster := if config.rpdbkey.truthy then posterProxyUrl else fallbackPosterUrl
    background := "https://image.tmdb.org/t/p/original" ++ movieData.backdrop_path.toStr
    logo := processLogo logoUrl
    trailers := parseTrailers movieData.videos
    trailerStreams := parseTrailerStream movieData.videos
    links := buildLinks env imdbRating imdbId title "movie" movieData.genres credits castCount
      catalogChoices
    behaviorHints := {
      defaultVideoId := imdbId.or (JsOpt.val ("tmdb:" ++ toString tmdbId))
      hasScheduledVideos := false }
    app_extras_cast := parseCast credits castCount }

/-- The callback of the episode map; `now` is what its `new Date()` reads. -/
def episodeRecord (env : Env) (config : Config) (imdbId : JsOpt String) (tvdbId : JsOpt Nat)
    (now : Int) (episode : Episode) : EpisodeRecord :=
  let thumbnailUrl : JsOpt String :=
    if episode.image.truthy then JsOpt.val (TVDB_IMAGE_BASE ++ episode.image.toStr)
    else JsOpt.null
  let finalThumbnail : JsOpt String :=
    if config.hideEpisodeThumbnails && thumbnailUrl.truthy then
      JsOpt.val (host env ++ "/api/image/blur?url=" ++ encodeURIComponent thumbnailUrl.toStr)
    else thumbnailUrl
  { id := imdbId.orStr ("tvdb" ++ tvdbId.natToStr) ++ ":" ++ episode.seasonNumber.natToStr ++
      ":" ++ episode.number.natToStr
    title := episode.name.orStr ("Episode " ++ episode.number.natToStr)
    season := episode.seasonNumber
    episode := episode.number
    thumbnail := finalThumbnail
    overview := episode.overview
    released :=
      if episode.aired.truthy then JsOpt.val (env.dateParse episode.aired.toStr) else JsOpt.null
    available :=
      if episode.aired.truthy then
        match env.dateParse episode.aired.toStr with
        | some t => decide (t < now)
        | none => false
      else false }

/-- The episode map: the `i`-th callback reads the clock at `env.now i`. -/
def mapEpisodes (env : Env) (config : Config) (imdbId : JsOpt String) (tvdbId : JsOpt Nat) :
    Nat → List Episode → List EpisodeRecord
  | _, [] => []
  | i, e :: es =>
    episodeRecord env config imdbId tvdbId (env.now i) e ::
      mapEpisodes env config imdbId tvdbId (i + 1) es

/-- The expression `xs.find(t => t.language === code)?.name` over the name translations. -/
def findName (xs : List NameTranslation) (code : JsOpt String) : JsOpt String :=
  optField (xs.find? fun t => decide (t.language = code)) NameTranslation.name

/-- The expression `xs.find(t => t.language === code)?.overview` over the overview translations. -/
def findOverview (xs : List OverviewTranslation) (code : JsOpt String) : JsOpt String :=
  optField (xs.find? fun t => decide (t.language = code)) OverviewTranslation.overview

/-- The expression `remoteIds?.find(id => id.sourceName === tag)?.id`. -/
def findRemoteId (remoteIds : Option (List RemoteId)) (tag : String) : JsOpt String :=
  optField (optObj remoteIds fun l => l.find? fun r => decide (r.sourceName = JsOpt.val tag))
    RemoteId.id

/-- The function `buildSeriesResponseFromTvdb`. -/
def buildSeriesResponseFromTvdb (env : Env) (c : Collab) (tvdbShow : TvdbShow)
    (tvdbEpisodes : TvdbEpisodes) (language : String) (config : Config)
    (catalogChoices : JsOpt String) : Except String SeriesMeta := do
  let langCode := (split language (Char.ofNat 45)).headD ""
  let langCode3 ← c.to3LetterCode langCode
  let nameTranslations := (optObj tvdbShow.translations Translations.nameTranslations).getD []
  let overviewTranslations :=
    (optObj tvdbShow.translations Translations.overviewTranslations).getD []
  let translatedName :=
    ((findName nameTranslations langCode3).or (findName nameTranslations (JsOpt.val "eng"))).or
      tvdbShow.name
  let overview :=
    ((findOverview overviewTranslations langCode3).or
      (findOverview overviewTranslations (JsOpt.val "eng"))).or tvdbShow.overview
  let imdbId := findRemoteId tvdbShow.remoteIds "IMDB"
  let tmdbId := findRemoteId tvdbShow.remoteIds "TheMovieDB"
  let tvdbId := tvdbShow.id
  let castCount := castCountOf config
  let logoUrl ← c.getLogo "series" ⟨tmdbId.strToString, tvdbId.natToString⟩ language
    tvdbShow.originalLanguage
  let imdbRatingValue ← c.getImdbRating imdbId "series"
  let imdbRating :=
    imdbRatingValue.orStr
      (match tvdbShow.score with
       | JsOpt.val x => if x.pos then toFixed1 env x else "N/A"
       | _ => "N/A")
  let fallbackPosterUrl :=
    if tvdbShow.image.truthy then tvdbShow.image.toStr
    else "https://artworks.thetvdb.com/banners/images/missing/series.jpg"
  let posterProxyUrl := host env ++ "/poster/series/tvdb:" ++ tvdbShow.id.natToStr ++
    "?fallback=" ++ encodeURIComponent fallbackPosterUrl ++ "&lang=" ++ language ++
    "&key=" ++ config.rpdbkey.toStr
  let tmdbLikeCredits : Option Credits := some {
    cast := some ((tvdbShow.characters.getD []).map fun ch =>
      { name := ch.personName, character := ch.name, profile_path := ch.image })
    crew := some [] }
  let videos := mapEpisodes env config imdbId tvdbId 0 (tvdbEpisodes.episodes.getD [])
  let slug ← parseSlug env "series" translatedName imdbId
  return {
    id := if tmdbId.truthy then "tmdb:" ++ tmdbId.toStr else "tvdb:" ++ tvdbId.natToStr
    type := "series"
    name := translatedName
    imdb_id := imdbId
    slug := slug
    genres := (match tvdbShow.genres with
      | some gs => gs.map fun g => g.name
      | none => [])
    description := overview
    writer := join ", " (((optObj tvdbShow.companies Companies.production).getD []).map
      fun p => p.name)
    year := tvdbShow.year
    released := newDate env tvdbShow.firstAired
    runtime := parseRunTime tvdbShow.averageRuntime
    status := optField tvdbShow.status Status.name
    country := tvdbShow.originalCountry
    imdbRating := imdbRating
    poster := if config.rpdbkey.truthy then posterProxyUrl else fallbackPosterUrl
    background := optField
      (optObj tvdbShow.artworks fun l => l.find? fun a => decide (a.type = JsOpt.val 3))
      Artwork.image
    logo := processLogo logoUrl
    videos := videos
    links := buildLinks env imdbRating imdbId translatedName "series" tvdbShow.genres
      tmdbLikeCredits castCount catalogChoices
    behaviorHints := { defaultVideoId := JsOpt.null, hasScheduledVideos := true }
    app_extras_cast := parseCast tmdbLikeCredits castCount }

/-- The function `getMovieMeta`. -/
def getMovieMeta (env : Env) (c : Collab) (stremioId language : String) (config : Config)
    (catalogChoices : JsOpt String) : Except String MovieMeta := do
  let tmdbId ←
    if startsWith stremioId "tt" then do
      let findResults ← c.find stremioId
      match (findResults.movie_results.getD []).head? with
      | none => throw ("Movie with IMDb ID " ++ stremioId ++ " not found on TMDB.")
      | some movieTmdb => pure (toString movieTmdb.id)
    else pure (replaceFirst stremioId "tmdb:" "")
  let movieData ← c.movieInfo tmdbId language
  buildMovieResponse env c movieData language config catalogChoices

/-- The function `getSeriesMeta`. -/
def getSeriesMeta (env : Env) (c : Collab) (stremioId language : String) (config : Config)
    (catalogChoices : JsOpt String) : Except String SeriesMeta := do
  let tvdbId : JsOpt JsId ←
    if startsWith stremioId "tvdb:" then
      pure (JsId.ofStr (index (split stremioId (Char.ofNat 58)) 1))
    else do
      let tmdbIdToFind : JsOpt JsId ←
        if startsWith stremioId "tmdb:" then
          pure (JsId.ofStr (index (split stremioId (Char.ofNat 58)) 1))
        else do
          let findResults ← c.find stremioId
          match findResults.tv_results with
          | none => throw "Cannot read properties of undefined (reading 0)"
          | some rs =>
            match rs.head? with
            | some item => pure (JsOpt.val (JsId.num item.id))
            | none => pure JsOpt.undefined
      if !JsId.truthy tmdbIdToFind then
        throw ("Could not resolve " ++ stremioId ++ " to a TMDB ID.")
      let tmdbInfo ← c.tvInfo (JsId.render tmdbIdToFind)
      pure (JsId.ofNat (optField tmdbInfo.external_ids TvExternalIds.tvdb_id))
  if !JsId.truthy tvdbId then
    throw ("Could not resolve " ++ stremioId ++ " to a TVDB ID.")
  let baseData ← c.getSeriesExtended (JsId.render tvdbId)
  let episodesData ← c.getSeriesEpisodes (JsId.render tvdbId) language
  match baseData, episodesData with
  | some base, some eps => buildSeriesResponseFromTvdb env c base eps language config catalogChoices
  | _, _ => throw ("Could not fetch complete data for TVDB ID " ++ JsId.render tvdbId ++ ".")

/-- The function `getMeta`: any rejection inside the `try` block gives `{ meta: null }`. -/
def getMeta (env : Env) (c : Collab) (type language stremioId : String) (config : Config)
    (catalogChoices : JsOpt String) : MetaResponse :=
  let outcome : Except String Meta :=
    if type = "movie" then
      (getMovieMeta env c stremioId language config catalogChoices).map Meta.movie
    else
      (getSeriesMeta env c stremioId language config catalogChoices).map Meta.series
  match outcome with
  | Except.ok meta => { meta := some meta }
  | Except.error _ => { meta := none }

/-- The tail of `getSeriesMeta` once the TVDB id is known: both fetches, then the builder. -/
def fetchAndBuild (env : Env) (c : Collab) (id language : String) (config : Config)
    (catalogChoices : JsOpt String) : Except String SeriesMeta :=
  match c.getSeriesExtended id with
  | Except.error e => Except.error e
  | Except.ok base =>
    match c.getSeriesEpisodes id language with
    | Except.error e => Except.error e
    | Except.ok eps =>
      match base, eps with
      | some b, some e => buildSeriesResponseFromTvdb env c b e language config catalogChoices
      | _, _ => Except.error ("Could not fetch complete data for TVDB ID " ++ id ++ ".")
/-! ## Fixtures -/

/-- A sample environment. -/
def demoEnv : Env :=
  { HOST_NAME := "addon.example.org"
    toLowerCase := fun s => ⟨s.data.map Char.toLower⟩
    dateParse := fun s =>
      if s = "2008-01-20" then some 1200787200000
      else if s = "2999-01-01" then some 32472144000000
      else none
    bigToString := fun _ => "1e+21"
    now := fun _ => 1700000000000 }

/-- A sample movie payload. -/
def demoMovie : MovieData :=
  { id := 603
    title := JsOpt.val "The Matrix"
    external_ids := some ⟨JsOpt.val "tt0133093"⟩
    poster_path := JsOpt.val "/p.jpg"
    credits := some {
      cast := some [⟨JsOpt.val "Keanu Reeves", JsOpt.val "Neo", JsOpt.val "/k.jpg"⟩]
      crew := some [⟨JsOpt.val "Lana Wachowski", JsOpt.val "Director", JsOpt.val "Directing"⟩] }
    original_language := JsOpt.val "en"
    vote_average := JsOpt.val ⟨65, 3⟩
    genres := some [⟨JsOpt.val "Action"⟩]
    overview := JsOpt.val "A hacker learns the truth."
    release_date := JsOpt.val "1999-03-31"
    runtime := some 136
    production_countries := some [⟨JsOpt.val "United States of America"⟩]
    backdrop_path := JsOpt.val "/b.jpg"
    videos := some ⟨some []⟩ }

/-- A sample series payload: a French and an English name, an English overview only. -/
def demoShow : TvdbShow :=
  { id := JsOpt.val 81189
    year := JsOpt.val "2008"
    image := JsOpt.val "https://artworks.thetvdb.com/banners/posters/81189-10.jpg"
    remoteIds := some [⟨JsOpt.val "tt0903747", JsOpt.val "IMDB"⟩,
      ⟨JsOpt.val "1396", JsOpt.val "TheMovieDB"⟩]
    characters := some [⟨JsOpt.val "Bryan Cranston", JsOpt.val "Walter White", JsOpt.null⟩]
    translations := some {
      nameTranslations := some [⟨JsOpt.val "fra", JsOpt.val "Breaking Bad FR"⟩,
        ⟨JsOpt.val "eng", JsOpt.val "Breaking Bad"⟩]
      overviewTranslations := some [⟨JsOpt.val "eng", JsOpt.val "A teacher turns to crime."⟩] }
    name := JsOpt.val "Breaking Bad (default)"
    overview := JsOpt.val "Default overview."
    originalLanguage := JsOpt.val "eng"
    score := JsOpt.val ⟨35, 2⟩
    genres := some [⟨JsOpt.val "Drama"⟩]
    companies := none
    firstAired := JsOpt.val "2008-01-20"
    averageRuntime := some 47
    status := some ⟨JsOpt.val "Ended"⟩
    originalCountry := JsOpt.val "usa"
    artworks := some [⟨JsOpt.val 3, JsOpt.val "https://artworks.thetvdb.com/banners/fanart/81189.jpg"⟩] }

/-- A sample episode payload: an aired episode, a future episode, an episode without date. -/
def demoEpisodes : TvdbEpisodes :=
  { episodes := some [
      ⟨JsOpt.val "/banners/episodes/81189/1.jpg", JsOpt.val "Pilot", JsOpt.val "First.",
        JsOpt.val "2008-01-20", JsOpt.val 1, JsOpt.val 1⟩,
      ⟨JsOpt.null, JsOpt.null, JsOpt.null, JsOpt.val "2999-01-01", JsOpt.val 1, JsOpt.val 2⟩,
      ⟨JsOpt.val "/banners/episodes/81189/3.jpg", JsOpt.val "Third", JsOpt.undefined,
        JsOpt.null, JsOpt.val 1, JsOpt.val 3⟩] }

/-- Sample collaborators; the rating lookup knows no rating. -/
def demoCollab : Collab :=
  { find := fun id =>
      if id = "tt0903747" then Except.ok ⟨some [], some [⟨1396⟩]⟩
      else if id = "tt0133093" then Except.ok ⟨some [⟨603⟩], some []⟩
      else Except.ok ⟨some [], some []⟩
    movieInfo := fun id _ =>
      if id = "603" then Except.ok demoMovie else Except.error "Request failed with status 404"
    tvInfo := fun id =>
      if id = "1396" then Except.ok ⟨some ⟨JsOpt.val 81189⟩⟩
      else Except.error "Request failed with status 404"
    getSeriesExtended := fun id => if id = "81189" then Except.ok (some demoShow) else Except.ok none
    getSeriesEpisodes := fun id _ =>
      if id = "81189" then Except.ok (some demoEpisodes) else Except.ok none
    getLogo := fun _ _ _ _ => Except.ok (JsOpt.val "http://logo.example.org/l.png")
    getImdbRating := fun _ _ => Except.ok JsOpt.undefined
    to3LetterCode := fun s =>
      if s = "fr" then Except.ok (JsOpt.val "fra")
      else if s = "de" then Except.ok (JsOpt.val "deu")
      else if s = "en" then Except.ok (JsOpt.val "eng")
      else Except.ok JsOpt.undefined }

/-- A sample configuration: no premium key, thumbnails hidden. -/
def demoConfig : Config :=
  { castCount := CastCountSetting.unset, rpdbkey := JsOpt.undefined, hideEpisodeThumbnails := true }

/-- The record the series builder makes of the sample series for the language `de-DE`. -/
def demoSeriesMeta : SeriesMeta :=
  { id := "tmdb:1396",
    type := "series",
    name := JsOpt.val "Breaking Bad",
    imdb_id := JsOpt.val "tt0903747",
    slug := "series/breaking-bad-0903747",
    genres := [JsOpt.val "Drama"],
    description := JsOpt.val "A teacher turns to crime.",
    writer := "",
    year := JsOpt.val "2008",
    released := some 1200787200000,
    runtime := "47min",
    status := JsOpt.val "Ended",
    country := JsOpt.val "usa",
    imdbRating := "8.8",
    poster := "https://artworks.thetvdb.com/banners/posters/81189-10.jpg",
    background := JsOpt.val "https://artworks.thetvdb.com/banners/fanart/81189.jpg",
    logo := JsOpt.val "https://logo.example.org/l.png",
    videos := [{ id := "tt0903747:1:1",
                 title := "Pilot",
                 season := JsOpt.val 1,
                 episode := JsOpt.val 1,
                 thumbnail := JsOpt.val
                                "https://addon.example.org/api/image/blur?url=https%3A%2F%2Fartworks.thetvdb.com%2Fbanners%2Fepisodes%2F81189%2F1.jpg",
                 overview := JsOpt.val "First.",
                 released := JsOpt.val (some 1200787200000),
                 available := true },
               { id := "tt0903747:1:2",
                 title := "Episode 2",
                 season := JsOpt.val 1,
                 episode := JsOpt.val 2,
                 thumbnail := JsOpt.null,
                 overview := JsOpt.null,
                 released := JsOpt.val (some 32472144000000),
                 available := false },
               { id := "tt0903747:1:3",
                 title := "Third",
                 season := JsOpt.val 1,
                 episode := JsOpt.val 3,
                 thumbnail := JsOpt.val
                                "https://addon.example.org/api/image/blur?url=https%3A%2F%2Fartworks.thetvdb.com%2Fbanners%2Fepisodes%2F81189%2F3.jpg",
                 overview := JsOpt.undefined,
                 released := JsOpt.null,
                 available := false }],
    links := [{ name := JsOpt.val "8.8", category := "imdb", url := "https://imdb.com/title/tt0903747" },
              { name := JsOpt.val "Share",
                category := "share",
                url := "https://www.strem.io/s/series/tt0903747/Breaking%20Bad" },
              { name := JsOpt.val "Drama",
                category := "Genres",
                url := "stremio:///discover/https%3A%2F%2Faddon.example.org%2Fmanifest.json/series/tmdb.top?genre=Drama" },
              { name := JsOpt.val "Bryan Cranston",
                category := "Cast",
                url := "stremio:///search?search=Bryan%20Cranston" }],
    behaviorHints := { defaultVideoId := JsOpt.null, hasScheduledVideos := true },
    app_extras_cast := [{ name := JsOpt.val "Bryan Cranston",
                          character := JsOpt.val "Walter White",
                          photo := JsOpt.null }] }

/-- The record the movie builder makes of the sample movie. -/
def demoMovieMeta : MovieMeta :=
  { id := "tmdb:603",
    type := "movie",
    name := JsOpt.val "The Matrix",
    imdb_id := JsOpt.val "tt0133093",
    slug := "movie/the-matrix-0133093",
    genres := [JsOpt.val "Action"],
    description := JsOpt.val "A hacker learns the truth.",
    director := "Lana Wachowski",
    writer := "",
    year := "1999",
    released := none,
    runtime := "2h16min",
    country := "United States of America",
    imdbRating := "8.1",
    poster := "https://image.tmdb.org/t/p/w500/p.jpg",
    background := "https://image.tmdb.org/t/p/original/b.jpg",
    logo := JsOpt.val "https://logo.example.org/l.png",
    trailers := [],
    trailerStreams := [],
    links := [{ name := JsOpt.val "8.1", category := "imdb", url := "https://imdb.com/title/tt0133093" },
              { name := JsOpt.val "Share",
                category := "share",
                url := "https://www.strem.io/s/movie/tt0133093/The%20Matrix" },
              { name := JsOpt.val "Action",
                category := "Genres",
                url := "stremio:///discover/https%3A%2F%2Faddon.example.org%2Fmanifest.json/movie/tmdb.top?genre=Action" },
              { name := JsOpt.val "Keanu Reeves",
                category := "Cast",
                url := "stremio:///search?search=Keanu%20Reeves" },
              { name := JsOpt.val "Lana Wachowski",
                category := "Directors",
                url := "stremio:///search?search=Lana%20Wachowski" }],
    behaviorHints := { defaultVideoId := JsOpt.val "tt0133093", hasScheduledVideos := false },
    app_extras_cast := [{ name := JsOpt.val "Keanu Reeves",
                          character := JsOpt.val "Neo",
                          photo := JsOpt.val "https://image.tmdb.org/t/p/w276_and_h350_face/k.jpg" }] }

/-- Modelled from the spec: the body of `getLogo` (file `addon/lib/getLogo.js`, not among the
sources).  The spec says that enrichment failures "are caught individually and degrade to
`null`": a rejection of the logo provider's fetch `fetchLogo` becomes the result `null`. -/
def getLogo (fetchLogo : String → LogoIds → String → JsOpt String → Except String (JsOpt String))
    (type : String) (ids : LogoIds) (language : String) (originalLanguage : JsOpt String) :
    Except String (JsOpt String) :=
  match fetchLogo type ids language originalLanguage with
  | Except.ok url => Except.ok url
  | Except.error _ => Except.ok JsOpt.null

/-- Modelled from the spec: the body of `getImdbRating` (file `addon/lib/getImdbRating.js`, not
among the sources).  The spec says that it "treats any falsy/absent/error result as no rating":
a rejection or a falsy result of the rating provider's fetch `fetchRating` becomes
`undefined`. -/
def getImdbRating (fetchRating : JsOpt String → String → Except String (JsOpt String))
    (imdbId : JsOpt String) (type : String) : Except String (JsOpt String) :=
  match fetchRating imdbId type with
  | Except.ok v => if v.truthy then Except.ok v else Except.ok JsOpt.undefined
  | Except.error _ => Except.ok JsOpt.undefined

/-- Sample collaborators whose logo provider and rating provider both fail. -/
def failingCollab : Collab :=
  { demoCollab with
    getLogo := getLogo fun _ _ _ _ => Except.error "logo provider unreachable"
    getImdbRating := getImdbRating fun _ _ => Except.error "rating provider unreachable" }

/-! ## The spec's reading of the fallback chains -/

/-- A slot holds a non-empty string. -/
def NonEmpty (x : JsOpt String) : Prop := ∃ s, x = JsOpt.val s ∧ s ≠ ""

/-- The entry `e` is the first entry of `xs` that satisfies `p`. -/
def IsFirst {α : Type} (p : α → Prop) (xs : List α) (e : α) : Prop :=
  ∃ pre post, xs = pre ++ e :: post ∧ (∀ x ∈ pre, ¬ p x) ∧ p e

/-- The three-tier order of the spec over a translation list `xs` with language field `lang` and
text field `text`: the text of the first entry in language `L` if that is a non-empty string,
otherwise the text of the first entry in `eng` if that is a non-empty string, otherwise `dflt`. -/
def ThreeTier {α : Type} (lang text : α → JsOpt String) (xs : List α) (L : String)
    (dflt result : JsOpt String) : Prop :=
  (∀ e, IsFirst (fun t => lang t = JsOpt.val L) xs e → NonEmpty (text e) → result = text e) ∧
  ((∀ e, IsFirst (fun t => lang t = JsOpt.val L) xs e → ¬ NonEmpty (text e)) →
    ∀ e, IsFirst (fun t => lang t = JsOpt.val "eng") xs e → NonEmpty (text e) →
      result = text e) ∧
  ((∀ e, IsFirst (fun t => lang t = JsOpt.val L) xs e → ¬ NonEmpty (text e)) →
    (∀ e, IsFirst (fun t => lang t = JsOpt.val "eng") xs e → ¬ NonEmpty (text e)) →
      result = dflt)

/-! ## parseProps.js: the poster resolver -/

/-- The object `ids` handed to `getRpdbPoster` and `parsePoster`. -/
structure PosterIds where
  tmdbId : JsOpt JsId
  tvdbId : JsOpt JsId
deriving DecidableEq

/-- The builtin `s.includes(p)`. -/
def includes (s p : String) : Bool :=
  s.data.tails.any fun t => p.data.isPrefixOf t

/-- The function `getRpdbPoster`; `none` is `null`. -/
def getRpdbPoster (type : String) (ids : PosterIds) (language rpdbkey : String) :
    Option String :=
  let tier := (split rpdbkey (Char.ofNat 45)).headD ""
  let lang := (split language (Char.ofNat 45)).headD ""
  let baseUrl := "https://api.ratingposterdb.com"
  let picked : JsOpt String × JsOpt JsId :=
    if type = "movie" ∧ JsId.truthy ids.tmdbId = true then
      (JsOpt.val "tmdb", JsOpt.val (JsId.str ("movie-" ++ JsId.render ids.tmdbId)))
    else if type = "series" then
      if JsId.truthy ids.tvdbId then (JsOpt.val "tvdb", ids.tvdbId)
      else if JsId.truthy ids.tmdbId then
        (JsOpt.val "tmdb", JsOpt.val (JsId.str ("series-" ++ JsId.render ids.tmdbId)))
      else (JsOpt.null, JsOpt.null)
    else (JsOpt.null, JsOpt.null)
  let idType := picked.1
  let fullMediaId := picked.2
  if !idType.truthy || !JsId.truthy fullMediaId then none
  else
    let urlPath := baseUrl ++ "/" ++ rpdbkey ++ "/" ++ idType.toStr ++ "/poster-default/" ++
      JsId.render fullMediaId ++ ".jpg"
    if tier = "t0" ∨ tier = "t1" ∨ lang = "en" then some (urlPath ++ "?fallback=true")
    else some (urlPath ++ "?fallback=true&lang=" ++ lang)

/-- The function `checkIfExists`; `head url` is the outcome of `axios.head(url, ...)`: the
status of the response, or the message of the error thrown. -/
def checkIfExists (head : String → Except String Nat) (url : String) : Bool :=
  match head url with
  | Except.ok status => status == 200
  | Except.error message => if includes message "Invalid URL" then false else false

/-- The result of `parsePoster` together with the URLs on which `checkIfExists` was called. -/
structure PosterOutcome where
  url : String
  probed : List String
deriving DecidableEq

/-- The function `parsePoster`. -/
def parsePoster (head : String → Except String Nat) (type : String) (ids : PosterIds)
    (fallbackFullUrl language : String) (rpdbkey : JsOpt String) : PosterOutcome :=
  if rpdbkey.truthy then
    match getRpdbPoster type ids language rpdbkey.toStr with
    | some rpdbImage =>
      if rpdbImage != "" then
        if checkIfExists head rpdbImage then { url := rpdbImage, probed := [rpdbImage] }
        else { url := fallbackFullUrl, probed := [rpdbImage] }
      else { url := fallbackFullUrl, probed := [] }
    | none => { url := fallbackFullUrl, probed := [] }
  else { url := fallbackFullUrl, probed := [] }

/-! ## Further notions of the spec -/

/-- A fully-qualified URL: a string that starts with `http://` or `https://`. -/
def isAbsoluteUrl (s : String) : Bool := startsWith s "http://" || startsWith s "https://"

/-- The values of a list, each kept at its first occurrence. -/
def keepFirst : List (JsOpt String) → List (JsOpt String)
  | [] => []
  | x :: xs => x :: (keepFirst xs).filter fun y => decide (y ≠ x)

/-- The qualifier of the premium URL: empty for the tiers `t0` and `t1` and for the language
`en`, and `&lang=<lang>` otherwise. -/
def langQualifier (language rpdbkey : String) : String :=
  if (split rpdbkey (Char.ofNat 45)).headD "" = "t0" ∨
      (split rpdbkey (Char.ofNat 45)).headD "" = "t1" ∨
      (split language (Char.ofNat 45)).headD "" = "en" then ""
  else "&lang=" ++ (split language (Char.ofNat 45)).headD ""

/-! ## Further fixtures -/

/-- A sample configuration with a premium key. -/
def keyedConfig : Config :=
  { castCount := CastCountSetting.number 10, rpdbkey := JsOpt.val "t1-abc",
    hideEpisodeThumbnails := false }

/-- The sample series with a `TheMovieDB` remote id whose id is the empty string. -/
def emptyTmdbShow : TvdbShow :=
  { demoShow with
    remoteIds := some [⟨JsOpt.val "tt0903747", JsOpt.val "IMDB"⟩,
      ⟨JsOpt.val "", JsOpt.val "TheMovieDB"⟩] }

/-- A sample existence probe: only the premium poster of the movie `603` exists. -/
def demoHead (url : String) : Except String Nat :=
  if url = "https://api.ratingposterdb.com/t1-abc/tmdb/poster-default/movie-603.jpg?fallback=true"
  then Except.ok 200
  else if url = "not a url" then Except.error "Invalid URL"
  else Except.ok 404

/-- A sample credits object: one writer credited twice, who is also a creator, a director, and
a second creator. -/
def demoCredits : Credits :=
  { cast := some [⟨JsOpt.val "Keanu Reeves", JsOpt.val "Neo", JsOpt.val "/k.jpg"⟩,
      ⟨JsOpt.val "Carrie-Anne Moss", JsOpt.val "Trinity", JsOpt.null⟩]
    crew := some [
      ⟨JsOpt.val "Lilly Wachowski", JsOpt.val "Writer", JsOpt.val "Writing"⟩,
      ⟨JsOpt.val "Lana Wachowski", JsOpt.val "Director", JsOpt.val "Directing"⟩,
      ⟨JsOpt.val "Lilly Wachowski", JsOpt.val "Screenplay", JsOpt.val "Writing"⟩,
      ⟨JsOpt.val "Joel Silver", JsOpt.val "Creator", JsOpt.val "Production"⟩,
      ⟨JsOpt.val "Lilly Wachowski", JsOpt.val "Creator", JsOpt.val "Production"⟩] }

/-- The person-search link of the spec: `stremio:///search?search=<encoded name>`. -/
def personLink (category : String) (name : JsOpt String) : Link :=
  { name := name, category := category,
    url := "stremio:///search?search=" ++ encodeURIComponent name.toStr }

/-- The genre deep-link of the spec:
`stremio:///discover/<encoded manifest URL>/<kind>/tmdb.top?genre=<encoded genre name>`, the
manifest URL being the public host, the preferences string when there is one, and
`manifest.json`. -/
def genreLink (env : Env) (type : String) (configString : JsOpt String) (genre : Genre) : Link :=
  { name := genre.name, category := "Genres",
    url := "stremio:///discover/" ++
      encodeURIComponent (host env ++ "/" ++
        (if configString.truthy then configString.toStr ++ "/manifest.json"
         else "manifest.json")) ++ "/" ++ type ++
      "/tmdb.top?genre=" ++ encodeURIComponent genre.name.toStr }

/-- The sample environment with an empty `HOST_NAME`. -/
def emptyHostEnv : Env := { demoEnv with HOST_NAME := "" }

/-- The first `k` elements of a list, all of them when `k` is unbounded (`none`). -/
def firstK {α : Type} (k : Option Nat) (l : List α) : List α :=
  match k with
  | none => l
  | some n => l.take n

/-- The sample series with relative paths for its image and its background artwork. -/
def relativeArtShow : TvdbShow :=
  { demoShow with
    image := JsOpt.val "/banners/posters/81189-10.jpg"
    artworks := some [⟨JsOpt.val 3, JsOpt.val "/banners/fanart/81189.jpg"⟩] }

/-! ## The workers with their provider calls -/

/-- A call to a client of the two catalog providers. -/
inductive ProviderCall where
  | find (id : String) : ProviderCall
  | movieInfo (id language : String) : ProviderCall
  | tvInfo (id : String) : ProviderCall
  | getSeriesExtended (id : String) : ProviderCall
  | getSeriesEpisodes (id language : String) : ProviderCall
deriving DecidableEq

/-- The outcome of an async function together with the provider calls it issued, in the order
of issue. -/
structure Traced (α : Type) where
  outcome : Except String α
  calls : List ProviderCall

namespace Traced

/-- A value, with no call issued. -/
def ret {α : Type} (a : α) : Traced α := { outcome := Except.ok a, calls := [] }

/-- Sequencing: the second part runs, and issues its calls, only when the first resolved. -/
def andThen {α β : Type} (x : Traced α) (f : α → Traced β) : Traced β :=
  match x.outcome with
  | Except.ok a => { outcome := (f a).outcome, calls := x.calls ++ (f a).calls }
  | Except.error e => { outcome := Except.error e, calls := x.calls }

/-- The expression `await k` for one provider call `k` whose promise settles as `r`. -/
def call {α : Type} (k : ProviderCall) (r : Except String α) : Traced α :=
  { outcome := r, calls := [k] }

/-- The statement `throw new Error(msg)`. -/
def fail {α : Type} (msg : String) : Traced α := { outcome := Except.error msg, calls := [] }

/-- The expression `await Promise.all([k1, k2])`: both calls are issued, then awaited. -/
def all2 {α β : Type} (k1 : ProviderCall) (r1 : Except String α) (k2 : ProviderCall)
    (r2 : Except String β) : Traced (α × β) :=
  { outcome := r1.bind fun a => r2.bind fun b => Except.ok (a, b), calls := [k1, k2] }

/-- A step that issues no provider call: the builders call the language map and the logo and
rating lookups only. -/
def untraced {α : Type} (r : Except String α) : Traced α := { outcome := r, calls := [] }

end Traced

instance : Monad Traced where
  pure := Traced.ret
  bind := Traced.andThen

/-- The function `getMovieMeta`, with the provider calls it issues. -/
def getMovieMetaTraced (env : Env) (c : Collab) (stremioId language : String) (config : Config)
    (catalogChoices : JsOpt String) : Traced MovieMeta := do
  let tmdbId ←
    if startsWith stremioId "tt" then do
      let findResults ← Traced.call (ProviderCall.find stremioId) (c.find stremioId)
      match (findResults.movie_results.getD []).head? with
      | none => Traced.fail ("Movie with IMDb ID " ++ stremioId ++ " not found on TMDB.")
      | some movieTmdb => pure (toString movieTmdb.id)
    else pure (replaceFirst stremioId "tmdb:" "")
  let movieData ← Traced.call (ProviderCall.movieInfo tmdbId language)
    (c.movieInfo tmdbId language)
  Traced.untraced (buildMovieResponse env c movieData language config catalogChoices)

/-- The function `getSeriesMeta`, with the provider calls it issues. -/
def getSeriesMetaTraced (env : Env) (c : Collab) (stremioId language : String) (config : Config)
    (catalogChoices : JsOpt String) : Traced SeriesMeta := do
  let tvdbId : JsOpt JsId ←
    if startsWith stremioId "tvdb:" then
      pure (JsId.ofStr (index (split stremioId (Char.ofNat 58)) 1))
    else do
      let tmdbIdToFind : JsOpt JsId ←
        if startsWith stremioId "tmdb:" then
          pure (JsId.ofStr (index (split stremioId (Char.ofNat 58)) 1))
        else do
          let findResults ← Traced.call (ProviderCall.find stremioId) (c.find stremioId)
          match findResults.tv_results with
          | none => Traced.fail "Cannot read properties of undefined (reading 0)"
          | some rs =>
            match rs.head? with
            | some item => pure (JsOpt.val (JsId.num item.id))
            | none => pure JsOpt.undefined
      if !JsId.truthy tmdbIdToFind then
        Traced.fail ("Could not resolve " ++ stremioId ++ " to a TMDB ID.")
      let tmdbInfo ← Traced.call (ProviderCall.tvInfo (JsId.render tmdbIdToFind))
        (c.tvInfo (JsId.render tmdbIdToFind))
      pure (JsId.ofNat (optField tmdbInfo.external_ids TvExternalIds.tvdb_id))
  if !JsId.truthy tvdbId then
    Traced.fail ("Could not resolve " ++ stremioId ++ " to a TVDB ID.")
  let fetched ← Traced.all2
    (ProviderCall.getSeriesExtended (JsId.render tvdbId))
    (c.getSeriesExtended (JsId.render tvdbId))
    (ProviderCall.getSeriesEpisodes (JsId.render tvdbId) language)
    (c.getSeriesEpisodes (JsId.render tvdbId) language)
  match fetched.1, fetched.2 with
  | some base, some eps =>
    Traced.untraced
      (buildSeriesResponseFromTvdb env c base eps language config catalogChoices)
  | _, _ =>
    Traced.fail ("Could not fetch complete data for TVDB ID " ++ JsId.render tvdbId ++ ".")

/-- A payload fetch: one of the calls that return the payload a record is built from. -/
def ProviderCall.isPayloadFetch : ProviderCall → Bool
  | ProviderCall.movieInfo _ _ => true
  | ProviderCall.getSeriesExtended _ => true
  | ProviderCall.getSeriesEpisodes _ _ => true
  | _ => false


/-! ## Basic facts about slots and lists -/

theorem truthy_iff_nonEmpty (x : JsOpt String) : x.truthy = true ↔ NonEmpty x := by
  cases x with
  | undefined => simp [JsOpt.truthy, NonEmpty]
  | null => simp [JsOpt.truthy, NonEmpty]
  | val s => simp [JsOpt.truthy, NonEmpty]

theorem truthy_false_iff (x : JsOpt String) :
    x.truthy = false ↔ (x = JsOpt.undefined ∨ x = JsOpt.null ∨ x = JsOpt.val "") := by
  cases x with
  | undefined => simp [JsOpt.truthy]
  | null => simp [JsOpt.truthy]
  | val s => simp [JsOpt.truthy]

theorem find_some_iff_isFirst {α : Type} (p : α → Prop) [DecidablePred p] (xs : List α) (e : α) :
    xs.find? (fun t => decide (p t)) = some e ↔ IsFirst p xs e := by
  rw [List.find?_eq_some]
  constructor
  · rintro ⟨hp, pre, post, hxs, hpre⟩
    exact ⟨pre, post, hxs, fun x hx => by simpa using hpre x hx, by simpa using hp⟩
  · rintro ⟨pre, post, hxs, hpre, hp⟩
    exact ⟨by simpa using hp, pre, post, hxs, fun x hx => by simpa using hpre x hx⟩

theorem find_none_or_isFirst {α : Type} (p : α → Prop) [DecidablePred p] (xs : List α) :
    xs.find? (fun t => decide (p t)) = none ∨
      ∃ e, xs.find? (fun t => decide (p t)) = some e ∧ IsFirst p xs e := by
  cases h : xs.find? (fun t => decide (p t)) with
  | none => exact Or.inl rfl
  | some e => exact Or.inr ⟨e, rfl, (find_some_iff_isFirst p xs e).mp h⟩

/-- The chain `a || b || dflt` over two `find` expressions satisfies the three-tier order. -/
theorem threeTier_of_chain {α : Type} (lang text : α → JsOpt String) (xs : List α) (L : String)
    (dflt : JsOpt String) :
    ThreeTier lang text xs L dflt
      (((optField (xs.find? fun t => decide (lang t = JsOpt.val L)) text).or
        (optField (xs.find? fun t => decide (lang t = JsOpt.val "eng")) text)).or dflt) := by
  have key : ∀ code : String,
      (∀ e, IsFirst (fun t => lang t = JsOpt.val code) xs e → ¬ NonEmpty (text e)) →
      (optField (xs.find? fun t => decide (lang t = JsOpt.val code)) text).truthy = false := by
    intro code h
    rcases find_none_or_isFirst (fun t => lang t = JsOpt.val code) xs with hn | ⟨e, he, hf⟩
    · rw [hn]; rfl
    · rw [he]
      have := h e hf
      rw [← truthy_iff_nonEmpty] at this
      simpa [optField] using this
  have hit : ∀ (code : String) (e : α), IsFirst (fun t => lang t = JsOpt.val code) xs e →
      optField (xs.find? fun t => decide (lang t = JsOpt.val code)) text = text e := by
    intro code e h
    rw [(find_some_iff_isFirst (fun t => lang t = JsOpt.val code) xs e).mpr h]
    rfl
  refine ⟨?_, ?_, ?_⟩
  · intro e hf hne
    rw [hit L e hf]
    have ht := (truthy_iff_nonEmpty _).mpr hne
    simp [JsOpt.or, ht]
  · intro hno e hf hne
    rw [hit "eng" e hf]
    have ht := (truthy_iff_nonEmpty _).mpr hne
    simp [JsOpt.or, key L hno, ht]
  · intro hnoL hnoE
    simp [JsOpt.or, key L hnoL, key "eng" hnoE]

/-! ## What a successful build says about the record -/

theorem buildMovieResponse_ok {env : Env} {c : Collab} {movieData : MovieData} {language : String}
    {config : Config} {catalogChoices : JsOpt String} {m : MovieMeta}
    (h : buildMovieResponse env c movieData language config catalogChoices = Except.ok m) :
    ∃ logoUrl rating slug,
      c.getLogo "movie" ⟨JsOpt.val (toString movieData.id), JsOpt.undefined⟩ language
        movieData.original_language = Except.ok logoUrl ∧
      c.getImdbRating (optField movieData.external_ids ExternalIds.imdb_id) "movie"
        = Except.ok rating ∧
      parseSlug env "movie" movieData.title
        (optField movieData.external_ids ExternalIds.imdb_id) = Except.ok slug ∧
      m.id = "tmdb:" ++ toString movieData.id ∧
      m.imdb_id = optField movieData.external_ids ExternalIds.imdb_id ∧
      m.imdbRating =
        (rating.or (optToFixed1 env movieData.vote_average)).orStr "N/A" ∧
      m.logo = processLogo logoUrl ∧
      m.links = buildLinks env m.imdbRating m.imdb_id movieData.title "movie" movieData.genres
        movieData.credits (castCountOf config) catalogChoices ∧
      m.app_extras_cast = parseCast movieData.credits (castCountOf config) := by
  unfold buildMovieResponse at h
  cases hl : c.getLogo "movie" ⟨JsOpt.val (toString movieData.id), JsOpt.undefined⟩ language
        movieData.original_language with
  | error e => simp [hl, bind, Except.bind] at h
  | ok logoUrl =>
    cases hr : c.getImdbRating (optField movieData.external_ids ExternalIds.imdb_id) "movie" with
    | error e => simp [hl, hr, bind, Except.bind] at h
    | ok rating =>
      cases hs : parseSlug env "movie" movieData.title
        (optField movieData.external_ids ExternalIds.imdb_id) with
      | error e => simp [hl, hr, hs, bind, Except.bind] at h
      | ok slug =>
        simp only [hl, hr, hs, bind, Except.bind, pure, Except.pure, Except.ok.injEq] at h
        subst h
        exact ⟨logoUrl, rating, slug, rfl, rfl, rfl, rfl, rfl, rfl, rfl, rfl, rfl⟩

theorem buildSeries_ok {env : Env} {c : Collab} {tvdbShow : TvdbShow}
    {tvdbEpisodes : TvdbEpisodes} {language : String}
    {config : Config} {catalogChoices : JsOpt String} {m : SeriesMeta}
    (h : buildSeriesResponseFromTvdb env c tvdbShow tvdbEpisodes language config catalogChoices
      = Except.ok m) :
    ∃ langCode3 logoUrl rating slug,
      c.to3LetterCode ((split language (Char.ofNat 45)).headD "") = Except.ok langCode3 ∧
      c.getLogo "series"
        ⟨(findRemoteId tvdbShow.remoteIds "TheMovieDB").strToString, tvdbShow.id.natToString⟩
        language tvdbShow.originalLanguage = Except.ok logoUrl ∧
      c.getImdbRating (findRemoteId tvdbShow.remoteIds "IMDB") "series" = Except.ok rating ∧
      parseSlug env "series" m.name m.imdb_id = Except.ok slug ∧
      m.name =
        ((findName ((optObj tvdbShow.translations Translations.nameTranslations).getD [])
            langCode3).or
          (findName ((optObj tvdbShow.translations Translations.nameTranslations).getD [])
            (JsOpt.val "eng"))).or tvdbShow.name ∧
      m.description =
        ((findOverview ((optObj tvdbShow.translations Translations.overviewTranslations).getD [])
            langCode3).or
          (findOverview ((optObj tvdbShow.translations Translations.overviewTranslations).getD [])
            (JsOpt.val "eng"))).or tvdbShow.overview ∧
      m.id = (if (findRemoteId tvdbShow.remoteIds "TheMovieDB").truthy
        then "tmdb:" ++ (findRemoteId tvdbShow.remoteIds "TheMovieDB").toStr
        else "tvdb:" ++ tvdbShow.id.natToStr) ∧
      m.imdb_id = findRemoteId tvdbShow.remoteIds "IMDB" ∧
      m.imdbRating = rating.orStr
        (match tvdbShow.score with
         | JsOpt.val x => if x.pos then toFixed1 env x else "N/A"
         | _ => "N/A") ∧
      m.logo = processLogo logoUrl ∧
      m.videos = mapEpisodes env config m.imdb_id tvdbShow.id 0 (tvdbEpisodes.episodes.getD []) ∧
      m.links = buildLinks env m.imdbRating m.imdb_id m.name "series" tvdbShow.genres
        (some {
          cast := some ((tvdbShow.characters.getD []).map fun ch =>
            { name := ch.personName, character := ch.name, profile_path := ch.image })
          crew := some [] })
        (castCountOf config) catalogChoices := by
  unfold buildSeriesResponseFromTvdb at h
  simp only [bind, Except.bind] at h
  split at h
  · simp at h
  · rename_i langCode3 h3
    split at h
    · simp at h
    · rename_i logoUrl hl
      split at h
      · simp at h
      · rename_i rating hr
        split at h
        · simp at h
        · rename_i slug hs
          simp only [pure, Except.pure, Except.ok.injEq] at h
          subst h
          exact ⟨langCode3, logoUrl, rating, slug, h3, hl, hr, hs, rfl, rfl, rfl, rfl, rfl, rfl,
            rfl, rfl⟩

/-! ## The builders on the samples -/

set_option maxRecDepth 100000 in
theorem demo_series_build :
    buildSeriesResponseFromTvdb demoEnv demoCollab demoShow demoEpisodes "de-DE" demoConfig
      JsOpt.undefined = Except.ok demoSeriesMeta := by
  rfl

set_option maxRecDepth 100000 in
theorem demo_movie_build :
    buildMovieResponse demoEnv demoCollab demoMovie "en-US" demoConfig JsOpt.undefined
      = Except.ok demoMovieMeta := by
  rfl

set_option maxRecDepth 100000 in
theorem demo_series_by_tvdb :
    getSeriesMeta demoEnv demoCollab ("tvdb:" ++ toString 81189) "de-DE" demoConfig
      JsOpt.undefined = Except.ok demoSeriesMeta := by
  rfl

set_option maxRecDepth 100000 in
theorem demo_series_by_tmdb :
    getSeriesMeta demoEnv demoCollab ("tmdb:" ++ toString 1396) "de-DE" demoConfig
      JsOpt.undefined = Except.ok demoSeriesMeta := by
  rfl

set_option maxRecDepth 100000 in
theorem demo_series_by_imdb :
    getSeriesMeta demoEnv demoCollab "tt0903747" "de-DE" demoConfig JsOpt.undefined
      = Except.ok demoSeriesMeta := by
  rfl

set_option maxRecDepth 100000 in
theorem demo_movie_by_tmdb :
    getMovieMeta demoEnv demoCollab ("tmdb:" ++ toString 603) "en-US" demoConfig
      JsOpt.undefined = Except.ok demoMovieMeta := by
  rfl

set_option maxRecDepth 100000 in
theorem demo_movie_by_imdb :
    getMovieMeta demoEnv demoCollab "tt0133093" "en-US" demoConfig JsOpt.undefined
      = Except.ok demoMovieMeta := by
  rfl

/-! ## Facts about the string builtins -/

theorem digitChar_ne_colon (d : Nat) (h : d < 10) : Nat.digitChar d ≠ Char.ofNat 58 := by
  interval_cases d <;> decide

theorem colon_not_mem_toDigitsCore (fuel n : Nat) (acc : List Char)
    (hacc : Char.ofNat 58 ∉ acc) : Char.ofNat 58 ∉ Nat.toDigitsCore 10 fuel n acc := by
  induction fuel generalizing n acc with
  | zero => simpa [Nat.toDigitsCore] using hacc
  | succ f ih =>
    have hd : Char.ofNat 58 ∉ Nat.digitChar (n % 10) :: acc := by
      intro hm
      rcases List.mem_cons.mp hm with h | h
      · exact digitChar_ne_colon (n % 10) (Nat.mod_lt _ (by decide)) h.symm
      · exact hacc h
    unfold Nat.toDigitsCore
    simp only
    split
    · exact hd
    · exact ih _ _ hd

theorem colon_not_mem_toString (n : Nat) : Char.ofNat 58 ∉ (toString n).data := by
  show Char.ofNat 58 ∉ Nat.toDigitsCore 10 (n + 1) n []
  exact colon_not_mem_toDigitsCore _ _ _ (by simp)

theorem splitChars_of_not_mem (sep : Char) (l : List Char) (h : sep ∉ l) :
    splitChars sep l = [l] := by
  induction l with
  | nil => rfl
  | cons c cs ih =>
    have hc : c ≠ sep := fun e => h (by simp [e])
    have hcs : sep ∉ cs := fun m => h (List.mem_cons_of_mem _ m)
    simp [splitChars, hc, ih hcs]

theorem index_split_prefixed (p : String) (tag : List Char) (n : Nat)
    (hp : p.data = tag ++ [Char.ofNat 58]) (htag : Char.ofNat 58 ∉ tag) :
    index (split (p ++ toString n) (Char.ofNat 58)) 1 = JsOpt.val (toString n) := by
  have h1 : (p ++ toString n).data = tag ++ (Char.ofNat 58 :: (toString n).data) := by
    simp [String.data_append, hp]
  have h2 : ∀ (pre rest : List Char), Char.ofNat 58 ∉ pre → Char.ofNat 58 ∉ rest →
      splitChars (Char.ofNat 58) (pre ++ Char.ofNat 58 :: rest) = [pre, rest] := by
    intro pre rest hpre hrest
    induction pre with
    | nil => simp [splitChars, splitChars_of_not_mem _ _ hrest]
    | cons c cs ih =>
      have hc : c ≠ Char.ofNat 58 := fun e => hpre (by simp [e])
      have hcs : Char.ofNat 58 ∉ cs := fun m => hpre (List.mem_cons_of_mem _ m)
      simp [splitChars, hc, ih hcs]
  unfold split index
  rw [h1, h2 _ _ htag (colon_not_mem_toString n)]
  rfl


theorem startsWith_append_self (p s : String) : startsWith (p ++ s) p = true := by
  simp [startsWith, String.data_append]

theorem startsWith_tmdb_tvdb (s : String) : startsWith ("tmdb:" ++ s) "tvdb:" = false := by
  unfold startsWith
  rw [String.data_append]
  rfl

theorem startsWith_tmdb_tt (s : String) : startsWith ("tmdb:" ++ s) "tt" = false := by
  unfold startsWith
  rw [String.data_append]
  rfl

theorem startsWith_tt_not_prefixed (I : String) (hI : startsWith I "tt" = true) :
    startsWith I "tvdb:" = false ∧ startsWith I "tmdb:" = false := by
  unfold startsWith at *
  have htt : "tt".data = [Char.ofNat 116, Char.ofNat 116] := rfl
  rw [htt] at hI
  rcases hd : I.data with _ | ⟨a, _ | ⟨b, r⟩⟩
  · rw [hd] at hI; simp [List.isPrefixOf] at hI
  · rw [hd] at hI; simp [List.isPrefixOf] at hI
  · rw [hd] at hI
    simp [List.isPrefixOf] at hI
    obtain ⟨ha, hb⟩ := hI
    subst ha hb
    exact ⟨rfl, rfl⟩

theorem replaceFirstChars_prefix (a : Char) (r s : List Char) :
    replaceFirstChars (a :: r) [] (a :: r ++ s) = s := by
  have hpre : (a :: r).isPrefixOf (a :: (r ++ s)) = true := by
    simp [List.isPrefixOf]
  simp [replaceFirstChars, hpre]

theorem replaceFirst_prefix (p s : String) (hp : p.data ≠ []) :
    replaceFirst (p ++ s) p "" = s := by
  unfold replaceFirst
  rw [String.data_append]
  rcases hd : p.data with _ | ⟨a, r⟩
  · exact absurd hd hp
  · have he : "".data = [] := rfl
    rw [he, replaceFirstChars_prefix]

/-! ## The identifier resolution of the two workers -/

theorem tvdb_prefix_data : "tvdb:".data = "tvdb".data ++ [Char.ofNat 58] := rfl
theorem tmdb_prefix_data : "tmdb:".data = "tmdb".data ++ [Char.ofNat 58] := rfl

theorem getSeriesMeta_tvdb_ok {env : Env} {c : Collab} {X : Nat} {language : String}
    {config : Config} {catalogChoices : JsOpt String} {m : SeriesMeta}
    (h : getSeriesMeta env c ("tvdb:" ++ toString X) language config catalogChoices
      = Except.ok m) :
    ∃ base eps, c.getSeriesExtended (toString X) = Except.ok (some base) ∧
      c.getSeriesEpisodes (toString X) language = Except.ok (some eps) ∧
      buildSeriesResponseFromTvdb env c base eps language config catalogChoices
        = Except.ok m := by
  unfold getSeriesMeta at h
  simp only [startsWith_append_self, if_true,
    index_split_prefixed "tvdb:" "tvdb".data X tvdb_prefix_data (by decide),
    JsId.ofStr, JsId.truthy, JsId.render, bind, Except.bind, pure, Except.pure] at h
  split at h
  · simp at h
  · split at h
    · simp at h
    · rename_i base hb
      split at h
      · simp at h
      · rename_i eps he
        split at h
        · exact ⟨_, _, hb, he, h⟩
        · simp [throw, throwThe, MonadExceptOf.throw] at h

theorem getSeriesMeta_tmdb_ok {env : Env} {c : Collab} {X Y : Nat} {language : String}
    {config : Config} {catalogChoices : JsOpt String} {m : SeriesMeta} {info : TvInfo}
    (hinfo : c.tvInfo (toString Y) = Except.ok info)
    (hx : info.external_ids = some ⟨JsOpt.val X⟩)
    (h : getSeriesMeta env c ("tmdb:" ++ toString Y) language config catalogChoices
      = Except.ok m) :
    ∃ base eps, c.getSeriesExtended (toString X) = Except.ok (some base) ∧
      c.getSeriesEpisodes (toString X) language = Except.ok (some eps) ∧
      buildSeriesResponseFromTvdb env c base eps language config catalogChoices
        = Except.ok m := by
  unfold getSeriesMeta at h
  simp only [startsWith_append_self, startsWith_tmdb_tvdb, if_true,
    index_split_prefixed "tmdb:" "tmdb".data Y tmdb_prefix_data (by decide),
    JsId.ofStr, JsId.ofNat, JsId.truthy, JsId.render, bind, Except.bind, pure, Except.pure,
    hinfo, hx, optField] at h
  simp only [Bool.false_eq_true, if_false] at h
  split at h
  · simp at h
  · split at h
    · simp at h
    · split at h
      · simp at h
      · rename_i base hb
        split at h
        · simp at h
        · rename_i eps he
          split at h
          · exact ⟨_, _, hb, he, h⟩
          · simp [throw, throwThe, MonadExceptOf.throw] at h

theorem getSeriesMeta_imdb_ok {env : Env} {c : Collab} {X Y : Nat} {I language : String}
    {config : Config} {catalogChoices : JsOpt String} {m : SeriesMeta} {fr : FindResults}
    {rest : List FindItem} {info : TvInfo}
    (hI : startsWith I "tt" = true)
    (hfind : c.find I = Except.ok fr) (hy : fr.tv_results = some (⟨Y⟩ :: rest))
    (hinfo : c.tvInfo (toString Y) = Except.ok info)
    (hx : info.external_ids = some ⟨JsOpt.val X⟩)
    (h : getSeriesMeta env c I language config catalogChoices = Except.ok m) :
    ∃ base eps, c.getSeriesExtended (toString X) = Except.ok (some base) ∧
      c.getSeriesEpisodes (toString X) language = Except.ok (some eps) ∧
      buildSeriesResponseFromTvdb env c base eps language config catalogChoices
        = Except.ok m := by
  unfold getSeriesMeta at h
  simp only [(startsWith_tt_not_prefixed I hI).1, (startsWith_tt_not_prefixed I hI).2,
    Bool.false_eq_true, if_false, hfind, hy, List.head?,
    JsId.ofNat, JsId.truthy, JsId.render, bind, Except.bind, pure, Except.pure,
    hinfo, hx, optField] at h
  split at h
  · simp at h
  · split at h
    · simp at h
    · split at h
      · simp at h
      · rename_i base hb
        split at h
        · simp at h
        · rename_i eps he
          split at h
          · exact ⟨_, _, hb, he, h⟩
          · simp [throw, throwThe, MonadExceptOf.throw] at h

theorem getMovieMeta_tmdb (env : Env) (c : Collab) (Y : Nat) (language : String)
    (config : Config) (catalogChoices : JsOpt String) :
    getMovieMeta env c ("tmdb:" ++ toString Y) language config catalogChoices =
      (c.movieInfo (toString Y) language).bind fun movieData =>
        buildMovieResponse env c movieData language config catalogChoices := by
  unfold getMovieMeta
  simp only [startsWith_tmdb_tt, Bool.false_eq_true, if_false,
    replaceFirst_prefix "tmdb:" (toString Y) (by decide), bind, Except.bind, pure, Except.pure]

theorem getMovieMeta_imdb (env : Env) (c : Collab) (Y : Nat) (I language : String)
    (config : Config) (catalogChoices : JsOpt String) (fr : FindResults) (rest : List FindItem)
    (hI : startsWith I "tt" = true)
    (hfind : c.find I = Except.ok fr) (hy : fr.movie_results = some (⟨Y⟩ :: rest)) :
    getMovieMeta env c I language config catalogChoices =
      (c.movieInfo (toString Y) language).bind fun movieData =>
        buildMovieResponse env c movieData language config catalogChoices := by
  unfold getMovieMeta
  simp only [hI, if_true, hfind, hy, Option.getD, List.head?, bind, Except.bind, pure,
    Except.pure]

theorem getMovieMeta_ok {env : Env} {c : Collab} {stremioId language : String}
    {config : Config} {catalogChoices : JsOpt String} {m : MovieMeta}
    (h : getMovieMeta env c stremioId language config catalogChoices = Except.ok m) :
    ∃ id movieData, c.movieInfo id language = Except.ok movieData ∧
      buildMovieResponse env c movieData language config catalogChoices = Except.ok m := by
  unfold getMovieMeta at h
  simp only [bind, Except.bind, pure, Except.pure] at h
  repeat' split at h
  all_goals first
    | exact ⟨_, _, by assumption, h⟩
    | simp [throw, throwThe, MonadExceptOf.throw] at h

theorem getSeriesMeta_ok {env : Env} {c : Collab} {stremioId language : String}
    {config : Config} {catalogChoices : JsOpt String} {m : SeriesMeta}
    (h : getSeriesMeta env c stremioId language config catalogChoices = Except.ok m) :
    ∃ id base eps, c.getSeriesExtended id = Except.ok (some base) ∧
      c.getSeriesEpisodes id language = Except.ok (some eps) ∧
      buildSeriesResponseFromTvdb env c base eps language config catalogChoices
        = Except.ok m := by
  unfold getSeriesMeta at h
  simp only [bind, Except.bind, pure, Except.pure] at h
  repeat' split at h
  all_goals first
    | exact ⟨_, _, _, by assumption, by assumption, h⟩
    | simp [throw, throwThe, MonadExceptOf.throw] at h

theorem toDigitsCore_ne_nil (fuel n : Nat) (acc : List Char) (hacc : acc ≠ []) :
    Nat.toDigitsCore 10 fuel n acc ≠ [] := by
  induction fuel generalizing n acc with
  | zero => simpa [Nat.toDigitsCore] using hacc
  | succ f ih =>
    unfold Nat.toDigitsCore
    simp only
    split
    · simp
    · exact ih _ _ (by simp)

theorem toString_nat_ne_empty (n : Nat) : toString n ≠ "" := by
  intro h
  have hd : (toString n).data = [] := by rw [h]
  have : Nat.toDigitsCore 10 (n + 1) n [] = [] := hd
  unfold Nat.toDigitsCore at this
  simp only at this
  split at this
  · simp at this
  · exact toDigitsCore_ne_nil _ _ _ (by simp) this

theorem getSeriesMeta_tvdb (env : Env) (c : Collab) (X : Nat) (language : String)
    (config : Config) (catalogChoices : JsOpt String) :
    getSeriesMeta env c ("tvdb:" ++ toString X) language config catalogChoices =
      fetchAndBuild env c (toString X) language config catalogChoices := by
  unfold getSeriesMeta fetchAndBuild
  simp only [startsWith_append_self, if_true,
    index_split_prefixed "tvdb:" "tvdb".data X tvdb_prefix_data (by decide),
    JsId.ofStr, JsId.truthy, JsId.render, bind, Except.bind, pure, Except.pure]
  have hX : (toString X != "") = true := by simpa using toString_nat_ne_empty X
  simp only [hX, Bool.not_true, Bool.false_eq_true, if_false]
  cases c.getSeriesExtended (toString X) with
  | error e => rfl
  | ok b =>
    cases c.getSeriesEpisodes (toString X) language with
    | error e => rfl
    | ok e => cases b <;> cases e <;> rfl

theorem getSeriesMeta_tmdb (env : Env) (c : Collab) (X Y : Nat) (language : String)
    (config : Config) (catalogChoices : JsOpt String) (info : TvInfo) (hX : 0 < X)
    (hinfo : c.tvInfo (toString Y) = Except.ok info)
    (hx : info.external_ids = some ⟨JsOpt.val X⟩) :
    getSeriesMeta env c ("tmdb:" ++ toString Y) language config catalogChoices =
      fetchAndBuild env c (toString X) language config catalogChoices := by
  unfold getSeriesMeta fetchAndBuild
  simp only [startsWith_append_self, startsWith_tmdb_tvdb, if_true,
    index_split_prefixed "tmdb:" "tmdb".data Y tmdb_prefix_data (by decide),
    JsId.ofStr, JsId.ofNat, JsId.truthy, JsId.render, bind, Except.bind, pure, Except.pure,
    hinfo, hx, optField]
  have hY : (toString Y != "") = true := by simpa using toString_nat_ne_empty Y
  have hX0 : (X != 0) = true := by simpa using Nat.pos_iff_ne_zero.mp hX
  simp only [hY, hX0, Bool.not_true, Bool.false_eq_true, if_false]
  cases c.getSeriesExtended (toString X) with
  | error e => rfl
  | ok b =>
    cases c.getSeriesEpisodes (toString X) language with
    | error e => rfl
    | ok e => cases b <;> cases e <;> rfl

theorem getSeriesMeta_imdb (env : Env) (c : Collab) (X Y : Nat) (I language : String)
    (config : Config) (catalogChoices : JsOpt String) (fr : FindResults)
    (rest : List FindItem) (info : TvInfo) (hX : 0 < X) (hY : 0 < Y)
    (hI : startsWith I "tt" = true)
    (hfind : c.find I = Except.ok fr) (hy : fr.tv_results = some (⟨Y⟩ :: rest))
    (hinfo : c.tvInfo (toString Y) = Except.ok info)
    (hx : info.external_ids = some ⟨JsOpt.val X⟩) :
    getSeriesMeta env c I language config catalogChoices =
      fetchAndBuild env c (toString X) language config catalogChoices := by
  unfold getSeriesMeta fetchAndBuild
  simp only [(startsWith_tt_not_prefixed I hI).1, (startsWith_tt_not_prefixed I hI).2,
    Bool.false_eq_true, if_false, hfind, hy, List.head?,
    JsId.ofNat, JsId.truthy, JsId.render, bind, Except.bind, pure, Except.pure,
    hinfo, hx, optField]
  have hY0 : (Y != 0) = true := by simpa using Nat.pos_iff_ne_zero.mp hY
  have hX0 : (X != 0) = true := by simpa using Nat.pos_iff_ne_zero.mp hX
  simp only [hY0, hX0, Bool.not_true, Bool.false_eq_true, if_false]
  cases c.getSeriesExtended (toString X) with
  | error e => rfl
  | ok b =>
    cases c.getSeriesEpisodes (toString X) language with
    | error e => rfl
    | ok e => cases b <;> cases e <;> rfl

/-! ## When the builders succeed -/

theorem buildMovieResponse_succeeds {env : Env} {c : Collab} {movieData : MovieData}
    {language : String} {config : Config} {catalogChoices : JsOpt String}
    {logoUrl rating : JsOpt String} {t : String}
    (hl : c.getLogo "movie" ⟨JsOpt.val (toString movieData.id), JsOpt.undefined⟩ language
        movieData.original_language = Except.ok logoUrl)
    (hr : c.getImdbRating (optField movieData.external_ids ExternalIds.imdb_id) "movie"
        = Except.ok rating)
    (ht : movieData.title = JsOpt.val t) :
    ∃ m, buildMovieResponse env c movieData language config catalogChoices = Except.ok m := by
  unfold buildMovieResponse
  simp only [hl, hr, ht, parseSlug, bind, Except.bind, pure, Except.pure]
  exact ⟨_, rfl⟩

theorem or_val_is_val (a : JsOpt String) (t : String) : ∃ s, a.or (JsOpt.val t) = JsOpt.val s := by
  unfold JsOpt.or
  cases a with
  | undefined => exact ⟨t, rfl⟩
  | null => exact ⟨t, rfl⟩
  | val s =>
    by_cases h : (JsOpt.val s : JsOpt String).truthy = true
    · exact ⟨s, by simp [h]⟩
    · exact ⟨t, by simp [h]⟩

theorem buildSeries_succeeds {env : Env} {c : Collab} {tvdbShow : TvdbShow}
    {tvdbEpisodes : TvdbEpisodes} {language : String} {config : Config}
    {catalogChoices : JsOpt String} {code logoUrl rating : JsOpt String} {t : String}
    (h3 : c.to3LetterCode ((split language (Char.ofNat 45)).headD "") = Except.ok code)
    (hl : c.getLogo "series"
        ⟨(findRemoteId tvdbShow.remoteIds "TheMovieDB").strToString, tvdbShow.id.natToString⟩
        language tvdbShow.originalLanguage = Except.ok logoUrl)
    (hr : c.getImdbRating (findRemoteId tvdbShow.remoteIds "IMDB") "series" = Except.ok rating)
    (ht : tvdbShow.name = JsOpt.val t) :
    ∃ m, buildSeriesResponseFromTvdb env c tvdbShow tvdbEpisodes language config catalogChoices
      = Except.ok m := by
  unfold buildSeriesResponseFromTvdb
  simp only [h3, hl, hr, ht, bind, Except.bind, pure, Except.pure]
  obtain ⟨s, hs⟩ := or_val_is_val
    ((findName ((optObj tvdbShow.translations Translations.nameTranslations).getD []) code).or
      (findName ((optObj tvdbShow.translations Translations.nameTranslations).getD [])
        (JsOpt.val "eng"))) t
  simp only [hs, parseSlug]
  exact ⟨_, rfl⟩

theorem getLogo_resolves (fetchLogo : String → LogoIds → String → JsOpt String →
      Except String (JsOpt String)) (type : String) (ids : LogoIds) (language : String)
    (originalLanguage : JsOpt String) :
    ∃ url, getLogo fetchLogo type ids language originalLanguage = Except.ok url ∧
      ((∃ e, fetchLogo type ids language originalLanguage = Except.error e) →
        url = JsOpt.null) := by
  unfold getLogo
  cases h : fetchLogo type ids language originalLanguage with
  | ok url => exact ⟨url, rfl, fun ⟨e, he⟩ => by cases he⟩
  | error e => exact ⟨JsOpt.null, rfl, fun _ => rfl⟩

theorem getImdbRating_resolves (fetchRating : JsOpt String → String →
      Except String (JsOpt String)) (imdbId : JsOpt String) (type : String) :
    ∃ v, getImdbRating fetchRating imdbId type = Except.ok v ∧
      ((∃ e, fetchRating imdbId type = Except.error e) → v = JsOpt.undefined) := by
  unfold getImdbRating
  cases h : fetchRating imdbId type with
  | ok v =>
    by_cases ht : v.truthy = true
    · exact ⟨v, by simp [ht], fun ⟨e, he⟩ => by cases he⟩
    · exact ⟨JsOpt.undefined, by simp [ht], fun _ => rfl⟩
  | error e => exact ⟨JsOpt.undefined, rfl, fun _ => rfl⟩

/-- The movie builder has no `catch` of its own: a rejection of `getLogo` rejects the build. -/
theorem buildMovieResponse_getLogo_error {env : Env} {c : Collab} {movieData : MovieData}
    {language : String} {config : Config} {catalogChoices : JsOpt String} {e : String}
    (hl : c.getLogo "movie" ⟨JsOpt.val (toString movieData.id), JsOpt.undefined⟩ language
        movieData.original_language = Except.error e) :
    buildMovieResponse env c movieData language config catalogChoices = Except.error e := by
  unfold buildMovieResponse
  simp only [hl, bind, Except.bind]

/-- The movie builder has no `catch` of its own: a rejection of `getImdbRating` rejects the
build. -/
theorem buildMovieResponse_getImdbRating_error {env : Env} {c : Collab} {movieData : MovieData}
    {language : String} {config : Config} {catalogChoices : JsOpt String}
    {logoUrl : JsOpt String} {e : String}
    (hl : c.getLogo "movie" ⟨JsOpt.val (toString movieData.id), JsOpt.undefined⟩ language
        movieData.original_language = Except.ok logoUrl)
    (hr : c.getImdbRating (optField movieData.external_ids ExternalIds.imdb_id) "movie"
        = Except.error e) :
    buildMovieResponse env c movieData language config catalogChoices = Except.error e := by
  unfold buildMovieResponse
  simp only [hl, hr, bind, Except.bind]

/-! ## The episode map and the encoded URLs -/

theorem mapEpisodes_length (env : Env) (config : Config) (imdbId : JsOpt String)
    (tvdbId : JsOpt Nat) (k : Nat) (eps : List Episode) :
    (mapEpisodes env config imdbId tvdbId k eps).length = eps.length := by
  induction eps generalizing k with
  | nil => rfl
  | cons e es ih => simp [mapEpisodes, ih]

theorem mapEpisodes_getElem (env : Env) (config : Config) (imdbId : JsOpt String)
    (tvdbId : JsOpt Nat) (k : Nat) (eps : List Episode) (i : Nat) (hi : i < eps.length) :
    (mapEpisodes env config imdbId tvdbId k eps)[i]? =
      some (episodeRecord env config imdbId tvdbId (env.now (k + i)) eps[i]) := by
  induction eps generalizing k i with
  | nil => simp at hi
  | cons e es ih =>
    cases i with
    | zero => simp [mapEpisodes]
    | succ j =>
      have hj : j < es.length := by simpa using hi
      simp only [mapEpisodes, List.getElem?_cons_succ, List.getElem_cons_succ]
      rw [ih (k + 1) j hj]
      have : k + 1 + j = k + (j + 1) := by omega
      rw [this]

theorem utf8Bytes_ne_nil (v : Nat) : utf8Bytes v ≠ [] := by
  unfold utf8Bytes
  split
  · simp
  · split
    · simp
    · split <;> simp

theorem encodeChar_length_pos (c : Char) : 1 ≤ (encodeChar c).length := by
  unfold encodeChar
  split
  · simp
  · split
    · rename_i h
      exact absurd h (utf8Bytes_ne_nil _)
    all_goals simp [percentByte]

theorem encodeChars_length_ge (l : List Char) : l.length ≤ (encodeChars l).length := by
  induction l with
  | nil => simp [encodeChars]
  | cons c cs ih =>
    have := encodeChar_length_pos c
    simp only [encodeChars, List.length_cons, List.length_append]
    omega

theorem encodeURIComponent_length_ge (s : String) : s.length ≤ (encodeURIComponent s).length :=
  encodeChars_length_ge s.data

theorem blur_url_ne_raw (h raw : String) :
    h ++ "/api/image/blur?url=" ++ encodeURIComponent raw ≠ raw := by
  intro heq
  have hlen := congrArg String.length heq
  have := encodeURIComponent_length_ge raw
  simp only [String.length_append] at hlen
  have h20 : "/api/image/blur?url=".length = 20 := by decide
  omega

/-! ## Translation fallback (series name and description) -/

/-- C1: in `buildSeriesResponseFromTvdb`, when the language map gives the 3-letter code `L`, the
name of the record follows the three-tier order over `nameTranslations` (first entry in `L` with
a non-empty name, else first entry in `eng` with a non-empty name, else `tvdbShow.name`), and
the description follows the same order over `overviewTranslations`, ending at
`tvdbShow.overview`. -/
theorem series_name_overview_three_tier (env : Env) (c : Collab) (tvdbShow : TvdbShow)
    (tvdbEpisodes : TvdbEpisodes) (language : String) (config : Config)
    (catalogChoices : JsOpt String) (L : String) (meta : SeriesMeta)
    (hL : c.to3LetterCode ((split language (Char.ofNat 45)).headD "") = Except.ok (JsOpt.val L))
    (hok : buildSeriesResponseFromTvdb env c tvdbShow tvdbEpisodes language config
      catalogChoices = Except.ok meta) :
    ThreeTier NameTranslation.language NameTranslation.name
        ((optObj tvdbShow.translations Translations.nameTranslations).getD []) L
        tvdbShow.name meta.name ∧
      ThreeTier OverviewTranslation.language OverviewTranslation.overview
        ((optObj tvdbShow.translations Translations.overviewTranslations).getD []) L
        tvdbShow.overview meta.description := by
  obtain ⟨code, _, _, _, hcode, _, _, _, hname, hdesc, _⟩ := buildSeries_ok hok
  rw [hL] at hcode
  cases hcode
  rw [hname, hdesc]
  exact ⟨threeTier_of_chain _ _ _ _ _, threeTier_of_chain _ _ _ _ _⟩

/-- Witness of C1 on the sample series: `de-DE` maps to `deu`, which has no translation, so the
English name and overview are taken. -/
theorem series_name_overview_three_tier_witness :
    demoCollab.to3LetterCode ((split "de-DE" (Char.ofNat 45)).headD "")
        = Except.ok (JsOpt.val "deu") ∧
      buildSeriesResponseFromTvdb demoEnv demoCollab demoShow demoEpisodes "de-DE" demoConfig
        JsOpt.undefined = Except.ok demoSeriesMeta ∧
      ThreeTier NameTranslation.language NameTranslation.name
        ((optObj demoShow.translations Translations.nameTranslations).getD []) "deu"
        demoShow.name demoSeriesMeta.name ∧
      ThreeTier OverviewTranslation.language OverviewTranslation.overview
        ((optObj demoShow.translations Translations.overviewTranslations).getD []) "deu"
        demoShow.overview demoSeriesMeta.description :=
  ⟨rfl, demo_series_build,
    series_name_overview_three_tier demoEnv demoCollab demoShow demoEpisodes "de-DE" demoConfig
      JsOpt.undefined "deu" demoSeriesMeta rfl demo_series_build⟩

/-! ## Rating fallback -/

set_option maxRecDepth 100000 in
/-- C2 (the code at the failing input): for a movie whose `vote_average` is `0` and for which
the rating lookup has no value, `buildMovieResponse` gives the rating `"0.0"`. -/
theorem movie_rating_zero_score :
    (buildMovieResponse demoEnv demoCollab
        { demoMovie with vote_average := JsOpt.val ⟨0, 0⟩ } "en-US" demoConfig
        JsOpt.undefined).map (fun m => m.imdbRating) = Except.ok "0.0" := by
  rfl

/-- C3: in `buildSeriesResponseFromTvdb` the rating is the value of the rating lookup when that
is a non-empty string; otherwise it is `tvdbShow.score` formatted to one decimal when the score
is greater than zero, and `"N/A"` when the score is absent or not greater than zero. -/
theorem series_rating_fallback (env : Env) (c : Collab) (tvdbShow : TvdbShow)
    (tvdbEpisodes : TvdbEpisodes) (language : String) (config : Config)
    (catalogChoices : JsOpt String) (meta : SeriesMeta)
    (hok : buildSeriesResponseFromTvdb env c tvdbShow tvdbEpisodes language config
      catalogChoices = Except.ok meta) :
    ∃ rating, c.getImdbRating (findRemoteId tvdbShow.remoteIds "IMDB") "series"
        = Except.ok rating ∧
      (∀ s, rating = JsOpt.val s → s ≠ "" → meta.imdbRating = s) ∧
      ((rating = JsOpt.undefined ∨ rating = JsOpt.null ∨ rating = JsOpt.val "") →
        (∀ x, tvdbShow.score = JsOpt.val x → 0 < x.num → meta.imdbRating = toFixed1 env x) ∧
        ((∀ x, tvdbShow.score = JsOpt.val x → x.num ≤ 0) → meta.imdbRating = "N/A")) := by
  obtain ⟨_, _, rating, _, _, _, hr, _, _, _, _, _, hrating, _⟩ := buildSeries_ok hok
  refine ⟨rating, hr, ?_, ?_⟩
  · intro s hs hne
    rw [hrating, hs]
    simp [JsOpt.orStr, hne]
  · intro habs
    have hfall : ∀ t, rating.orStr t = t := by
      intro t
      rcases habs with h | h | h <;> rw [h] <;> simp [JsOpt.orStr]
    rw [hrating, hfall]
    constructor
    · intro x hx hpos
      rw [hx]
      simp [JsNum.pos, hpos]
    · intro hle
      cases hsc : tvdbShow.score with
      | undefined => rfl
      | null => rfl
      | val x =>
        have := hle x hsc
        simp [JsNum.pos, Int.not_lt.mpr this]

/-- Witness of C3 on the sample series: no rating is known, the score is `8.75`, and the record
carries `"8.8"`. -/
theorem series_rating_fallback_witness :
    buildSeriesResponseFromTvdb demoEnv demoCollab demoShow demoEpisodes "de-DE" demoConfig
        JsOpt.undefined = Except.ok demoSeriesMeta ∧
      ∃ rating, demoCollab.getImdbRating (findRemoteId demoShow.remoteIds "IMDB") "series"
          = Except.ok rating ∧
        (∀ s, rating = JsOpt.val s → s ≠ "" → demoSeriesMeta.imdbRating = s) ∧
        ((rating = JsOpt.undefined ∨ rating = JsOpt.null ∨ rating = JsOpt.val "") →
          (∀ x, demoShow.score = JsOpt.val x → 0 < x.num →
            demoSeriesMeta.imdbRating = toFixed1 demoEnv x) ∧
          ((∀ x, demoShow.score = JsOpt.val x → x.num ≤ 0) →
            demoSeriesMeta.imdbRating = "N/A")) :=
  ⟨demo_series_build,
    series_rating_fallback demoEnv demoCollab demoShow demoEpisodes "de-DE" demoConfig
      JsOpt.undefined demoSeriesMeta demo_series_build⟩

/-! ## Links -/

theorem buildLinks_eq_nil_iff (env : Env) (imdbRating : String) (imdbId title : JsOpt String)
    (type : String) (genres : Option (List Genre)) (credits : Option Credits)
    (castCount : Option Nat) (catalogChoices : JsOpt String) :
    buildLinks env imdbRating imdbId title type genres credits castCount catalogChoices = [] ↔
      (imdbId = JsOpt.undefined ∨ imdbId = JsOpt.null ∨ imdbId = JsOpt.val "") := by
  rw [← truthy_false_iff]
  unfold buildLinks
  cases h : imdbId.truthy <;> simp

/-- C4: `buildLinks` returns the empty list exactly when `imdbId` is `undefined`, `null` or the
empty string; so the `links` of a movie record and of a series record are empty exactly when the
record's IMDb id (`external_ids?.imdb_id`, resp. the id of the first `IMDB` remote id) is
`undefined`, `null` or the empty string. -/
theorem links_empty_iff_no_imdb_id :
    (∀ (env : Env) (imdbRating : String) (imdbId title : JsOpt String) (type : String)
        (genres : Option (List Genre)) (credits : Option Credits) (castCount : Option Nat)
        (catalogChoices : JsOpt String),
        buildLinks env imdbRating imdbId title type genres credits castCount catalogChoices = []
          ↔ (imdbId = JsOpt.undefined ∨ imdbId = JsOpt.null ∨ imdbId = JsOpt.val "")) ∧
    (∀ (env : Env) (c : Collab) (movieData : MovieData) (language : String) (config : Config)
        (catalogChoices : JsOpt String) (m : MovieMeta),
        buildMovieResponse env c movieData language config catalogChoices = Except.ok m →
        m.imdb_id = optField movieData.external_ids ExternalIds.imdb_id ∧
        (m.links = [] ↔
          (m.imdb_id = JsOpt.undefined ∨ m.imdb_id = JsOpt.null ∨ m.imdb_id = JsOpt.val ""))) ∧
    (∀ (env : Env) (c : Collab) (tvdbShow : TvdbShow) (tvdbEpisodes : TvdbEpisodes)
        (language : String) (config : Config) (catalogChoices : JsOpt String) (m : SeriesMeta),
        buildSeriesResponseFromTvdb env c tvdbShow tvdbEpisodes language config catalogChoices
          = Except.ok m →
        m.imdb_id = findRemoteId tvdbShow.remoteIds "IMDB" ∧
        (m.links = [] ↔
          (m.imdb_id = JsOpt.undefined ∨ m.imdb_id = JsOpt.null ∨ m.imdb_id = JsOpt.val ""))) := by
  refine ⟨buildLinks_eq_nil_iff, ?_, ?_⟩
  · intro env c movieData language config catalogChoices m hok
    obtain ⟨_, _, _, _, _, _, _, himdb, _, _, hlinks, _⟩ := buildMovieResponse_ok hok
    exact ⟨himdb, by rw [hlinks]; exact buildLinks_eq_nil_iff _ _ _ _ _ _ _ _ _⟩
  · intro env c tvdbShow tvdbEpisodes language config catalogChoices m hok
    obtain ⟨_, _, _, _, _, _, _, _, _, _, _, himdb, _, _, _, hlinks⟩ := buildSeries_ok hok
    exact ⟨himdb, by rw [hlinks]; exact buildLinks_eq_nil_iff _ _ _ _ _ _ _ _ _⟩

/-- Witness of C4 on the sample movie and the sample series, which both have an IMDb id and a
non-empty link list. -/
theorem links_empty_iff_no_imdb_id_witness :
    (demoMovieMeta.links = [] ↔
      (demoMovieMeta.imdb_id = JsOpt.undefined ∨ demoMovieMeta.imdb_id = JsOpt.null ∨
        demoMovieMeta.imdb_id = JsOpt.val "")) ∧
    (demoSeriesMeta.links = [] ↔
      (demoSeriesMeta.imdb_id = JsOpt.undefined ∨ demoSeriesMeta.imdb_id = JsOpt.null ∨
        demoSeriesMeta.imdb_id = JsOpt.val "")) :=
  ⟨(links_empty_iff_no_imdb_id.2.1 demoEnv demoCollab demoMovie "en-US" demoConfig
      JsOpt.undefined demoMovieMeta demo_movie_build).2,
    (links_empty_iff_no_imdb_id.2.2 demoEnv demoCollab demoShow demoEpisodes "de-DE" demoConfig
      JsOpt.undefined demoSeriesMeta demo_series_build).2⟩

/-! ## Runtime string -/

/-- C5: `parseRunTime` gives the empty string for an absent runtime and for `0`, the text
`<n>min` for `0 < n < 60`, and for `n ≥ 60` the text `<n / 60>h` followed by `<n % 60>min` only
when `n % 60 > 0`; so `0`, `45`, `60`, `90`, `125` give the texts of the spec. -/
theorem parseRunTime_format :
    parseRunTime none = "" ∧
    (∀ n : Nat, parseRunTime (some n) =
      if n = 0 then ""
      else if n < 60 then toString n ++ "min"
      else toString (n / 60) ++ "h" ++ (if 0 < n % 60 then toString (n % 60) ++ "min" else "")) ∧
    parseRunTime (some 0) = "" ∧ parseRunTime (some 45) = "45min" ∧
    parseRunTime (some 60) = "1h" ∧ parseRunTime (some 90) = "1h30min" ∧
    parseRunTime (some 125) = "2h5min" := by
  refine ⟨rfl, ?_, by decide, by decide, by decide, by decide, by decide⟩
  intro n
  unfold parseRunTime
  by_cases h0 : n = 0
  · simp [h0]
  · by_cases h60 : n < 60
    · have : ¬ (n ≥ 60) := by omega
      simp [h0, h60, this]
    · have hge : n ≥ 60 := by omega
      have hh : n / 60 > 0 := Nat.div_pos hge (by decide)
      simp [h0, h60, hge, hh]

/-! ## One title under its three identifiers -/

/-- C6: let the external-id lookup of the IMDb id `I` resolve.  For a series whose first TV
result is `Y` and whose TMDB external ids give the TVDB id `X`: the records that `getSeriesMeta`
yields for `tvdb:X`, `tmdb:Y` and `I` have the same `id`, and when `X` and `Y` are positive the
three calls have the same outcome.  For a movie whose first movie result is `Y`: `getMovieMeta`
has the same outcome for `I` and for `tmdb:Y`, so the records have the same `id`. -/
theorem same_id_across_namespaces (env : Env) (c : Collab) (language : String)
    (config : Config) (catalogChoices : JsOpt String) (X Y : Nat) (I : String)
    (fr : FindResults) (hI : startsWith I "tt" = true) (hfind : c.find I = Except.ok fr) :
    (∀ (rest : List FindItem) (info : TvInfo),
      fr.tv_results = some (⟨Y⟩ :: rest) → c.tvInfo (toString Y) = Except.ok info →
      info.external_ids = some ⟨JsOpt.val X⟩ →
      (∀ m1 m2 m3 : SeriesMeta,
        getSeriesMeta env c ("tvdb:" ++ toString X) language config catalogChoices
          = Except.ok m1 →
        getSeriesMeta env c ("tmdb:" ++ toString Y) language config catalogChoices
          = Except.ok m2 →
        getSeriesMeta env c I language config catalogChoices = Except.ok m3 →
        m1.id = m2.id ∧ m2.id = m3.id) ∧
      (0 < X → 0 < Y →
        getSeriesMeta env c ("tmdb:" ++ toString Y) language config catalogChoices =
          getSeriesMeta env c ("tvdb:" ++ toString X) language config catalogChoices ∧
        getSeriesMeta env c I language config catalogChoices =
          getSeriesMeta env c ("tvdb:" ++ toString X) language config catalogChoices)) ∧
    (∀ rest : List FindItem, fr.movie_results = some (⟨Y⟩ :: rest) →
      getMovieMeta env c I language config catalogChoices =
        getMovieMeta env c ("tmdb:" ++ toString Y) language config catalogChoices ∧
      ∀ m1 m2 : MovieMeta,
        getMovieMeta env c ("tmdb:" ++ toString Y) language config catalogChoices
          = Except.ok m1 →
        getMovieMeta env c I language config catalogChoices = Except.ok m2 →
        m1.id = m2.id) := by
  constructor
  · intro rest info hy hinfo hx
    constructor
    · intro m1 m2 m3 h1 h2 h3
      obtain ⟨b1, e1, hb1, he1, hm1⟩ := getSeriesMeta_tvdb_ok h1
      obtain ⟨b2, e2, hb2, he2, hm2⟩ := getSeriesMeta_tmdb_ok hinfo hx h2
      obtain ⟨b3, e3, hb3, he3, hm3⟩ := getSeriesMeta_imdb_ok hI hfind hy hinfo hx h3
      rw [hb1] at hb2 hb3
      rw [he1] at he2 he3
      cases hb2; cases hb3; cases he2; cases he3
      rw [hm1] at hm2 hm3
      cases hm2; cases hm3
      exact ⟨rfl, rfl⟩
    · intro hX hY
      rw [getSeriesMeta_tvdb, getSeriesMeta_tmdb env c X Y language config catalogChoices info hX
          hinfo hx,
        getSeriesMeta_imdb env c X Y I language config catalogChoices fr rest info hX hY hI hfind
          hy hinfo hx]
      exact ⟨rfl, rfl⟩
  · intro rest hy
    have heq : getMovieMeta env c I language config catalogChoices =
        getMovieMeta env c ("tmdb:" ++ toString Y) language config catalogChoices := by
      rw [getMovieMeta_tmdb, getMovieMeta_imdb env c Y I language config catalogChoices fr rest
        hI hfind hy]
    refine ⟨heq, ?_⟩
    intro m1 m2 h1 h2
    rw [heq, h1] at h2
    cases h2
    rfl

/-- Witness of C6: the sample series under `tvdb:81189`, `tmdb:1396` and `tt0903747`, and the
sample movie under `tmdb:603` and `tt0133093`. -/
theorem same_id_across_namespaces_witness :
    (startsWith "tt0903747" "tt" = true ∧
      demoCollab.find "tt0903747" = Except.ok ⟨some [], some [⟨1396⟩]⟩ ∧
      getSeriesMeta demoEnv demoCollab ("tvdb:" ++ toString 81189) "de-DE" demoConfig
        JsOpt.undefined = Except.ok demoSeriesMeta ∧
      getSeriesMeta demoEnv demoCollab ("tmdb:" ++ toString 1396) "de-DE" demoConfig
        JsOpt.undefined = Except.ok demoSeriesMeta ∧
      getSeriesMeta demoEnv demoCollab "tt0903747" "de-DE" demoConfig JsOpt.undefined
        = Except.ok demoSeriesMeta ∧
      demoSeriesMeta.id = "tmdb:1396") ∧
    (startsWith "tt0133093" "tt" = true ∧
      demoCollab.find "tt0133093" = Except.ok ⟨some [⟨603⟩], some []⟩ ∧
      getMovieMeta demoEnv demoCollab "tt0133093" "en-US" demoConfig JsOpt.undefined =
        getMovieMeta demoEnv demoCollab ("tmdb:" ++ toString 603) "en-US" demoConfig
          JsOpt.undefined) := by
  refine ⟨⟨rfl, rfl, demo_series_by_tvdb, demo_series_by_tmdb, demo_series_by_imdb, ?_⟩,
    rfl, rfl, ?_⟩
  · have h := ((same_id_across_namespaces demoEnv demoCollab "de-DE" demoConfig JsOpt.undefined
      81189 1396 "tt0903747" ⟨some [], some [⟨1396⟩]⟩ rfl rfl).1 [] ⟨some ⟨JsOpt.val 81189⟩⟩
      rfl rfl rfl).1 demoSeriesMeta demoSeriesMeta demoSeriesMeta demo_series_by_tvdb
      demo_series_by_tmdb demo_series_by_imdb
    exact h.1.trans rfl
  · exact ((same_id_across_namespaces demoEnv demoCollab "en-US" demoConfig JsOpt.undefined
      0 603 "tt0133093" ⟨some [⟨603⟩], some []⟩ rfl rfl).2 [] rfl).1

/-! ## The orchestrator -/

/-- C7: `getMeta` is a total function into `{ meta }`.  For the type `movie` the field is the
record of `getMovieMeta` when that resolves and `null` when it rejects; for any other type the
same holds with `getSeriesMeta`.  A record that is returned is the whole record that the
builder of its kind made of the fetched payloads. -/
theorem getMeta_record_or_null (env : Env) (c : Collab) (type language stremioId : String)
    (config : Config) (catalogChoices : JsOpt String) :
    (type = "movie" →
      (∀ m, getMovieMeta env c stremioId language config catalogChoices = Except.ok m →
        (getMeta env c type language stremioId config catalogChoices).meta
          = some (Meta.movie m)) ∧
      (∀ e, getMovieMeta env c stremioId language config catalogChoices = Except.error e →
        (getMeta env c type language stremioId config catalogChoices).meta = none)) ∧
    (type ≠ "movie" →
      (∀ m, getSeriesMeta env c stremioId language config catalogChoices = Except.ok m →
        (getMeta env c type language stremioId config catalogChoices).meta
          = some (Meta.series m)) ∧
      (∀ e, getSeriesMeta env c stremioId language config catalogChoices = Except.error e →
        (getMeta env c type language stremioId config catalogChoices).meta = none)) ∧
    (∀ meta, (getMeta env c type language stremioId config catalogChoices).meta = some meta →
      (type = "movie" ∧ ∃ id movieData m, c.movieInfo id language = Except.ok movieData ∧
        buildMovieResponse env c movieData language config catalogChoices = Except.ok m ∧
        meta = Meta.movie m) ∨
      (type ≠ "movie" ∧ ∃ id base eps m, c.getSeriesExtended id = Except.ok (some base) ∧
        c.getSeriesEpisodes id language = Except.ok (some eps) ∧
        buildSeriesResponseFromTvdb env c base eps language config catalogChoices
          = Except.ok m ∧
        meta = Meta.series m)) := by
  refine ⟨?_, ?_, ?_⟩
  · intro ht
    constructor
    · intro m hm
      simp [getMeta, ht, hm, Except.map]
    · intro e he
      simp [getMeta, ht, he, Except.map]
  · intro ht
    constructor
    · intro m hm
      simp [getMeta, ht, hm, Except.map]
    · intro e he
      simp [getMeta, ht, he, Except.map]
  · intro meta hmeta
    by_cases ht : type = "movie"
    · left
      refine ⟨ht, ?_⟩
      cases hm : getMovieMeta env c stremioId language config catalogChoices with
      | error e => simp [getMeta, ht, hm, Except.map] at hmeta
      | ok m =>
        simp [getMeta, ht, hm, Except.map] at hmeta
        obtain ⟨id, movieData, h1, h2⟩ := getMovieMeta_ok hm
        exact ⟨id, movieData, m, h1, h2, hmeta.symm⟩
    · right
      refine ⟨ht, ?_⟩
      cases hm : getSeriesMeta env c stremioId language config catalogChoices with
      | error e => simp [getMeta, ht, hm, Except.map] at hmeta
      | ok m =>
        simp [getMeta, ht, hm, Except.map] at hmeta
        obtain ⟨id, base, eps, h1, h2, h3⟩ := getSeriesMeta_ok hm
        exact ⟨id, base, eps, m, h1, h2, h3, hmeta.symm⟩

set_option maxRecDepth 100000 in
/-- Witness of C7: the sample series is returned whole, and an IMDb id that the lookup does not
know gives `null` for a movie. -/
theorem getMeta_record_or_null_witness :
    (getMeta demoEnv demoCollab "series" "de-DE" "tt0903747" demoConfig JsOpt.undefined).meta
        = some (Meta.series demoSeriesMeta) ∧
      (getMeta demoEnv demoCollab "movie" "en-US" "tt0000000" demoConfig JsOpt.undefined).meta
        = none :=
  ⟨((getMeta_record_or_null demoEnv demoCollab "series" "de-DE" "tt0903747" demoConfig
      JsOpt.undefined).2.1 (by decide)).1 demoSeriesMeta demo_series_by_imdb,
    ((getMeta_record_or_null demoEnv demoCollab "movie" "en-US" "tt0000000" demoConfig
      JsOpt.undefined).1 rfl).2 "Movie with IMDb ID tt0000000 not found on TMDB." rfl⟩

/-! ## Enrichment failures -/

/-- C8: with the logo and rating lookups as the spec describes them (a failed fetch is caught
inside the lookup), neither failure fails a builder: a record is produced whenever the title
(for a series: the language code and the default name) is there, a failed logo fetch leaves
`logo` at `null`, and a failed rating fetch leaves `imdbRating` at the fallback from the
provider score or `"N/A"`. -/
theorem enrichment_failure_degrades (env : Env) (c : Collab)
    (fetchLogo : String → LogoIds → String → JsOpt String → Except String (JsOpt String))
    (fetchRating : JsOpt String → String → Except String (JsOpt String))
    (hlogo : c.getLogo = getLogo fetchLogo)
    (hrating : c.getImdbRating = getImdbRating fetchRating) :
    (∀ (movieData : MovieData) (language : String) (config : Config)
        (catalogChoices : JsOpt String),
      (∀ t, movieData.title = JsOpt.val t →
        ∃ m, buildMovieResponse env c movieData language config catalogChoices = Except.ok m) ∧
      (∀ m, buildMovieResponse env c movieData language config catalogChoices = Except.ok m →
        ((∃ e, fetchLogo "movie" ⟨JsOpt.val (toString movieData.id), JsOpt.undefined⟩ language
            movieData.original_language = Except.error e) → m.logo = JsOpt.null) ∧
        ((∃ e, fetchRating (optField movieData.external_ids ExternalIds.imdb_id) "movie"
            = Except.error e) →
          m.imdbRating = (optToFixed1 env movieData.vote_average).orStr "N/A"))) ∧
    (∀ (tvdbShow : TvdbShow) (tvdbEpisodes : TvdbEpisodes) (language : String)
        (config : Config) (catalogChoices : JsOpt String),
      (∀ code t, c.to3LetterCode ((split language (Char.ofNat 45)).headD "") = Except.ok code →
        tvdbShow.name = JsOpt.val t →
        ∃ m, buildSeriesResponseFromTvdb env c tvdbShow tvdbEpisodes language config
          catalogChoices = Except.ok m) ∧
      (∀ m, buildSeriesResponseFromTvdb env c tvdbShow tvdbEpisodes language config
          catalogChoices = Except.ok m →
        ((∃ e, fetchLogo "series"
            ⟨(findRemoteId tvdbShow.remoteIds "TheMovieDB").strToString,
              tvdbShow.id.natToString⟩ language tvdbShow.originalLanguage = Except.error e) →
          m.logo = JsOpt.null) ∧
        ((∃ e, fetchRating (findRemoteId tvdbShow.remoteIds "IMDB") "series"
            = Except.error e) →
          m.imdbRating =
            match tvdbShow.score with
            | JsOpt.val x => if x.pos then toFixed1 env x else "N/A"
            | _ => "N/A"))) := by
  constructor
  · intro movieData language config catalogChoices
    obtain ⟨url, hurl, hnull⟩ := getLogo_resolves fetchLogo "movie"
      ⟨JsOpt.val (toString movieData.id), JsOpt.undefined⟩ language movieData.original_language
    obtain ⟨v, hv, hundef⟩ := getImdbRating_resolves fetchRating
      (optField movieData.external_ids ExternalIds.imdb_id) "movie"
    rw [← hlogo] at hurl
    rw [← hrating] at hv
    constructor
    · intro t ht
      exact buildMovieResponse_succeeds hurl hv ht
    · intro m hm
      obtain ⟨logoUrl, rating, _, hl, hr, _, _, _, hrat, hlg, _⟩ := buildMovieResponse_ok hm
      rw [hurl] at hl
      rw [hv] at hr
      cases hl
      cases hr
      constructor
      · intro hfail
        rw [hlg, hnull hfail]
        rfl
      · intro hfail
        rw [hrat, hundef hfail]
        rfl
  · intro tvdbShow tvdbEpisodes language config catalogChoices
    obtain ⟨url, hurl, hnull⟩ := getLogo_resolves fetchLogo "series"
      ⟨(findRemoteId tvdbShow.remoteIds "TheMovieDB").strToString, tvdbShow.id.natToString⟩
      language tvdbShow.originalLanguage
    obtain ⟨v, hv, hundef⟩ := getImdbRating_resolves fetchRating
      (findRemoteId tvdbShow.remoteIds "IMDB") "series"
    rw [← hlogo] at hurl
    rw [← hrating] at hv
    constructor
    · intro code t hcode ht
      exact buildSeries_succeeds hcode hurl hv ht
    · intro m hm
      obtain ⟨_, logoUrl, rating, _, _, hl, hr, _, _, _, _, _, hrat, hlg, _⟩ := buildSeries_ok hm
      rw [hurl] at hl
      rw [hv] at hr
      cases hl
      cases hr
      constructor
      · intro hfail
        rw [hlg, hnull hfail]
        rfl
      · intro hfail
        rw [hrat, hundef hfail]
        rfl

set_option maxRecDepth 100000 in
/-- Witness of C8: with both providers failing, the sample movie and the sample series are
still built, with `logo` `null` and the ratings `"8.1"` and `"8.8"` of the provider scores. -/
theorem enrichment_failure_degrades_witness :
    (∃ m, buildMovieResponse demoEnv failingCollab demoMovie "en-US" demoConfig JsOpt.undefined
        = Except.ok m ∧ m.logo = JsOpt.null ∧ m.imdbRating = "8.1") ∧
    (∃ m, buildSeriesResponseFromTvdb demoEnv failingCollab demoShow demoEpisodes "de-DE"
        demoConfig JsOpt.undefined = Except.ok m ∧ m.logo = JsOpt.null ∧
        m.imdbRating = "8.8") := by
  have h := enrichment_failure_degrades demoEnv failingCollab
    (fun _ _ _ _ => Except.error "logo provider unreachable")
    (fun _ _ => Except.error "rating provider unreachable") rfl rfl
  constructor
  · obtain ⟨m, hm⟩ := (h.1 demoMovie "en-US" demoConfig JsOpt.undefined).1 "The Matrix" rfl
    have hd := (h.1 demoMovie "en-US" demoConfig JsOpt.undefined).2 m hm
    exact ⟨m, hm, hd.1 ⟨_, rfl⟩, (hd.2 ⟨_, rfl⟩).trans rfl⟩
  · obtain ⟨m, hm⟩ := (h.2 demoShow demoEpisodes "de-DE" demoConfig JsOpt.undefined).1
      (JsOpt.val "deu") "Breaking Bad (default)" rfl rfl
    have hd := (h.2 demoShow demoEpisodes "de-DE" demoConfig JsOpt.undefined).2 m hm
    exact ⟨m, hm, hd.1 ⟨_, rfl⟩, (hd.2 ⟨_, rfl⟩).trans rfl⟩

/-! ## Episodes -/

/-- C9: the series record has one episode record per episode of the payload.  For the `i`-th
episode, with `env.now i` the clock reading of its callback: an air date that parses to a time
before the reading gives `available = true`, one that parses to a time after it gives
`available = false`, and a missing air date gives `available = false` and `released = null`. -/
theorem episode_available_flag (env : Env) (c : Collab) (tvdbShow : TvdbShow)
    (tvdbEpisodes : TvdbEpisodes) (language : String) (config : Config)
    (catalogChoices : JsOpt String) (meta : SeriesMeta)
    (hok : buildSeriesResponseFromTvdb env c tvdbShow tvdbEpisodes language config
      catalogChoices = Except.ok meta) :
    meta.videos.length = (tvdbEpisodes.episodes.getD []).length ∧
    ∀ (i : Nat) (hi : i < (tvdbEpisodes.episodes.getD []).length),
      ∃ v, meta.videos[i]? = some v ∧
        (∀ s t, (tvdbEpisodes.episodes.getD [])[i].aired = JsOpt.val s → s ≠ "" →
          env.dateParse s = some t →
          (t < env.now i → v.available = true) ∧ (env.now i < t → v.available = false)) ∧
        (((tvdbEpisodes.episodes.getD [])[i].aired = JsOpt.undefined ∨
            (tvdbEpisodes.episodes.getD [])[i].aired = JsOpt.null ∨
            (tvdbEpisodes.episodes.getD [])[i].aired = JsOpt.val "") →
          v.available = false ∧ v.released = JsOpt.null) := by
  obtain ⟨_, _, _, _, _, _, _, _, _, _, _, _, _, _, hvid, _⟩ := buildSeries_ok hok
  constructor
  · rw [hvid, mapEpisodes_length]
  · intro i hi
    refine ⟨_, by rw [hvid, mapEpisodes_getElem _ _ _ _ 0 _ i hi], ?_, ?_⟩
    · intro s t hs hne hparse
      have htr : (JsOpt.val s : JsOpt String).truthy = true := by simp [JsOpt.truthy, hne]
      simp only [episodeRecord, hs, htr, if_true, JsOpt.toStr, hparse, Nat.zero_add]
      constructor
      · intro hlt
        simp [hlt]
      · intro hgt
        simp [Int.not_lt.mpr (Int.le_of_lt hgt)]
    · intro habs
      have htr : (tvdbEpisodes.episodes.getD [])[i].aired.truthy = false :=
        (truthy_false_iff _).mpr habs
      simp [episodeRecord, htr]

set_option maxRecDepth 100000 in
/-- Witness of C9 on the sample series: the first episode aired in 2008 and is available, the
second airs in 2999 and is not, the third has no air date. -/
theorem episode_available_flag_witness :
    buildSeriesResponseFromTvdb demoEnv demoCollab demoShow demoEpisodes "de-DE" demoConfig
        JsOpt.undefined = Except.ok demoSeriesMeta ∧
      demoSeriesMeta.videos.length = 3 ∧
      (demoSeriesMeta.videos.map fun v => v.available) = [true, false, false] :=
  ⟨demo_series_build,
    (episode_available_flag demoEnv demoCollab demoShow demoEpisodes "de-DE" demoConfig
      JsOpt.undefined demoSeriesMeta demo_series_build).1.trans rfl,
    by decide⟩

/-- C10: for the `i`-th episode of a series record: with `config.hideEpisodeThumbnails` truthy
the thumbnail is `null` (no image) or the blur-proxy URL of the raw thumbnail URL, and it is
never the raw URL; with it falsy the thumbnail is `null` or the raw URL, the image base followed
by the image path of the episode. -/
theorem episode_thumbnail (env : Env) (c : Collab) (tvdbShow : TvdbShow)
    (tvdbEpisodes : TvdbEpisodes) (language : String) (config : Config)
    (catalogChoices : JsOpt String) (meta : SeriesMeta)
    (hok : buildSeriesResponseFromTvdb env c tvdbShow tvdbEpisodes language config
      catalogChoices = Except.ok meta) :
    ∀ (i : Nat) (hi : i < (tvdbEpisodes.episodes.getD []).length),
      ∃ v, meta.videos[i]? = some v ∧
        (config.hideEpisodeThumbnails = true →
          (v.thumbnail = JsOpt.null ∨
            ∃ img, (tvdbEpisodes.episodes.getD [])[i].image = JsOpt.val img ∧ img ≠ "" ∧
              v.thumbnail = JsOpt.val (host env ++ "/api/image/blur?url=" ++
                encodeURIComponent (TVDB_IMAGE_BASE ++ img))) ∧
          ∀ img, (tvdbEpisodes.episodes.getD [])[i].image = JsOpt.val img →
            v.thumbnail ≠ JsOpt.val (TVDB_IMAGE_BASE ++ img)) ∧
        (config.hideEpisodeThumbnails = false →
          v.thumbnail = JsOpt.null ∨
            ∃ img, (tvdbEpisodes.episodes.getD [])[i].image = JsOpt.val img ∧ img ≠ "" ∧
              v.thumbnail = JsOpt.val (TVDB_IMAGE_BASE ++ img)) := by
  obtain ⟨_, _, _, _, _, _, _, _, _, _, _, _, _, _, hvid, _⟩ := buildSeries_ok hok
  intro i hi
  refine ⟨_, by rw [hvid, mapEpisodes_getElem _ _ _ _ 0 _ i hi], ?_, ?_⟩
  · intro hhide
    cases himg : (tvdbEpisodes.episodes.getD [])[i].image with
    | undefined => simp [episodeRecord, himg, hhide, JsOpt.truthy]
    | null => simp [episodeRecord, himg, hhide, JsOpt.truthy]
    | val img =>
      by_cases hne : img = ""
      · subst hne
        simp [episodeRecord, himg, hhide, JsOpt.truthy]
      · have hbase : (TVDB_IMAGE_BASE ++ img != "") = true := by
          have : (TVDB_IMAGE_BASE ++ img).length ≠ 0 := by
            rw [String.length_append]
            have : TVDB_IMAGE_BASE.length = 28 := by decide
            omega
          simp only [bne_iff_ne, ne_eq]
          intro h
          rw [h] at this
          exact this rfl
        have hi' : (img != "") = true := by simpa using hne
        simp only [episodeRecord, himg, hhide, JsOpt.truthy, JsOpt.toStr, hi', hbase, if_true,
          Bool.and_self, JsOpt.val.injEq, reduceCtorEq, false_or]
        refine ⟨⟨img, rfl, hne, rfl⟩, ?_⟩
        intro img2 h2
        subst h2
        exact fun h => blur_url_ne_raw _ _ (JsOpt.val.inj h)
  · intro hhide
    cases himg : (tvdbEpisodes.episodes.getD [])[i].image with
    | undefined => simp [episodeRecord, himg, hhide, JsOpt.truthy]
    | null => simp [episodeRecord, himg, hhide, JsOpt.truthy]
    | val img =>
      by_cases hne : img = ""
      · subst hne
        simp [episodeRecord, himg, hhide, JsOpt.truthy]
      · simp [episodeRecord, himg, hhide, JsOpt.truthy, JsOpt.toStr, hne]

set_option maxRecDepth 100000 in
/-- Witness of C10 on the sample series, built with thumbnails hidden: the first episode
carries the blur-proxy URL of its image, the second, which has no image, carries `null`. -/
theorem episode_thumbnail_witness :
    buildSeriesResponseFromTvdb demoEnv demoCollab demoShow demoEpisodes "de-DE" demoConfig
        JsOpt.undefined = Except.ok demoSeriesMeta ∧
      ∃ v, demoSeriesMeta.videos[0]? = some v ∧
        v.thumbnail = JsOpt.val (host demoEnv ++ "/api/image/blur?url=" ++
          encodeURIComponent (TVDB_IMAGE_BASE ++ "/banners/episodes/81189/1.jpg")) ∧
        v.thumbnail ≠ JsOpt.val (TVDB_IMAGE_BASE ++ "/banners/episodes/81189/1.jpg") := by
  refine ⟨demo_series_build, ?_⟩
  obtain ⟨v, hv, hhide, _⟩ := episode_thumbnail demoEnv demoCollab demoShow demoEpisodes "de-DE"
    demoConfig JsOpt.undefined demoSeriesMeta demo_series_build 0 (by decide)
  refine ⟨v, hv, ?_, (hhide rfl).2 _ rfl⟩
  have h0 : demoSeriesMeta.videos[0]? = some
      (episodeRecord demoEnv demoConfig demoSeriesMeta.imdb_id demoShow.id (demoEnv.now 0)
        ⟨JsOpt.val "/banners/episodes/81189/1.jpg", JsOpt.val "Pilot", JsOpt.val "First.",
          JsOpt.val "2008-01-20", JsOpt.val 1, JsOpt.val 1⟩) := by decide
  rw [h0] at hv
  cases hv
  decide

/-! ## Artwork fields of a successful build -/

theorem buildMovieResponse_art {env : Env} {c : Collab} {movieData : MovieData}
    {language : String} {config : Config} {catalogChoices : JsOpt String} {m : MovieMeta}
    (h : buildMovieResponse env c movieData language config catalogChoices = Except.ok m) :
    m.poster =
      (if config.rpdbkey.truthy then
        host env ++ "/poster/movie/tmdb:" ++ toString movieData.id ++ "?fallback=" ++
          encodeURIComponent ("https://image.tmdb.org/t/p/w500" ++ movieData.poster_path.toStr)
          ++ "&lang=" ++ language ++ "&key=" ++ config.rpdbkey.toStr
      else "https://image.tmdb.org/t/p/w500" ++ movieData.poster_path.toStr) ∧
    m.background = "https://image.tmdb.org/t/p/original" ++ movieData.backdrop_path.toStr := by
  unfold buildMovieResponse at h
  simp only [bind, Except.bind] at h
  split at h
  · simp at h
  · split at h
    · simp at h
    · split at h
      · simp at h
      · simp only [pure, Except.pure, Except.ok.injEq] at h
        subst h
        exact ⟨rfl, rfl⟩

theorem buildSeries_art {env : Env} {c : Collab} {tvdbShow : TvdbShow}
    {tvdbEpisodes : TvdbEpisodes} {language : String}
    {config : Config} {catalogChoices : JsOpt String} {m : SeriesMeta}
    (h : buildSeriesResponseFromTvdb env c tvdbShow tvdbEpisodes language config catalogChoices
      = Except.ok m) :
    m.poster =
      (if config.rpdbkey.truthy then
        host env ++ "/poster/series/tvdb:" ++ tvdbShow.id.natToStr ++ "?fallback=" ++
          encodeURIComponent
            (if tvdbShow.image.truthy then tvdbShow.image.toStr
             else "https://artworks.thetvdb.com/banners/images/missing/series.jpg")
          ++ "&lang=" ++ language ++ "&key=" ++ config.rpdbkey.toStr
      else if tvdbShow.image.truthy then tvdbShow.image.toStr
        else "https://artworks.thetvdb.com/banners/images/missing/series.jpg") ∧
    m.background = optField
      (optObj tvdbShow.artworks fun l => l.find? fun a => decide (a.type = JsOpt.val 3))
      Artwork.image ∧
    m.app_extras_cast = parseCast
      (some {
        cast := some ((tvdbShow.characters.getD []).map fun ch =>
          { name := ch.personName, character := ch.name, profile_path := ch.image })
        crew := some [] })
      (castCountOf config) := by
  unfold buildSeriesResponseFromTvdb at h
  simp only [bind, Except.bind] at h
  split at h
  · simp at h
  · split at h
    · simp at h
    · split at h
      · simp at h
      · split at h
        · simp at h
        · simp only [pure, Except.pure, Except.ok.injEq] at h
          subst h
          exact ⟨rfl, rfl, rfl⟩

/-! ## Poster -/

/-- C11: in both builders the poster depends on the premium key alone.  Without a key
(`rpdbkey` undefined, null or empty) it is the raw poster URL: for a movie the TMDB `w500` URL
of `poster_path`, for a series the provider's image, or the placeholder when the image is
absent.  With a key it is `<host>/poster/<kind>/<id>?fallback=<F>&lang=<language>&key=<key>`
with `F` the encoding of that same raw URL; `<id>` is `tmdb:<movie id>` for a movie and
`tvdb:<TVDB id>` for a series. -/
theorem poster_by_premium_key (env : Env) (c : Collab) (language : String) (config : Config)
    (catalogChoices : JsOpt String) :
    (∀ (movieData : MovieData) (m : MovieMeta),
      buildMovieResponse env c movieData language config catalogChoices = Except.ok m →
      ((config.rpdbkey = JsOpt.undefined ∨ config.rpdbkey = JsOpt.null ∨
          config.rpdbkey = JsOpt.val "") →
        m.poster = "https://image.tmdb.org/t/p/w500" ++ movieData.poster_path.toStr) ∧
      (∀ key, config.rpdbkey = JsOpt.val key → key ≠ "" →
        m.poster = host env ++ "/poster/movie/tmdb:" ++ toString movieData.id ++ "?fallback=" ++
          encodeURIComponent ("https://image.tmdb.org/t/p/w500" ++ movieData.poster_path.toStr)
          ++ "&lang=" ++ language ++ "&key=" ++ key)) ∧
    (∀ (tvdbShow : TvdbShow) (tvdbEpisodes : TvdbEpisodes) (m : SeriesMeta),
      buildSeriesResponseFromTvdb env c tvdbShow tvdbEpisodes language config catalogChoices
        = Except.ok m →
      ∃ raw : String,
        (∀ img, tvdbShow.image = JsOpt.val img → img ≠ "" → raw = img) ∧
        ((tvdbShow.image = JsOpt.undefined ∨ tvdbShow.image = JsOpt.null ∨
            tvdbShow.image = JsOpt.val "") →
          raw = "https://artworks.thetvdb.com/banners/images/missing/series.jpg") ∧
        ((config.rpdbkey = JsOpt.undefined ∨ config.rpdbkey = JsOpt.null ∨
            config.rpdbkey = JsOpt.val "") → m.poster = raw) ∧
        (∀ key, config.rpdbkey = JsOpt.val key → key ≠ "" →
          m.poster = host env ++ "/poster/series/tvdb:" ++ tvdbShow.id.natToStr ++
            "?fallback=" ++ encodeURIComponent raw ++ "&lang=" ++ language ++
            "&key=" ++ key)) := by
  constructor
  · intro movieData m hok
    obtain ⟨hposter, _⟩ := buildMovieResponse_art hok
    constructor
    · intro habs
      rw [hposter, (truthy_false_iff _).mpr habs]
      rfl
    · intro key hkey hne
      have ht : config.rpdbkey.truthy = true := by simp [hkey, JsOpt.truthy, hne]
      rw [hposter, ht, hkey]
      rfl
  · intro tvdbShow tvdbEpisodes m hok
    obtain ⟨hposter, _, _⟩ := buildSeries_art hok
    refine ⟨if tvdbShow.image.truthy then tvdbShow.image.toStr
      else "https://artworks.thetvdb.com/banners/images/missing/series.jpg", ?_, ?_, ?_, ?_⟩
    · intro img himg hne
      simp [himg, JsOpt.truthy, JsOpt.toStr, hne]
    · intro habs
      rw [(truthy_false_iff _).mpr habs]
      rfl
    · intro habs
      rw [hposter, (truthy_false_iff _).mpr habs]
      rfl
    · intro key hkey hne
      have ht : config.rpdbkey.truthy = true := by simp [hkey, JsOpt.truthy, hne]
      rw [hposter, ht, hkey]
      rfl

set_option maxRecDepth 100000 in
/-- Witness of C11: the sample movie without a key carries the raw TMDB URL, and with the key
`t1-abc` the proxy URL whose fallback is the encoding of that URL. -/
theorem poster_by_premium_key_witness :
    demoMovieMeta.poster = "https://image.tmdb.org/t/p/w500/p.jpg" ∧
    ∃ m, buildMovieResponse demoEnv demoCollab demoMovie "en-US" keyedConfig JsOpt.undefined
        = Except.ok m ∧
      m.poster = "https://addon.example.org/poster/movie/tmdb:603?fallback=https%3A%2F%2Fimage.tmdb.org%2Ft%2Fp%2Fw500%2Fp.jpg&lang=en-US&key=t1-abc" := by
  constructor
  · exact (((poster_by_premium_key demoEnv demoCollab "en-US" demoConfig JsOpt.undefined).1
      demoMovie demoMovieMeta demo_movie_build).1 (Or.inl rfl)).trans rfl
  · obtain ⟨m, hm⟩ := @buildMovieResponse_succeeds demoEnv demoCollab demoMovie "en-US"
      keyedConfig JsOpt.undefined _ _ "The Matrix" rfl rfl rfl
    refine ⟨m, hm, ?_⟩
    exact (((poster_by_premium_key demoEnv demoCollab "en-US" keyedConfig JsOpt.undefined).1
      demoMovie m hm).2 "t1-abc" rfl (by decide)).trans (by decide)

/-! ## Record identifiers -/

theorem findRemoteId_eq (remoteIds : Option (List RemoteId)) (tag : String) :
    findRemoteId remoteIds tag =
      optField ((remoteIds.getD []).find? fun r => decide (r.sourceName = JsOpt.val tag))
        RemoteId.id := by
  cases remoteIds <;> rfl

theorem findRemoteId_of_isFirst (remoteIds : Option (List RemoteId)) (tag : String)
    (e : RemoteId)
    (h : IsFirst (fun r => r.sourceName = JsOpt.val tag) (remoteIds.getD []) e) :
    findRemoteId remoteIds tag = e.id := by
  rw [findRemoteId_eq,
    (find_some_iff_isFirst (fun r => r.sourceName = JsOpt.val tag) _ e).mpr h]
  rfl

theorem findRemoteId_not_truthy (remoteIds : Option (List RemoteId)) (tag : String)
    (h : ∀ e, IsFirst (fun r => r.sourceName = JsOpt.val tag) (remoteIds.getD []) e →
      ¬ NonEmpty e.id) :
    (findRemoteId remoteIds tag).truthy = false := by
  rw [findRemoteId_eq]
  rcases find_none_or_isFirst (fun r => r.sourceName = JsOpt.val tag) (remoteIds.getD [])
    with hn | ⟨e, he, hf⟩
  · rw [hn]; rfl
  · rw [he]
    have := h e hf
    rw [← truthy_iff_nonEmpty] at this
    simpa [optField] using this

set_option maxRecDepth 100000 in
/-- C12 as stated fails: the sample series with a `TheMovieDB` remote id whose id is the empty
string has such an entry, yet the record's id is `tvdb:81189`, not `tmdb:` followed by the id
of that entry. -/
theorem series_id_empty_tmdb_remote_id :
    IsFirst (fun r => r.sourceName = JsOpt.val "TheMovieDB") (emptyTmdbShow.remoteIds.getD [])
        ⟨JsOpt.val "", JsOpt.val "TheMovieDB"⟩ ∧
      buildSeriesResponseFromTvdb demoEnv demoCollab emptyTmdbShow demoEpisodes "de-DE"
        demoConfig JsOpt.undefined = Except.ok { demoSeriesMeta with id := "tvdb:81189" } ∧
      "tvdb:81189" ≠ "tmdb:" ++ (JsOpt.val "" : JsOpt String).toStr := by
  refine ⟨⟨[⟨JsOpt.val "tt0903747", JsOpt.val "IMDB"⟩], [], rfl, ?_, rfl⟩, rfl, by decide⟩
  intro x hx
  simp only [List.mem_singleton] at hx
  subst hx
  decide

/-- C12 (amended): the id of a movie record is `tmdb:` followed by the movie id.  The id of a
series record is `tmdb:` followed by the id of the first `TheMovieDB` remote id when that id is
a non-empty string, and `tvdb:` followed by the TVDB id otherwise; so every id starts with
`tmdb:` or `tvdb:`.  The `imdb_id` of a series record is the id of the first `IMDB` remote id,
and `undefined` when there is none. -/
theorem record_id_prefixed (env : Env) (c : Collab) (language : String) (config : Config)
    (catalogChoices : JsOpt String) :
    (∀ (movieData : MovieData) (m : MovieMeta),
      buildMovieResponse env c movieData language config catalogChoices = Except.ok m →
      m.id = "tmdb:" ++ toString movieData.id) ∧
    (∀ (tvdbShow : TvdbShow) (tvdbEpisodes : TvdbEpisodes) (m : SeriesMeta),
      buildSeriesResponseFromTvdb env c tvdbShow tvdbEpisodes language config catalogChoices
        = Except.ok m →
      (startsWith m.id "tmdb:" = true ∨ startsWith m.id "tvdb:" = true) ∧
      (∀ e, IsFirst (fun r => r.sourceName = JsOpt.val "TheMovieDB")
          (tvdbShow.remoteIds.getD []) e → NonEmpty e.id → m.id = "tmdb:" ++ e.id.toStr) ∧
      ((∀ e, IsFirst (fun r => r.sourceName = JsOpt.val "TheMovieDB")
          (tvdbShow.remoteIds.getD []) e → ¬ NonEmpty e.id) →
        m.id = "tvdb:" ++ tvdbShow.id.natToStr) ∧
      (∀ e, IsFirst (fun r => r.sourceName = JsOpt.val "IMDB")
          (tvdbShow.remoteIds.getD []) e → m.imdb_id = e.id) ∧
      ((∀ r ∈ tvdbShow.remoteIds.getD [], r.sourceName ≠ JsOpt.val "IMDB") →
        m.imdb_id = JsOpt.undefined)) := by
  constructor
  · intro movieData m hok
    obtain ⟨_, _, _, _, _, _, hid, _⟩ := buildMovieResponse_ok hok
    exact hid
  · intro tvdbShow tvdbEpisodes m hok
    obtain ⟨_, _, _, _, _, _, _, _, _, _, hid, himdb, _⟩ := buildSeries_ok hok
    refine ⟨?_, ?_, ?_, ?_, ?_⟩
    · rw [hid]
      split
      · exact Or.inl (startsWith_append_self _ _)
      · exact Or.inr (startsWith_append_self _ _)
    · intro e hf hne
      rw [hid, findRemoteId_of_isFirst _ _ e hf, (truthy_iff_nonEmpty _).mpr hne]
      rfl
    · intro hno
      rw [hid, findRemoteId_not_truthy _ _ hno]
      rfl
    · intro e hf
      rw [himdb, findRemoteId_of_isFirst _ _ e hf]
    · intro hnone
      rw [himdb, findRemoteId_eq]
      have : (tvdbShow.remoteIds.getD []).find?
          (fun r => decide (r.sourceName = JsOpt.val "IMDB")) = none := by
        rw [List.find?_eq_none]
        intro r hr
        simpa using hnone r hr
      rw [this]
      rfl

/-- Witness of C12 (amended) on the sample movie and the sample series. -/
theorem record_id_prefixed_witness :
    demoMovieMeta.id = "tmdb:603" ∧
      (startsWith demoSeriesMeta.id "tmdb:" = true ∨
        startsWith demoSeriesMeta.id "tvdb:" = true) :=
  ⟨((record_id_prefixed demoEnv demoCollab "en-US" demoConfig JsOpt.undefined).1 demoMovie
      demoMovieMeta demo_movie_build).trans rfl,
    ((record_id_prefixed demoEnv demoCollab "de-DE" demoConfig JsOpt.undefined).2 demoShow
      demoEpisodes demoSeriesMeta demo_series_build).1⟩

/-! ## Identifiers without a namespace form -/

theorem digitChar_ne_of_not_digit (ch : Char) (hch : ch.isDigit = false) (d : Nat)
    (h : d < 10) : Nat.digitChar d ≠ ch := by
  intro he
  subst he
  interval_cases d <;> simp [Nat.digitChar, Char.isDigit] at hch

theorem not_mem_toDigitsCore (ch : Char) (hch : ch.isDigit = false) (fuel n : Nat)
    (acc : List Char) (hacc : ch ∉ acc) : ch ∉ Nat.toDigitsCore 10 fuel n acc := by
  induction fuel generalizing n acc with
  | zero => simpa [Nat.toDigitsCore] using hacc
  | succ f ih =>
    have hd : ch ∉ Nat.digitChar (n % 10) :: acc := by
      intro hm
      rcases List.mem_cons.mp hm with h | h
      · exact digitChar_ne_of_not_digit ch hch (n % 10) (Nat.mod_lt _ (by decide)) h.symm
      · exact hacc h
    unfold Nat.toDigitsCore
    simp only
    split
    · exact hd
    · exact ih _ _ hd

theorem not_mem_toString (ch : Char) (hch : ch.isDigit = false) (n : Nat) :
    ch ∉ (toString n).data := by
  show ch ∉ Nat.toDigitsCore 10 (n + 1) n []
  exact not_mem_toDigitsCore ch hch _ _ _ (by simp)

theorem startsWith_mem (s p : String) (ch : Char) (hp : ch ∈ p.data)
    (h : startsWith s p = true) : ch ∈ s.data := by
  unfold startsWith at h
  have hpre : p.data <+: s.data := List.isPrefixOf_iff_prefix.mp h
  exact hpre.subset hp

theorem startsWith_toString_false (p : String) (ch : Char) (hp : ch ∈ p.data)
    (hch : ch.isDigit = false) (n : Nat) : startsWith (toString n) p = false := by
  cases h : startsWith (toString n) p with
  | false => rfl
  | true => exact absurd (startsWith_mem _ _ ch hp h) (not_mem_toString ch hch n)

theorem replaceFirstChars_of_not_mem (pat rep l : List Char) (ch : Char) (hp : ch ∈ pat)
    (hl : ch ∉ l) : replaceFirstChars pat rep l = l := by
  induction l with
  | nil =>
    have : pat.isEmpty = false := by
      cases pat with
      | nil => simp at hp
      | cons a r => rfl
    simp [replaceFirstChars, this]
  | cons c cs ih =>
    have hnot : pat.isPrefixOf (c :: cs) = false := by
      cases h : pat.isPrefixOf (c :: cs) with
      | false => rfl
      | true => exact absurd ((List.isPrefixOf_iff_prefix.mp h).subset hp) hl
    have hcs : ch ∉ cs := fun m => hl (List.mem_cons_of_mem _ m)
    simp [replaceFirstChars, hnot, ih hcs]

theorem replaceFirst_toString (n : Nat) : replaceFirst (toString n) "tmdb:" "" = toString n := by
  unfold replaceFirst
  rw [replaceFirstChars_of_not_mem "tmdb:".data "".data (toString n).data (Char.ofNat 58)
    (by decide) (not_mem_toString _ (by decide) n)]

theorem getMovieMeta_of_not_tt (env : Env) (c : Collab) (stremioId language : String)
    (config : Config) (catalogChoices : JsOpt String)
    (htt : startsWith stremioId "tt" = false) :
    getMovieMeta env c stremioId language config catalogChoices =
      (c.movieInfo (replaceFirst stremioId "tmdb:" "") language).bind fun movieData =>
        buildMovieResponse env c movieData language config catalogChoices := by
  unfold getMovieMeta
  simp only [htt, Bool.false_eq_true, if_false, bind, Except.bind, pure, Except.pure]

theorem getSeriesMeta_no_tv_result (env : Env) (c : Collab) (stremioId language : String)
    (config : Config) (catalogChoices : JsOpt String) (fr : FindResults)
    (h1 : startsWith stremioId "tvdb:" = false) (h2 : startsWith stremioId "tmdb:" = false)
    (hfind : c.find stremioId = Except.ok fr) (hnone : fr.tv_results = some []) :
    getSeriesMeta env c stremioId language config catalogChoices =
      Except.error ("Could not resolve " ++ stremioId ++ " to a TMDB ID.") := by
  unfold getSeriesMeta
  simp only [h1, h2, Bool.false_eq_true, if_false, hfind, hnone, List.head?, JsId.truthy,
    bind, Except.bind, pure, Except.pure]
  rfl

theorem getSeriesMeta_find_error (env : Env) (c : Collab) (stremioId language : String)
    (config : Config) (catalogChoices : JsOpt String) (e : String)
    (h1 : startsWith stremioId "tvdb:" = false) (h2 : startsWith stremioId "tmdb:" = false)
    (hfind : c.find stremioId = Except.error e) :
    getSeriesMeta env c stremioId language config catalogChoices = Except.error e := by
  unfold getSeriesMeta
  simp only [h1, h2, Bool.false_eq_true, if_false, hfind, bind, Except.bind]

theorem getMeta_series_error (env : Env) (c : Collab) (type language stremioId : String)
    (config : Config) (catalogChoices : JsOpt String) (e : String) (ht : type ≠ "movie")
    (h : getSeriesMeta env c stremioId language config catalogChoices = Except.error e) :
    (getMeta env c type language stremioId config catalogChoices).meta = none := by
  simp [getMeta, ht, h, Except.map]

theorem getMeta_movie_error (env : Env) (c : Collab) (language stremioId : String)
    (config : Config) (catalogChoices : JsOpt String) (e : String)
    (h : getMovieMeta env c stremioId language config catalogChoices = Except.error e) :
    (getMeta env c "movie" language stremioId config catalogChoices).meta = none := by
  simp [getMeta, h, Except.map]

theorem getMeta_movie_ok (env : Env) (c : Collab) (language stremioId : String)
    (config : Config) (catalogChoices : JsOpt String) (m : MovieMeta)
    (h : getMovieMeta env c stremioId language config catalogChoices = Except.ok m) :
    (getMeta env c "movie" language stremioId config catalogChoices).meta
      = some (Meta.movie m) := by
  simp [getMeta, h, Except.map]

/-! ## Failing resolutions -/

theorem truthy_str (s : String) : JsId.truthy (JsOpt.val (JsId.str s)) = (s != "") := rfl

theorem truthy_num (n : Nat) : JsId.truthy (JsOpt.val (JsId.num n)) = (n != 0) := rfl

theorem getMovieMeta_no_movie_result (env : Env) (c : Collab) (I language : String)
    (config : Config) (catalogChoices : JsOpt String) (fr : FindResults)
    (hI : startsWith I "tt" = true) (hfind : c.find I = Except.ok fr)
    (hnone : fr.movie_results = none ∨ fr.movie_results = some []) :
    getMovieMeta env c I language config catalogChoices =
      Except.error ("Movie with IMDb ID " ++ I ++ " not found on TMDB.") := by
  unfold getMovieMeta
  rcases hnone with h | h <;>
    simp only [hI, if_true, hfind, h, Option.getD, List.head?, bind, Except.bind]

theorem getSeriesMeta_tv_results_missing (env : Env) (c : Collab) (stremioId language : String)
    (config : Config) (catalogChoices : JsOpt String) (fr : FindResults)
    (h1 : startsWith stremioId "tvdb:" = false) (h2 : startsWith stremioId "tmdb:" = false)
    (hfind : c.find stremioId = Except.ok fr) (hnone : fr.tv_results = none) :
    getSeriesMeta env c stremioId language config catalogChoices =
      Except.error "Cannot read properties of undefined (reading 0)" := by
  unfold getSeriesMeta
  simp only [h1, h2, Bool.false_eq_true, if_false, hfind, hnone, bind, Except.bind]

theorem getSeriesMeta_tmdb_no_tvdb (env : Env) (c : Collab) (Y : Nat) (language : String)
    (config : Config) (catalogChoices : JsOpt String) (info : TvInfo)
    (hinfo : c.tvInfo (toString Y) = Except.ok info)
    (habs : JsId.truthy (JsId.ofNat (optField info.external_ids TvExternalIds.tvdb_id))
      = false) :
    getSeriesMeta env c ("tmdb:" ++ toString Y) language config catalogChoices =
      Except.error ("Could not resolve " ++ ("tmdb:" ++ toString Y) ++ " to a TVDB ID.") := by
  have hYs : (toString Y != "") = true := by simpa using toString_nat_ne_empty Y
  unfold getSeriesMeta
  simp only [startsWith_append_self, startsWith_tmdb_tvdb,
    index_split_prefixed "tmdb:" "tmdb".data Y tmdb_prefix_data (by decide),
    Bool.false_eq_true, if_false, if_true, JsId.ofStr, truthy_str, JsId.render,
    bind, Except.bind, pure, Except.pure, hYs, Bool.not_true, hinfo, habs, Bool.not_false]

theorem getSeriesMeta_imdb_no_tvdb (env : Env) (c : Collab) (Y : Nat) (I language : String)
    (config : Config) (catalogChoices : JsOpt String) (fr : FindResults)
    (rest : List FindItem) (info : TvInfo)
    (h1 : startsWith I "tvdb:" = false) (h2 : startsWith I "tmdb:" = false)
    (hfind : c.find I = Except.ok fr) (hy : fr.tv_results = some (⟨Y⟩ :: rest))
    (hinfo : c.tvInfo (toString Y) = Except.ok info)
    (habs : JsId.truthy (JsId.ofNat (optField info.external_ids TvExternalIds.tvdb_id))
      = false) :
    ∃ e, getSeriesMeta env c I language config catalogChoices = Except.error e := by
  unfold getSeriesMeta
  simp only [h1, h2, Bool.false_eq_true, if_false, hfind, hy, List.head?, truthy_num,
    JsId.render, bind, Except.bind, pure, Except.pure]
  by_cases hY : Y = 0
  · subst hY
    exact ⟨_, rfl⟩
  · have hY0 : (Y != 0) = true := by simpa using hY
    simp only [hY0, Bool.not_true, Bool.false_eq_true, if_false, hinfo, habs, Bool.not_false,
      if_true]
    exact ⟨_, rfl⟩

theorem getSeriesMeta_imdb_tvInfo_error (env : Env) (c : Collab) (Y : Nat)
    (I language : String) (config : Config) (catalogChoices : JsOpt String) (fr : FindResults)
    (rest : List FindItem) (e : String) (hY : 0 < Y)
    (h1 : startsWith I "tvdb:" = false) (h2 : startsWith I "tmdb:" = false)
    (hfind : c.find I = Except.ok fr) (hy : fr.tv_results = some (⟨Y⟩ :: rest))
    (hinfo : c.tvInfo (toString Y) = Except.error e) :
    getSeriesMeta env c I language config catalogChoices = Except.error e := by
  have hY0 : (Y != 0) = true := by simpa using Nat.pos_iff_ne_zero.mp hY
  unfold getSeriesMeta
  simp only [h1, h2, Bool.false_eq_true, if_false, hfind, hy, List.head?, JsId.truthy,
    JsId.render, bind, Except.bind, pure, Except.pure, hY0, Bool.not_true, hinfo]

theorem tvdb_id_absent_not_truthy (info : TvInfo)
    (h : optField info.external_ids TvExternalIds.tvdb_id = JsOpt.undefined ∨
      optField info.external_ids TvExternalIds.tvdb_id = JsOpt.null) :
    JsId.truthy (JsId.ofNat (optField info.external_ids TvExternalIds.tvdb_id)) = false := by
  rcases h with h | h <;> rw [h] <;> rfl

/-! ## The poster resolver -/

theorem append_ne_empty_left (a b : String) (ha : a ≠ "") : a ++ b ≠ "" := by
  intro h
  have hl := congrArg String.length h
  rw [String.length_append] at hl
  have hz : a.length = 0 := by
    have : ("" : String).length = 0 := rfl
    omega
  apply ha
  have hd : a.data = [] := List.length_eq_zero.mp hz
  cases a
  simp_all

theorem langQualifier_append (urlPath language rpdbkey : String) :
    (if (split rpdbkey (Char.ofNat 45)).headD "" = "t0" ∨
        (split rpdbkey (Char.ofNat 45)).headD "" = "t1" ∨
        (split language (Char.ofNat 45)).headD "" = "en" then
      some (urlPath ++ "?fallback=true")
    else some (urlPath ++ "?fallback=true&lang=" ++ (split language (Char.ofNat 45)).headD ""))
      = some (urlPath ++ "?fallback=true" ++ langQualifier language rpdbkey) := by
  unfold langQualifier
  split
  · simp
  · have : urlPath ++ "?fallback=true&lang=" = urlPath ++ "?fallback=true" ++ "&lang=" := by
      rw [String.append_assoc]
      rfl
    rw [this, String.append_assoc (urlPath ++ "?fallback=true")]

theorem getRpdbPoster_movie (ids : PosterIds) (language rpdbkey : String)
    (h : JsId.truthy ids.tmdbId = true) :
    getRpdbPoster "movie" ids language rpdbkey =
      some ("https://api.ratingposterdb.com" ++ "/" ++ rpdbkey ++ "/" ++ "tmdb" ++
        "/poster-default/" ++ ("movie-" ++ JsId.render ids.tmdbId) ++ ".jpg" ++
        "?fallback=true" ++ langQualifier language rpdbkey) := by
  have hne : ("movie-" ++ JsId.render ids.tmdbId != "") = true := by
    simpa using append_ne_empty_left "movie-" (JsId.render ids.tmdbId) (by decide)
  unfold getRpdbPoster
  simp only [h, and_self, if_true, JsOpt.truthy, truthy_str, hne, Bool.not_true,
    Bool.or_self, Bool.false_eq_true, if_false, JsOpt.toStr, JsId.render]
  have : ("tmdb" != "") = true := by decide
  simp only [this, Bool.not_true, Bool.or_self, Bool.false_eq_true, if_false]
  exact langQualifier_append _ _ _

theorem getRpdbPoster_series_tvdb (ids : PosterIds) (language rpdbkey : String)
    (h : JsId.truthy ids.tvdbId = true) :
    getRpdbPoster "series" ids language rpdbkey =
      some ("https://api.ratingposterdb.com" ++ "/" ++ rpdbkey ++ "/" ++ "tvdb" ++
        "/poster-default/" ++ JsId.render ids.tvdbId ++ ".jpg" ++
        "?fallback=true" ++ langQualifier language rpdbkey) := by
  have hm : ¬ ("series" = "movie") := by decide
  have ht : ("tvdb" != "") = true := by decide
  unfold getRpdbPoster
  simp only [hm, false_and, if_false, if_true, h, JsOpt.truthy, ht, Bool.not_true,
    Bool.or_self, Bool.false_eq_true, JsOpt.toStr]
  exact langQualifier_append _ _ _

theorem getRpdbPoster_series_tmdb (ids : PosterIds) (language rpdbkey : String)
    (hv : JsId.truthy ids.tvdbId = false) (h : JsId.truthy ids.tmdbId = true) :
    getRpdbPoster "series" ids language rpdbkey =
      some ("https://api.ratingposterdb.com" ++ "/" ++ rpdbkey ++ "/" ++ "tmdb" ++
        "/poster-default/" ++ ("series-" ++ JsId.render ids.tmdbId) ++ ".jpg" ++
        "?fallback=true" ++ langQualifier language rpdbkey) := by
  have hm : ¬ ("series" = "movie") := by decide
  have ht : ("tmdb" != "") = true := by decide
  have hne : ("series-" ++ JsId.render ids.tmdbId != "") = true := by
    simpa using append_ne_empty_left "series-" (JsId.render ids.tmdbId) (by decide)
  unfold getRpdbPoster
  simp only [hm, false_and, if_false, if_true, h, hv, JsOpt.truthy, truthy_str, hne, ht,
    Bool.not_true, Bool.or_self, Bool.false_eq_true, JsOpt.toStr, JsId.render]
  exact langQualifier_append _ _ _

theorem getRpdbPoster_movie_none (ids : PosterIds) (language rpdbkey : String)
    (h : JsId.truthy ids.tmdbId = false) :
    getRpdbPoster "movie" ids language rpdbkey = none := by
  have hm : ¬ ("movie" = "series") := by decide
  unfold getRpdbPoster
  simp [h, hm, JsOpt.truthy]

theorem getRpdbPoster_series_none (ids : PosterIds) (language rpdbkey : String)
    (hv : JsId.truthy ids.tvdbId = false) (h : JsId.truthy ids.tmdbId = false) :
    getRpdbPoster "series" ids language rpdbkey = none := by
  have hm : ¬ ("series" = "movie") := by decide
  unfold getRpdbPoster
  simp [h, hv, hm, JsOpt.truthy]

theorem getRpdbPoster_other_none (type : String) (ids : PosterIds) (language rpdbkey : String)
    (h1 : type ≠ "movie") (h2 : type ≠ "series") :
    getRpdbPoster type ids language rpdbkey = none := by
  unfold getRpdbPoster
  simp [h1, h2, JsOpt.truthy]

theorem getRpdbPoster_ne_empty (type : String) (ids : PosterIds) (language rpdbkey url : String)
    (h : getRpdbPoster type ids language rpdbkey = some url) : url ≠ "" := by
  have hbase : ∀ a b c d e f g h : String,
      "https://api.ratingposterdb.com" ++ a ++ b ++ c ++ d ++ e ++ f ++ g ++ h ≠ "" := by
    intro a b c d e f g h
    simp only [String.append_assoc]
    exact append_ne_empty_left _ _ (by decide)
  by_cases hm : type = "movie"
  · subst hm
    cases ht : JsId.truthy ids.tmdbId with
    | false => rw [getRpdbPoster_movie_none ids language rpdbkey ht] at h; cases h
    | true =>
      rw [getRpdbPoster_movie ids language rpdbkey ht] at h
      cases h
      exact hbase _ _ _ _ _ _ _ _
  · by_cases hs : type = "series"
    · subst hs
      cases hv : JsId.truthy ids.tvdbId with
      | true =>
        rw [getRpdbPoster_series_tvdb ids language rpdbkey hv] at h
        cases h
        exact hbase _ _ _ _ _ _ _ _
      | false =>
        cases ht : JsId.truthy ids.tmdbId with
        | false => rw [getRpdbPoster_series_none ids language rpdbkey hv ht] at h; cases h
        | true =>
          rw [getRpdbPoster_series_tmdb ids language rpdbkey hv ht] at h
          cases h
          exact hbase _ _ _ _ _ _ _ _
    · rw [getRpdbPoster_other_none type ids language rpdbkey hm hs] at h
      cases h

/-- C15: `getRpdbPoster` builds
`https://api.ratingposterdb.com/<key>/<idType>/poster-default/<mediaId>.jpg?fallback=true`
followed by the language qualifier: a movie is keyed by its TMDB id (`tmdb`, `movie-<tmdbId>`),
a series by its TVDB id when given (`tvdb`, `<tvdbId>`) and else by its TMDB id (`tmdb`,
`series-<tmdbId>`).  The qualifier is `&lang=<lang>`, with `<lang>` the part of the language
before the first `-`, and is left out when the key starts with the tier `t0` or `t1` or when
`<lang>` is `en`.  The result is `null` exactly when a movie has no TMDB id, resp. a series has
neither id. -/
theorem getRpdbPoster_url (ids : PosterIds) (language rpdbkey : String) :
    (JsId.truthy ids.tmdbId = true →
      getRpdbPoster "movie" ids language rpdbkey =
        some ("https://api.ratingposterdb.com/" ++ rpdbkey ++ "/tmdb/poster-default/movie-" ++
          JsId.render ids.tmdbId ++ ".jpg?fallback=true" ++ langQualifier language rpdbkey)) ∧
    (JsId.truthy ids.tvdbId = true →
      getRpdbPoster "series" ids language rpdbkey =
        some ("https://api.ratingposterdb.com/" ++ rpdbkey ++ "/tvdb/poster-default/" ++
          JsId.render ids.tvdbId ++ ".jpg?fallback=true" ++ langQualifier language rpdbkey)) ∧
    (JsId.truthy ids.tvdbId = false → JsId.truthy ids.tmdbId = true →
      getRpdbPoster "series" ids language rpdbkey =
        some ("https://api.ratingposterdb.com/" ++ rpdbkey ++ "/tmdb/poster-default/series-" ++
          JsId.render ids.tmdbId ++ ".jpg?fallback=true" ++ langQualifier language rpdbkey)) ∧
    (getRpdbPoster "movie" ids language rpdbkey = none ↔ JsId.truthy ids.tmdbId = false) ∧
    (getRpdbPoster "series" ids language rpdbkey = none ↔
      (JsId.truthy ids.tvdbId = false ∧ JsId.truthy ids.tmdbId = false)) ∧
    (((split rpdbkey (Char.ofNat 45)).headD "" = "t0" ∨
        (split rpdbkey (Char.ofNat 45)).headD "" = "t1" ∨
        (split language (Char.ofNat 45)).headD "" = "en") →
      langQualifier language rpdbkey = "") ∧
    (¬ ((split rpdbkey (Char.ofNat 45)).headD "" = "t0" ∨
        (split rpdbkey (Char.ofNat 45)).headD "" = "t1" ∨
        (split language (Char.ofNat 45)).headD "" = "en") →
      langQualifier language rpdbkey = "&lang=" ++ (split language (Char.ofNat 45)).headD "") := by
  refine ⟨?_, ?_, ?_, ?_, ?_, ?_, ?_⟩
  · intro h
    rw [getRpdbPoster_movie ids language rpdbkey h]
    congr 1
    apply String.ext
    simp only [String.data_append, List.append_assoc]
    rfl
  · intro h
    rw [getRpdbPoster_series_tvdb ids language rpdbkey h]
    congr 1
    apply String.ext
    simp only [String.data_append, List.append_assoc]
    rfl
  · intro hv h
    rw [getRpdbPoster_series_tmdb ids language rpdbkey hv h]
    congr 1
    apply String.ext
    simp only [String.data_append, List.append_assoc]
    rfl
  · constructor
    · intro hnone
      cases ht : JsId.truthy ids.tmdbId with
      | false => rfl
      | true => rw [getRpdbPoster_movie ids language rpdbkey ht] at hnone; cases hnone
    · exact getRpdbPoster_movie_none ids language rpdbkey
  · constructor
    · intro hnone
      cases hv : JsId.truthy ids.tvdbId with
      | true => rw [getRpdbPoster_series_tvdb ids language rpdbkey hv] at hnone; cases hnone
      | false =>
        cases ht : JsId.truthy ids.tmdbId with
        | false => exact ⟨rfl, rfl⟩
        | true => rw [getRpdbPoster_series_tmdb ids language rpdbkey hv ht] at hnone; cases hnone
    · rintro ⟨hv, ht⟩
      exact getRpdbPoster_series_none ids language rpdbkey hv ht
  · intro h
    unfold langQualifier
    rw [if_pos h]
  · intro h
    unfold langQualifier
    rw [if_neg h]

/-- Witness of C15: the movie `603` under the key `t1-abc`, and the series with TVDB id `81189`
under the key `t2-abc` for the language `fr-FR`. -/
theorem getRpdbPoster_url_witness :
    getRpdbPoster "movie" ⟨JsOpt.val (JsId.num 603), JsOpt.undefined⟩ "fr-FR" "t1-abc" =
        some "https://api.ratingposterdb.com/t1-abc/tmdb/poster-default/movie-603.jpg?fallback=true" ∧
      getRpdbPoster "series" ⟨JsOpt.val (JsId.num 1396), JsOpt.val (JsId.str "81189")⟩ "fr-FR"
        "t2-abc" =
        some "https://api.ratingposterdb.com/t2-abc/tvdb/poster-default/81189.jpg?fallback=true&lang=fr" :=
  ⟨((getRpdbPoster_url ⟨JsOpt.val (JsId.num 603), JsOpt.undefined⟩ "fr-FR" "t1-abc").1
      rfl).trans (by decide),
    ((getRpdbPoster_url ⟨JsOpt.val (JsId.num 1396), JsOpt.val (JsId.str "81189")⟩ "fr-FR"
      "t2-abc").2.1 rfl).trans (by decide)⟩

/-- C14: `parsePoster` returns the URL of `getRpdbPoster` when a key is supplied, that URL
exists and its probe reports the status 200.  With a key and a URL whose probe reports another
status or throws, and with a key but no URL, and without a key, it returns the fallback URL
unchanged.  The probe is issued on the premium URL only, and not at all without a key or
without a URL. -/
theorem parsePoster_outcome (head : String → Except String Nat) (type : String)
    (ids : PosterIds) (fallbackFullUrl language : String) (rpdbkey : JsOpt String) :
    (∀ key url, rpdbkey = JsOpt.val key → key ≠ "" →
      getRpdbPoster type ids language key = some url →
      (head url = Except.ok 200 →
        (parsePoster head type ids fallbackFullUrl language rpdbkey).url = url) ∧
      ((∀ status, head url = Except.ok status → status ≠ 200) →
        (parsePoster head type ids fallbackFullUrl language rpdbkey).url = fallbackFullUrl) ∧
      (parsePoster head type ids fallbackFullUrl language rpdbkey).probed = [url]) ∧
    (∀ key, rpdbkey = JsOpt.val key → key ≠ "" →
      getRpdbPoster type ids language key = none →
      parsePoster head type ids fallbackFullUrl language rpdbkey
        = { url := fallbackFullUrl, probed := [] }) ∧
    ((rpdbkey = JsOpt.undefined ∨ rpdbkey = JsOpt.null ∨ rpdbkey = JsOpt.val "") →
      parsePoster head type ids fallbackFullUrl language rpdbkey
        = { url := fallbackFullUrl, probed := [] }) := by
  refine ⟨?_, ?_, ?_⟩
  · intro key url hkey hne hurl
    have ht : rpdbkey.truthy = true := by simp [hkey, JsOpt.truthy, hne]
    have hu : (url != "") = true := by
      simpa using getRpdbPoster_ne_empty type ids language key url hurl
    have hstr : rpdbkey.toStr = key := by rw [hkey]; rfl
    unfold parsePoster
    simp only [ht, if_true, hstr, hurl, hu]
    refine ⟨?_, ?_, ?_⟩
    · intro h200
      simp [checkIfExists, h200]
    · intro hnot
      have : checkIfExists head url = false := by
        unfold checkIfExists
        cases hh : head url with
        | ok status => simpa using hnot status hh
        | error message => simp
      simp [this]
    · cases checkIfExists head url <;> simp
  · intro key hkey hne hnone
    have ht : rpdbkey.truthy = true := by simp [hkey, JsOpt.truthy, hne]
    have hstr : rpdbkey.toStr = key := by rw [hkey]; rfl
    unfold parsePoster
    simp only [ht, if_true, hstr, hnone]
  · intro habs
    unfold parsePoster
    simp [(truthy_false_iff _).mpr habs]

/-- Witness of C14 on the sample probe: the premium poster of the movie `603` exists and is
returned; the premium poster of the movie `604` answers 404 and the fallback is returned. -/
theorem parsePoster_outcome_witness :
    (parsePoster demoHead "movie" ⟨JsOpt.val (JsId.num 603), JsOpt.undefined⟩
        "https://image.tmdb.org/t/p/w500/p.jpg" "en-US" (JsOpt.val "t1-abc")).url =
        "https://api.ratingposterdb.com/t1-abc/tmdb/poster-default/movie-603.jpg?fallback=true" ∧
      (parsePoster demoHead "movie" ⟨JsOpt.val (JsId.num 604), JsOpt.undefined⟩
        "https://image.tmdb.org/t/p/w500/q.jpg" "en-US" (JsOpt.val "t1-abc")).url =
        "https://image.tmdb.org/t/p/w500/q.jpg" :=
  ⟨((parsePoster_outcome demoHead "movie" ⟨JsOpt.val (JsId.num 603), JsOpt.undefined⟩
        "https://image.tmdb.org/t/p/w500/p.jpg" "en-US" (JsOpt.val "t1-abc")).1 "t1-abc"
        "https://api.ratingposterdb.com/t1-abc/tmdb/poster-default/movie-603.jpg?fallback=true"
        rfl (by decide) (by decide)).1 rfl,
    ((parsePoster_outcome demoHead "movie" ⟨JsOpt.val (JsId.num 604), JsOpt.undefined⟩
        "https://image.tmdb.org/t/p/w500/q.jpg" "en-US" (JsOpt.val "t1-abc")).1 "t1-abc"
        "https://api.ratingposterdb.com/t1-abc/tmdb/poster-default/movie-604.jpg?fallback=true"
        rfl (by decide) (by decide)).2.1 (by
          intro status hs
          have h404 : demoHead
              "https://api.ratingposterdb.com/t1-abc/tmdb/poster-default/movie-604.jpg?fallback=true"
              = Except.ok 404 := rfl
          rw [h404] at hs
          cases hs
          decide)⟩

/-! ## Writers and directors -/

theorem mem_keepFirst (l : List (JsOpt String)) (x : JsOpt String) :
    x ∈ keepFirst l ↔ x ∈ l := by
  induction l with
  | nil => simp [keepFirst]
  | cons a as ih =>
    simp only [keepFirst, List.mem_cons, List.mem_filter, ih, decide_eq_true_eq]
    constructor
    · rintro (h | ⟨h, _⟩)
      · exact Or.inl h
      · exact Or.inr h
    · rintro (h | h)
      · exact Or.inl h
      · by_cases hxa : x = a
        · exact Or.inl hxa
        · exact Or.inr ⟨h, hxa⟩

theorem nodup_keepFirst (l : List (JsOpt String)) : (keepFirst l).Nodup := by
  induction l with
  | nil => simp [keepFirst]
  | cons a as ih =>
    simp only [keepFirst, List.nodup_cons, List.mem_filter, decide_eq_true_eq]
    exact ⟨fun h => h.2 rfl, ih.filter _⟩

theorem keepFirst_append (a b : List (JsOpt String)) :
    keepFirst (a ++ b) = keepFirst a ++ (keepFirst b).filter fun y => decide (y ∉ a) := by
  induction a with
  | nil => simp [keepFirst]
  | cons x xs ih =>
    have h1 : keepFirst (x :: xs ++ b) =
        x :: (keepFirst (xs ++ b)).filter fun y => decide (y ≠ x) := rfl
    have h2 : keepFirst (x :: xs) = x :: (keepFirst xs).filter fun y => decide (y ≠ x) := rfl
    rw [h1, h2, ih, List.filter_append, List.filter_filter, List.cons_append]
    congr 2
    apply List.filter_congr
    intro y _
    simp only [List.mem_cons, not_or, Bool.decide_and, Bool.and_comm]

theorem setOf_eq (seen l : List (JsOpt String)) :
    setOf seen l = seen.reverse ++ (keepFirst l).filter fun y => decide (y ∉ seen) := by
  induction l generalizing seen with
  | nil => simp [setOf, keepFirst]
  | cons x xs ih =>
    by_cases hx : x ∈ seen
    · simp only [setOf, hx, if_true, ih, keepFirst, List.filter_cons, not_true_eq_false,
        decide_False, Bool.false_eq_true, if_false, List.filter_filter,
        List.append_cancel_left_eq]
      apply List.filter_congr
      intro y _
      by_cases hy : y ∈ seen
      · simp [hy]
      · have : y ≠ x := fun e => hy (e ▸ hx)
        simp [hy, this]
    · simp only [setOf, hx, if_false, ih, keepFirst, List.filter_cons, not_false_eq_true,
        decide_True, if_true, List.filter_filter, List.reverse_cons, List.append_assoc,
        List.singleton_append, List.append_cancel_left_eq, List.cons.injEq, true_and]
      apply List.filter_congr
      intro y _
      simp only [List.mem_cons, not_or, Bool.decide_and, Bool.and_comm]

theorem setOf_nil_eq_keepFirst (l : List (JsOpt String)) : setOf [] l = keepFirst l := by
  rw [setOf_eq]
  simp

/-- C17: for a credits object with a crew list, `parseWriter` has no repeated name, its
elements are exactly the names of the crew members of the department `Writing` or with the job
`Creator`, and it keeps each name at its first occurrence in the Writing names followed by the
Creator names, so the Writing names come before the names that are Creator only;
`parseDirector` is the names of the crew members with the job `Director`, in crew order.  Both
are empty when the credits or the crew list are absent. -/
theorem writers_and_directors :
    (∀ (cr : Credits) (crew : List CrewEntry), cr.crew = some crew →
      (parseWriter (some cr)).Nodup ∧
      (∀ x, x ∈ parseWriter (some cr) ↔
        ∃ el ∈ crew, (el.department = JsOpt.val "Writing" ∨ el.job = JsOpt.val "Creator") ∧
          el.name = x) ∧
      parseWriter (some cr) =
        keepFirst
          ((crew.filter fun el => decide (el.department = JsOpt.val "Writing")).map
              (fun el => el.name) ++
            (crew.filter fun el => decide (el.job = JsOpt.val "Creator")).map
              (fun el => el.name)) ∧
      parseWriter (some cr) =
        keepFirst ((crew.filter fun el => decide (el.department = JsOpt.val "Writing")).map
            (fun el => el.name)) ++
          (keepFirst ((crew.filter fun el => decide (el.job = JsOpt.val "Creator")).map
            (fun el => el.name))).filter
            (fun y => decide (y ∉ (crew.filter fun el =>
              decide (el.department = JsOpt.val "Writing")).map (fun el => el.name))) ∧
      parseDirector (some cr) =
        (crew.filter fun el => decide (el.job = JsOpt.val "Director")).map
          (fun el => el.name)) ∧
    parseWriter none = [] ∧ parseDirector none = [] ∧
    (∀ cr : Credits, cr.crew = none →
      parseWriter (some cr) = [] ∧ parseDirector (some cr) = []) := by
  refine ⟨?_, rfl, rfl, ?_⟩
  · intro cr crew hcrew
    have hw : parseWriter (some cr) =
        keepFirst
          ((crew.filter fun el => decide (el.department = JsOpt.val "Writing")).map
              (fun el => el.name) ++
            (crew.filter fun el => decide (el.job = JsOpt.val "Creator")).map
              (fun el => el.name)) := by
      simp only [parseWriter, optObj, hcrew, setOf_nil_eq_keepFirst]
    refine ⟨?_, ?_, hw, ?_, ?_⟩
    · rw [hw]
      exact nodup_keepFirst _
    · intro x
      rw [hw, mem_keepFirst]
      simp only [List.mem_append, List.mem_map, List.mem_filter, decide_eq_true_eq]
      constructor
      · rintro (⟨el, ⟨hel, hd⟩, hn⟩ | ⟨el, ⟨hel, hj⟩, hn⟩)
        · exact ⟨el, hel, Or.inl hd, hn⟩
        · exact ⟨el, hel, Or.inr hj, hn⟩
      · rintro ⟨el, hel, hd | hj, hn⟩
        · exact Or.inl ⟨el, ⟨hel, hd⟩, hn⟩
        · exact Or.inr ⟨el, ⟨hel, hj⟩, hn⟩
    · rw [hw, keepFirst_append]
    · simp only [parseDirector, optObj, hcrew]
  · intro cr hnone
    simp [parseWriter, parseDirector, optObj, hnone]

/-- Witness of C17 on the sample credits: the writer credited twice and as creator appears
once, before the second creator. -/
theorem writers_and_directors_witness :
    demoCredits.crew = some [
        ⟨JsOpt.val "Lilly Wachowski", JsOpt.val "Writer", JsOpt.val "Writing"⟩,
        ⟨JsOpt.val "Lana Wachowski", JsOpt.val "Director", JsOpt.val "Directing"⟩,
        ⟨JsOpt.val "Lilly Wachowski", JsOpt.val "Screenplay", JsOpt.val "Writing"⟩,
        ⟨JsOpt.val "Joel Silver", JsOpt.val "Creator", JsOpt.val "Production"⟩,
        ⟨JsOpt.val "Lilly Wachowski", JsOpt.val "Creator", JsOpt.val "Production"⟩] ∧
      parseWriter (some demoCredits) = [JsOpt.val "Lilly Wachowski", JsOpt.val "Joel Silver"] ∧
      parseDirector (some demoCredits) = [JsOpt.val "Lana Wachowski"] ∧
      (parseWriter (some demoCredits)).Nodup :=
  ⟨rfl, by decide, by decide, (writers_and_directors.1 demoCredits _ rfl).1⟩

/-! ## The shape of the link list -/

theorem parseGenreLink_eq (env : Env) (genres : Option (List Genre)) (type : String)
    (configString : JsOpt String) :
    parseGenreLink env genres type configString =
      if env.HOST_NAME = "" then []
      else ((genres.getD []).filter fun g => g.name.truthy).map
        (genreLink env type configString) := by
  cases genres with
  | none => simp [parseGenreLink]
  | some gs =>
    by_cases hh : env.HOST_NAME = ""
    · simp [parseGenreLink, hh]
    · simp only [parseGenreLink, hh, if_false, Option.getD]
      induction gs with
      | nil => rfl
      | cons g gs ih =>
        by_cases hg : g.name.truthy = true
        · simp only [List.filterMap_cons, hg, if_true, List.filter_cons, List.map_cons, ih]
          rfl
        · simp only [List.filterMap_cons, hg, if_false, List.filter_cons, ih]
          rfl

theorem parseCreditsLink_eq (credits : Option Credits) (castCount : Option Nat) :
    parseCreditsLink credits castCount =
      (parseCast credits castCount).map (fun a => personLink "Cast" a.name) ++
        (parseDirector credits).map (personLink "Directors") ++
        (parseWriter credits).map (personLink "Writers") := rfl

theorem buildLinks_eq (env : Env) (imdbRating id : String) (title : JsOpt String)
    (type : String) (genres : Option (List Genre)) (credits : Option Credits)
    (castCount : Option Nat) (catalogChoices : JsOpt String) (hid : id ≠ "") :
    buildLinks env imdbRating (JsOpt.val id) title type genres credits castCount catalogChoices =
      [({ name := JsOpt.val imdbRating, category := "imdb",
          url := "https://imdb.com/title/" ++ id } : Link),
        { name := JsOpt.val "Share", category := "share",
          url := "https://www.strem.io/s/" ++ type ++ "/" ++ id ++ "/" ++
            encodeURIComponent title.toStr }] ++
      (if env.HOST_NAME = "" then []
        else ((genres.getD []).filter fun g => g.name.truthy).map
          (genreLink env type catalogChoices)) ++
      ((parseCast credits castCount).map (fun a => personLink "Cast" a.name) ++
        (parseDirector credits).map (personLink "Directors") ++
        (parseWriter credits).map (personLink "Writers")) := by
  have ht : (JsOpt.val id : JsOpt String).truthy = true := by simp [JsOpt.truthy, hid]
  unfold buildLinks
  rw [if_pos ht, parseGenreLink_eq, parseCreditsLink_eq]
  rfl

theorem filter_category_map {α : Type} (l : List α) (f : α → Link) (cat q : String)
    (hf : ∀ a, (f a).category = cat) :
    (l.map f).filter (fun k => decide (k.category = q)) = if cat = q then l.map f else [] := by
  induction l with
  | nil => simp
  | cons a as ih =>
    by_cases h : cat = q
    · simp only [h, if_true] at ih ⊢
      simp [List.filter_cons, hf a, h, ih]
    · simp only [h, if_false] at ih ⊢
      simp [List.filter_cons, hf a, h, ih]

theorem buildLinks_filter_cast (env : Env) (imdbRating id : String) (title : JsOpt String)
    (type : String) (genres : Option (List Genre)) (credits : Option Credits)
    (castCount : Option Nat) (catalogChoices : JsOpt String) (hid : id ≠ "") :
    (buildLinks env imdbRating (JsOpt.val id) title type genres credits castCount
        catalogChoices).filter (fun k => decide (k.category = "Cast")) =
      (parseCast credits castCount).map (fun a => personLink "Cast" a.name) := by
  rw [buildLinks_eq env imdbRating id title type genres credits castCount catalogChoices hid]
  simp only [List.filter_append]
  rw [filter_category_map (parseCast credits castCount)
      (fun a : CastMember => personLink "Cast" a.name) "Cast" "Cast" (fun _ => rfl),
    filter_category_map (parseDirector credits) (personLink "Directors") "Directors" "Cast"
      (fun _ => rfl),
    filter_category_map (parseWriter credits) (personLink "Writers") "Writers" "Cast"
      (fun _ => rfl)]
  have hg : (if env.HOST_NAME = "" then []
        else ((genres.getD []).filter fun g => g.name.truthy).map
          (genreLink env type catalogChoices)).filter (fun k => decide (k.category = "Cast"))
      = [] := by
    split
    · rfl
    · rw [filter_category_map _ (genreLink env type catalogChoices) "Genres" "Cast"
        (fun _ => rfl)]
      rfl
  rw [hg]
  simp [List.filter_cons]

set_option maxRecDepth 100000 in
/-- C16 as stated fails: with an empty `HOST_NAME` the links of the sample movie (one genre,
one listed cast member, one director, no writer) are four, without a Genres link, and not
`2 + 1 + 1 + 1 + 0`; and with a host, a genre without a name gets no link either. -/
theorem links_without_genre_links :
    (demoMovie.genres.getD []).length = 1 ∧
      (parseCast demoMovie.credits (some 5)).length = 1 ∧
      (parseDirector demoMovie.credits).length = 1 ∧
      (parseWriter demoMovie.credits).length = 0 ∧
      (buildLinks emptyHostEnv "8.1" (JsOpt.val "tt0133093") (JsOpt.val "The Matrix") "movie"
        demoMovie.genres demoMovie.credits (some 5) JsOpt.undefined).length = 4 ∧
      (buildLinks emptyHostEnv "8.1" (JsOpt.val "tt0133093") (JsOpt.val "The Matrix") "movie"
        demoMovie.genres demoMovie.credits (some 5) JsOpt.undefined).filter
          (fun k => decide (k.category = "Genres")) = [] ∧
      (buildLinks demoEnv "8.1" (JsOpt.val "tt0133093") (JsOpt.val "The Matrix") "movie"
        (some [⟨JsOpt.undefined⟩]) demoMovie.credits (some 5) JsOpt.undefined).length = 4 := by
  refine ⟨rfl, rfl, rfl, rfl, ?_, ?_, ?_⟩ <;> decide

/-- C16 (amended): with an IMDb id, `buildLinks` is, in this order, the IMDb link, the share
link, one Genres link per genre with a non-empty name (none at all when `HOST_NAME` is empty
or the genres are not an array), then one person-search link per listed cast member, per
director and per writer.  Its length is two plus the numbers of these, and it holds exactly
one `imdb` and exactly one `share` entry. -/
theorem buildLinks_shape (env : Env) (imdbRating id : String) (title : JsOpt String)
    (type : String) (genres : Option (List Genre)) (credits : Option Credits)
    (castCount : Option Nat) (catalogChoices : JsOpt String) (hid : id ≠ "") :
    buildLinks env imdbRating (JsOpt.val id) title type genres credits castCount catalogChoices =
      [({ name := JsOpt.val imdbRating, category := "imdb",
          url := "https://imdb.com/title/" ++ id } : Link),
        { name := JsOpt.val "Share", category := "share",
          url := "https://www.strem.io/s/" ++ type ++ "/" ++ id ++ "/" ++
            encodeURIComponent title.toStr }] ++
      (if env.HOST_NAME = "" then []
        else ((genres.getD []).filter fun g => g.name.truthy).map
          (genreLink env type catalogChoices)) ++
      ((parseCast credits castCount).map (fun a => personLink "Cast" a.name) ++
        (parseDirector credits).map (personLink "Directors") ++
        (parseWriter credits).map (personLink "Writers")) ∧
    (buildLinks env imdbRating (JsOpt.val id) title type genres credits castCount
        catalogChoices).length =
      2 + (if env.HOST_NAME = "" then 0
          else ((genres.getD []).filter fun g => g.name.truthy).length) +
        (parseCast credits castCount).length + (parseDirector credits).length +
        (parseWriter credits).length ∧
    ((buildLinks env imdbRating (JsOpt.val id) title type genres credits castCount
        catalogChoices).filter (fun k => decide (k.category = "imdb"))).length = 1 ∧
    ((buildLinks env imdbRating (JsOpt.val id) title type genres credits castCount
        catalogChoices).filter (fun k => decide (k.category = "share"))).length = 1 := by
  have heq := buildLinks_eq env imdbRating id title type genres credits castCount
    catalogChoices hid
  have hg : ∀ q : String, q ≠ "Genres" →
      (if env.HOST_NAME = "" then []
        else ((genres.getD []).filter fun g => g.name.truthy).map
          (genreLink env type catalogChoices)).filter (fun k => decide (k.category = q))
      = [] := by
    intro q hq
    split
    · rfl
    · rw [filter_category_map _ (genreLink env type catalogChoices) "Genres" q (fun _ => rfl)]
      simp [Ne.symm hq]
  have hp : ∀ q : String, q ≠ "Cast" → q ≠ "Directors" → q ≠ "Writers" →
      ((parseCast credits castCount).map (fun a => personLink "Cast" a.name) ++
        (parseDirector credits).map (personLink "Directors") ++
        (parseWriter credits).map (personLink "Writers")).filter
          (fun k => decide (k.category = q)) = [] := by
    intro q h1 h2 h3
    simp only [List.filter_append]
    rw [filter_category_map (parseCast credits castCount)
        (fun a : CastMember => personLink "Cast" a.name) "Cast" q (fun _ => rfl),
      filter_category_map (parseDirector credits) (personLink "Directors") "Directors" q
        (fun _ => rfl),
      filter_category_map (parseWriter credits) (personLink "Writers") "Writers" q
        (fun _ => rfl)]
    simp [Ne.symm h1, Ne.symm h2, Ne.symm h3]
  refine ⟨heq, ?_, ?_, ?_⟩
  · rw [heq]
    simp only [List.length_append, List.length_cons, List.length_nil, List.length_map]
    split <;> simp <;> omega
  · rw [heq, List.filter_append, List.filter_append, hg "imdb" (by decide),
      hp "imdb" (by decide) (by decide) (by decide)]
    simp [List.filter_cons]
  · rw [heq, List.filter_append, List.filter_append, hg "share" (by decide),
      hp "share" (by decide) (by decide) (by decide)]
    simp [List.filter_cons]

set_option maxRecDepth 100000 in
/-- Witness of C16 (amended) on the links of the sample movie: five links, one of them the
Genres link. -/
theorem buildLinks_shape_witness :
    (buildLinks demoEnv "8.1" (JsOpt.val "tt0133093") (JsOpt.val "The Matrix") "movie"
        demoMovie.genres demoMovie.credits (some 5) JsOpt.undefined).length = 5 ∧
      demoMovieMeta.links.map (fun k => k.category)
        = ["imdb", "share", "Genres", "Cast", "Directors"] :=
  ⟨(buildLinks_shape demoEnv "8.1" "tt0133093" (JsOpt.val "The Matrix") "movie"
      demoMovie.genres demoMovie.credits (some 5) JsOpt.undefined (by decide)).2.1.trans
      (by decide),
    by decide⟩

/-! ## Cast slicing -/

theorem parseCast_pairs (credits : Option Credits) (count : Option Nat) :
    (parseCast credits count).map (fun a => (a.name, a.character)) =
      (firstK count ((optObj credits Credits.cast).getD [])).map
        (fun el => (el.name, el.character)) := by
  unfold parseCast
  cases h : optObj credits Credits.cast with
  | none => cases count <;> simp [firstK]
  | some cast =>
    cases count with
    | none => simp [firstK, List.map_map, Function.comp_def]
    | some k => simp [firstK, List.map_map, Function.comp_def]

theorem parseCast_length (credits : Option Credits) (count : Option Nat) :
    (parseCast credits count).length =
      (firstK count ((optObj credits Credits.cast).getD [])).length := by
  have := congrArg List.length (parseCast_pairs credits count)
  simpa using this

theorem firstK_length {α : Type} (k : Nat) (l : List α) :
    (firstK (some k) l).length = min k l.length := by
  simp [firstK, List.length_take]

theorem castCountOf_cases (config : Config) :
    (∀ n, config.castCount = CastCountSetting.number n → (n = 5 ∨ n = 10 ∨ n = 15) →
      castCountOf config = some n) ∧
    (config.castCount = CastCountSetting.text "unlimited" → castCountOf config = none) ∧
    ((∀ n, config.castCount = CastCountSetting.number n → ¬ (n = 5 ∨ n = 10 ∨ n = 15)) →
      config.castCount ≠ CastCountSetting.text "unlimited" → castCountOf config = some 5) := by
  refine ⟨?_, ?_, ?_⟩
  · intro n hn h
    simp [castCountOf, hn, h]
  · intro h
    simp [castCountOf, h]
  · intro hnum htext
    unfold castCountOf
    cases hc : config.castCount with
    | unset => rfl
    | other => rfl
    | text s =>
      have : s ≠ "unlimited" := fun e => htext (by rw [hc, e])
      simp [this]
    | number n =>
      have := hnum n hc
      simp [this]

/-- C20: the effective cast count is the configured `castCount` when that is the number 5, 10
or 15, unbounded when it is `unlimited`, and 5 otherwise.  In both records `app_extras.cast` is
the first `min(k, n)` of the `n` provider cast members in provider order, with their names and
characters, and when the record has an IMDb id its `Cast` links are one per entry of
`app_extras.cast`, in the same order and with the same names. -/
theorem cast_slicing (env : Env) (c : Collab) (language : String) (config : Config)
    (catalogChoices : JsOpt String) :
    ((∀ n, config.castCount = CastCountSetting.number n → (n = 5 ∨ n = 10 ∨ n = 15) →
        castCountOf config = some n) ∧
      (config.castCount = CastCountSetting.text "unlimited" → castCountOf config = none) ∧
      ((∀ n, config.castCount = CastCountSetting.number n → ¬ (n = 5 ∨ n = 10 ∨ n = 15)) →
        config.castCount ≠ CastCountSetting.text "unlimited" →
        castCountOf config = some 5)) ∧
    (∀ (movieData : MovieData) (m : MovieMeta),
      buildMovieResponse env c movieData language config catalogChoices = Except.ok m →
      m.app_extras_cast.map (fun a => (a.name, a.character)) =
        (firstK (castCountOf config) ((optObj movieData.credits Credits.cast).getD [])).map
          (fun el => (el.name, el.character)) ∧
      (∀ k, castCountOf config = some k →
        m.app_extras_cast.length =
          min k ((optObj movieData.credits Credits.cast).getD []).length) ∧
      (NonEmpty m.imdb_id →
        m.links.filter (fun k => decide (k.category = "Cast")) =
          m.app_extras_cast.map (fun a => personLink "Cast" a.name))) ∧
    (∀ (tvdbShow : TvdbShow) (tvdbEpisodes : TvdbEpisodes) (m : SeriesMeta),
      buildSeriesResponseFromTvdb env c tvdbShow tvdbEpisodes language config catalogChoices
        = Except.ok m →
      m.app_extras_cast.map (fun a => (a.name, a.character)) =
        (firstK (castCountOf config) (tvdbShow.characters.getD [])).map
          (fun ch => (ch.personName, ch.name)) ∧
      (∀ k, castCountOf config = some k →
        m.app_extras_cast.length = min k (tvdbShow.characters.getD []).length) ∧
      (NonEmpty m.imdb_id →
        m.links.filter (fun k => decide (k.category = "Cast")) =
          m.app_extras_cast.map (fun a => personLink "Cast" a.name))) := by
  refine ⟨castCountOf_cases config, ?_, ?_⟩
  · intro movieData m hok
    obtain ⟨_, _, _, _, _, _, _, _, _, _, hlinks, hcast⟩ := buildMovieResponse_ok hok
    refine ⟨?_, ?_, ?_⟩
    · rw [hcast, parseCast_pairs]
    · intro k hk
      rw [hcast, parseCast_length, hk, firstK_length]
    · rintro ⟨id, hid, hne⟩
      rw [hlinks, hid, hcast]
      exact buildLinks_filter_cast env m.imdbRating id movieData.title "movie" movieData.genres
        movieData.credits (castCountOf config) catalogChoices hne
  · intro tvdbShow tvdbEpisodes m hok
    obtain ⟨_, _, hcast⟩ := buildSeries_art hok
    obtain ⟨_, _, _, _, _, _, _, _, _, _, _, _, _, _, _, hlinks⟩ := buildSeries_ok hok
    have hlist : (optObj (some ({
        cast := some ((tvdbShow.characters.getD []).map fun ch =>
          ({ name := ch.personName, character := ch.name, profile_path := ch.image } :
            CastEntry))
        crew := some [] } : Credits)) Credits.cast).getD [] =
        (tvdbShow.characters.getD []).map fun ch =>
          ({ name := ch.personName, character := ch.name, profile_path := ch.image } :
            CastEntry) := rfl
    refine ⟨?_, ?_, ?_⟩
    · rw [hcast, parseCast_pairs, hlist]
      cases castCountOf config with
      | none => simp [firstK, List.map_map, Function.comp_def]
      | some k => simp [firstK, List.map_map, Function.comp_def, List.map_take]
    · intro k hk
      rw [hcast, parseCast_length, hk, firstK_length, hlist, List.length_map]
    · rintro ⟨id, hid, hne⟩
      rw [hlinks, hid, hcast]
      exact buildLinks_filter_cast env m.imdbRating id m.name "series" tvdbShow.genres _
        (castCountOf config) catalogChoices hne

set_option maxRecDepth 100000 in
/-- Witness of C20 on the sample movie: the count is 5, the one provider cast member is listed,
and the one `Cast` link carries that name. -/
theorem cast_slicing_witness :
    castCountOf demoConfig = some 5 ∧
      demoMovieMeta.app_extras_cast.map (fun a => a.name) = [JsOpt.val "Keanu Reeves"] ∧
      demoMovieMeta.links.filter (fun k => decide (k.category = "Cast")) =
        demoMovieMeta.app_extras_cast.map (fun a => personLink "Cast" a.name) :=
  ⟨rfl, by decide,
    ((cast_slicing demoEnv demoCollab "en-US" demoConfig JsOpt.undefined).2.1 demoMovie
      demoMovieMeta demo_movie_build).2.2 ⟨"tt0133093", rfl, by decide⟩⟩

/-! ## Absolute URLs -/

theorem startsWith_append_of_startsWith (p s q : String) (h : startsWith p q = true) :
    startsWith (p ++ s) q = true := by
  unfold startsWith at *
  rw [String.data_append]
  have hp : q.data <+: p.data := List.isPrefixOf_iff_prefix.mp h
  exact List.isPrefixOf_iff_prefix.mpr (hp.trans (List.prefix_append _ _))

theorem isAbsoluteUrl_append (p s : String) (h : isAbsoluteUrl p = true) :
    isAbsoluteUrl (p ++ s) = true := by
  unfold isAbsoluteUrl at *
  rw [Bool.or_eq_true] at h ⊢
  rcases h with h | h
  · exact Or.inl (startsWith_append_of_startsWith p s _ h)
  · exact Or.inr (startsWith_append_of_startsWith p s _ h)

theorem isAbsoluteUrl_host (env : Env)
    (h : startsWith env.HOST_NAME "http" = false ∨ isAbsoluteUrl env.HOST_NAME = true) :
    isAbsoluteUrl (host env) = true := by
  unfold host
  rcases h with h | h
  · rw [h]
    exact isAbsoluteUrl_append "https://" env.HOST_NAME (by decide)
  · split
    · exact h
    · exact isAbsoluteUrl_append "https://" env.HOST_NAME (by decide)

theorem findArtwork_eq (artworks : Option (List Artwork)) :
    optField (optObj artworks fun l => l.find? fun a => decide (a.type = JsOpt.val 3))
        Artwork.image =
      optField ((artworks.getD []).find? fun a => decide (a.type = JsOpt.val 3))
        Artwork.image := by
  cases artworks <;> rfl

set_option maxRecDepth 100000 in
/-- C18 as stated fails: for the sample series with relative image paths and no premium key,
the poster and the background of the record are those paths, which are neither `null` nor
fully-qualified URLs. -/
theorem series_art_relative_paths :
    buildSeriesResponseFromTvdb demoEnv demoCollab relativeArtShow demoEpisodes "de-DE"
        demoConfig JsOpt.undefined =
        Except.ok { demoSeriesMeta with
          poster := "/banners/posters/81189-10.jpg"
          background := JsOpt.val "/banners/fanart/81189.jpg" } ∧
      isAbsoluteUrl "/banners/posters/81189-10.jpg" = false ∧
      isAbsoluteUrl "/banners/fanart/81189.jpg" = false :=
  ⟨rfl, by decide, by decide⟩

/-- C18 (amended): in a movie record the background is a fully-qualified URL, and so is the
poster without a premium key; with a key the poster of either record begins with the public
host, which is fully qualified when `HOST_NAME` does not start with `http` or is itself fully
qualified.  In a series record without a key the poster is the provider's image as it is, or
the fully-qualified placeholder when the image is absent; the background is the image of the
first artwork of type 3 as it is, and `undefined` when there is none. -/
theorem record_art_urls (env : Env) (c : Collab) (language : String) (config : Config)
    (catalogChoices : JsOpt String) :
    ((startsWith env.HOST_NAME "http" = false ∨ isAbsoluteUrl env.HOST_NAME = true) →
      isAbsoluteUrl (host env) = true) ∧
    (∀ (movieData : MovieData) (m : MovieMeta),
      buildMovieResponse env c movieData language config catalogChoices = Except.ok m →
      isAbsoluteUrl m.background = true ∧
      ((config.rpdbkey = JsOpt.undefined ∨ config.rpdbkey = JsOpt.null ∨
          config.rpdbkey = JsOpt.val "") → isAbsoluteUrl m.poster = true) ∧
      (∀ key, config.rpdbkey = JsOpt.val key → key ≠ "" →
        (∃ rest, m.poster = host env ++ rest) ∧
        (isAbsoluteUrl (host env) = true → isAbsoluteUrl m.poster = true))) ∧
    (∀ (tvdbShow : TvdbShow) (tvdbEpisodes : TvdbEpisodes) (m : SeriesMeta),
      buildSeriesResponseFromTvdb env c tvdbShow tvdbEpisodes language config catalogChoices
        = Except.ok m →
      ((config.rpdbkey = JsOpt.undefined ∨ config.rpdbkey = JsOpt.null ∨
          config.rpdbkey = JsOpt.val "") →
        (∀ img, tvdbShow.image = JsOpt.val img → img ≠ "" → m.poster = img) ∧
        ((tvdbShow.image = JsOpt.undefined ∨ tvdbShow.image = JsOpt.null ∨
            tvdbShow.image = JsOpt.val "") →
          m.poster = "https://artworks.thetvdb.com/banners/images/missing/series.jpg" ∧
          isAbsoluteUrl m.poster = true)) ∧
      (∀ key, config.rpdbkey = JsOpt.val key → key ≠ "" →
        (∃ rest, m.poster = host env ++ rest) ∧
        (isAbsoluteUrl (host env) = true → isAbsoluteUrl m.poster = true)) ∧
      (∀ a, IsFirst (fun a : Artwork => a.type = JsOpt.val 3) (tvdbShow.artworks.getD []) a →
        m.background = a.image) ∧
      ((∀ a ∈ tvdbShow.artworks.getD [], a.type ≠ JsOpt.val 3) →
        m.background = JsOpt.undefined)) := by
  refine ⟨isAbsoluteUrl_host env, ?_, ?_⟩
  · intro movieData m hok
    obtain ⟨hposter, hback⟩ := buildMovieResponse_art hok
    refine ⟨?_, ?_, ?_⟩
    · rw [hback]
      exact isAbsoluteUrl_append _ _ (by decide)
    · intro habs
      rw [hposter, (truthy_false_iff _).mpr habs]
      exact isAbsoluteUrl_append _ _ (by decide)
    · intro key hkey hne
      have ht : config.rpdbkey.truthy = true := by simp [hkey, JsOpt.truthy, hne]
      have hform : m.poster = host env ++ ("/poster/movie/tmdb:" ++ toString movieData.id ++
          "?fallback=" ++ encodeURIComponent
            ("https://image.tmdb.org/t/p/w500" ++ movieData.poster_path.toStr) ++
          "&lang=" ++ language ++ "&key=" ++ config.rpdbkey.toStr) := by
        rw [hposter, ht]
        simp only [if_true, String.append_assoc]
      exact ⟨⟨_, hform⟩, fun hh => by rw [hform]; exact isAbsoluteUrl_append _ _ hh⟩
  · intro tvdbShow tvdbEpisodes m hok
    obtain ⟨hposter, hback, _⟩ := buildSeries_art hok
    refine ⟨?_, ?_, ?_, ?_⟩
    · intro habs
      have hk := (truthy_false_iff _).mpr habs
      constructor
      · intro img himg hne
        rw [hposter, hk, himg]
        simp [JsOpt.truthy, JsOpt.toStr, hne]
      · intro hnoimg
        have hp : m.poster = "https://artworks.thetvdb.com/banners/images/missing/series.jpg" := by
          rw [hposter, hk, (truthy_false_iff _).mpr hnoimg]
          rfl
        exact ⟨hp, by rw [hp]; decide⟩
    · intro key hkey hne
      have ht : config.rpdbkey.truthy = true := by simp [hkey, JsOpt.truthy, hne]
      have hform : m.poster = host env ++ ("/poster/series/tvdb:" ++ tvdbShow.id.natToStr ++
          "?fallback=" ++ encodeURIComponent
            (if tvdbShow.image.truthy then tvdbShow.image.toStr
             else "https://artworks.thetvdb.com/banners/images/missing/series.jpg") ++
          "&lang=" ++ language ++ "&key=" ++ config.rpdbkey.toStr) := by
        rw [hposter, ht]
        simp only [if_true, String.append_assoc]
      exact ⟨⟨_, hform⟩, fun hh => by rw [hform]; exact isAbsoluteUrl_append _ _ hh⟩
    · intro a hf
      rw [hback, findArtwork_eq,
        (find_some_iff_isFirst (fun a : Artwork => a.type = JsOpt.val 3) _ a).mpr hf]
      rfl
    · intro hnone
      have : (tvdbShow.artworks.getD []).find?
          (fun a => decide (a.type = JsOpt.val 3)) = none := by
        rw [List.find?_eq_none]
        intro a ha
        simpa using hnone a ha
      rw [hback, findArtwork_eq, this]
      rfl

/-- Witness of C18 (amended) on the sample movie: poster and background are fully-qualified
URLs. -/
theorem record_art_urls_witness :
    isAbsoluteUrl demoMovieMeta.background = true ∧ isAbsoluteUrl demoMovieMeta.poster = true :=
  ⟨((record_art_urls demoEnv demoCollab "en-US" demoConfig JsOpt.undefined).2.1 demoMovie
      demoMovieMeta demo_movie_build).1,
    ((record_art_urls demoEnv demoCollab "en-US" demoConfig JsOpt.undefined).2.1 demoMovie
      demoMovieMeta demo_movie_build).2.1 (Or.inl rfl)⟩

/-! ## The provider calls of the workers -/

theorem getMovieMetaTraced_outcome (env : Env) (c : Collab) (stremioId language : String)
    (config : Config) (catalogChoices : JsOpt String) :
    (getMovieMetaTraced env c stremioId language config catalogChoices).outcome =
      getMovieMeta env c stremioId language config catalogChoices := by
  unfold getMovieMetaTraced getMovieMeta
  simp only [bind, pure, Traced.andThen, Traced.ret, Traced.call, Traced.fail, Traced.untraced,
    Except.bind, Except.pure]
  by_cases htt : startsWith stremioId "tt" = true
  · simp only [htt, if_true]
    cases hf : c.find stremioId with
    | error e => rfl
    | ok fr =>
      cases hh : (fr.movie_results.getD []).head? with
      | none => simp only [hh]
      | some item =>
        simp only [hh]
        cases c.movieInfo (toString item.id) language <;> rfl
  · simp only [htt, if_false]
    cases c.movieInfo (replaceFirst stremioId "tmdb:" "") language <;> rfl

theorem getSeriesMetaTraced_outcome (env : Env) (c : Collab) (stremioId language : String)
    (config : Config) (catalogChoices : JsOpt String) :
    (getSeriesMetaTraced env c stremioId language config catalogChoices).outcome =
      getSeriesMeta env c stremioId language config catalogChoices := by
  unfold getSeriesMetaTraced getSeriesMeta
  simp only [bind, pure, Traced.andThen, Traced.ret, Traced.call, Traced.fail, Traced.untraced,
    Traced.all2, Except.bind, Except.pure]
  by_cases h1 : startsWith stremioId "tvdb:" = true
  · simp only [h1, if_true]
    cases ht : JsId.truthy (JsId.ofStr (index (split stremioId (Char.ofNat 58)) 1)) with
    | false => rfl
    | true =>
      simp only [Bool.not_true, Bool.false_eq_true, if_false]
      cases c.getSeriesExtended
          (JsId.render (JsId.ofStr (index (split stremioId (Char.ofNat 58)) 1))) with
      | error e => rfl
      | ok b =>
        cases c.getSeriesEpisodes
            (JsId.render (JsId.ofStr (index (split stremioId (Char.ofNat 58)) 1))) language with
        | error e => rfl
        | ok e => cases b <;> cases e <;> rfl
  · simp only [h1, Bool.false_eq_true, if_false]
    by_cases h2 : startsWith stremioId "tmdb:" = true
    · simp only [h2, if_true]
      cases hq : JsId.truthy (JsId.ofStr (index (split stremioId (Char.ofNat 58)) 1)) with
      | false => rfl
      | true =>
        simp only [Bool.not_true, Bool.false_eq_true, if_false]
        cases hinfo : c.tvInfo (JsId.render (JsId.ofStr (index (split stremioId (Char.ofNat 58)) 1))) with
        | error e => rfl
        | ok info =>
          dsimp only
          cases ht : JsId.truthy (JsId.ofNat (optField info.external_ids TvExternalIds.tvdb_id)) with
          | false => rfl
          | true =>
            simp only [Bool.not_true, Bool.false_eq_true, if_false]
            cases c.getSeriesExtended (JsId.render (JsId.ofNat (optField info.external_ids TvExternalIds.tvdb_id))) with
            | error e => rfl
            | ok b =>
              cases c.getSeriesEpisodes (JsId.render (JsId.ofNat (optField info.external_ids TvExternalIds.tvdb_id))) language with
              | error e => rfl
              | ok e => cases b <;> cases e <;> rfl
    · simp only [h2, Bool.false_eq_true, if_false]
      cases hf : c.find stremioId with
      | error e => rfl
      | ok fr =>
        dsimp only
        cases htv : fr.tv_results with
        | none => rfl
        | some rs =>
          dsimp only
          cases hh : rs.head? with
          | none => rfl
          | some item =>
            dsimp only
            cases hq : JsId.truthy (JsOpt.val (JsId.num item.id)) with
            | false => rfl
            | true =>
              simp only [Bool.not_true, Bool.false_eq_true, if_false]
              cases hinfo : c.tvInfo (JsId.render (JsOpt.val (JsId.num item.id))) with
              | error e => rfl
              | ok info =>
                dsimp only
                cases ht : JsId.truthy (JsId.ofNat (optField info.external_ids TvExternalIds.tvdb_id)) with
                | false => rfl
                | true =>
                  simp only [Bool.not_true, Bool.false_eq_true, if_false]
                  cases c.getSeriesExtended (JsId.render (JsId.ofNat (optField info.external_ids TvExternalIds.tvdb_id))) with
                  | error e => rfl
                  | ok b =>
                    cases c.getSeriesEpisodes (JsId.render (JsId.ofNat (optField info.external_ids TvExternalIds.tvdb_id))) language with
                    | error e => rfl
                    | ok e => cases b <;> cases e <;> rfl

theorem movie_calls_no_result (env : Env) (c : Collab) (I language : String)
    (config : Config) (catalogChoices : JsOpt String) (fr : FindResults)
    (hI : startsWith I "tt" = true) (hfind : c.find I = Except.ok fr)
    (hnone : fr.movie_results = none ∨ fr.movie_results = some []) :
    (getMovieMetaTraced env c I language config catalogChoices).calls
      = [ProviderCall.find I] := by
  unfold getMovieMetaTraced
  rcases hnone with h | h <;>
    simp only [hI, if_true, hfind, h, Option.getD, List.head?, bind, pure, Traced.andThen,
      Traced.call, Traced.fail, Traced.ret, List.append_nil]

theorem movie_calls_first_result (env : Env) (c : Collab) (Y : Nat) (I language : String)
    (config : Config) (catalogChoices : JsOpt String) (fr : FindResults)
    (rest : List FindItem) (hI : startsWith I "tt" = true)
    (hfind : c.find I = Except.ok fr) (hy : fr.movie_results = some (⟨Y⟩ :: rest)) :
    (getMovieMetaTraced env c I language config catalogChoices).calls
      = [ProviderCall.find I, ProviderCall.movieInfo (toString Y) language] := by
  unfold getMovieMetaTraced
  simp only [hI, if_true, hfind, hy, Option.getD, List.head?, bind, pure, Traced.andThen,
    Traced.call, Traced.fail, Traced.ret, Traced.untraced, List.append_nil]
  cases c.movieInfo (toString Y) language <;> rfl

theorem movie_calls_not_tt (env : Env) (c : Collab) (stremioId language : String)
    (config : Config) (catalogChoices : JsOpt String)
    (htt : startsWith stremioId "tt" = false) :
    (getMovieMetaTraced env c stremioId language config catalogChoices).calls
      = [ProviderCall.movieInfo (replaceFirst stremioId "tmdb:" "") language] := by
  unfold getMovieMetaTraced
  simp only [htt, Bool.false_eq_true, if_false, bind, pure, Traced.andThen,
    Traced.call, Traced.ret, Traced.untraced, List.nil_append]
  cases c.movieInfo (replaceFirst stremioId "tmdb:" "") language <;> rfl

theorem series_calls_find_error (env : Env) (c : Collab) (stremioId language : String)
    (config : Config) (catalogChoices : JsOpt String) (e : String)
    (h1 : startsWith stremioId "tvdb:" = false) (h2 : startsWith stremioId "tmdb:" = false)
    (hfind : c.find stremioId = Except.error e) :
    (getSeriesMetaTraced env c stremioId language config catalogChoices).calls
      = [ProviderCall.find stremioId] := by
  unfold getSeriesMetaTraced
  simp only [h1, h2, Bool.false_eq_true, if_false, hfind, bind, pure, Traced.andThen,
    Traced.call]

theorem series_calls_no_result (env : Env) (c : Collab) (stremioId language : String)
    (config : Config) (catalogChoices : JsOpt String) (fr : FindResults)
    (h1 : startsWith stremioId "tvdb:" = false) (h2 : startsWith stremioId "tmdb:" = false)
    (hfind : c.find stremioId = Except.ok fr)
    (hnone : fr.tv_results = none ∨ fr.tv_results = some []) :
    (getSeriesMetaTraced env c stremioId language config catalogChoices).calls
      = [ProviderCall.find stremioId] := by
  unfold getSeriesMetaTraced
  rcases hnone with h | h
  · simp only [h1, h2, Bool.false_eq_true, if_false, hfind, h, List.head?, bind, pure,
      Traced.andThen, Traced.call, Traced.fail, Traced.ret, List.append_nil]
  · simp only [h1, h2, Bool.false_eq_true, if_false, hfind, h, List.head?, bind, pure,
      Traced.andThen, Traced.call, Traced.fail, Traced.ret, List.append_nil]
    rfl

theorem series_calls_tmdb_no_tvdb (env : Env) (c : Collab) (Y : Nat) (language : String)
    (config : Config) (catalogChoices : JsOpt String) (info : TvInfo)
    (hinfo : c.tvInfo (toString Y) = Except.ok info)
    (habs : JsId.truthy (JsId.ofNat (optField info.external_ids TvExternalIds.tvdb_id))
      = false) :
    (getSeriesMetaTraced env c ("tmdb:" ++ toString Y) language config catalogChoices).calls
      = [ProviderCall.tvInfo (toString Y)] := by
  have hYs : (toString Y != "") = true := by simpa using toString_nat_ne_empty Y
  unfold getSeriesMetaTraced
  simp only [startsWith_append_self, startsWith_tmdb_tvdb,
    index_split_prefixed "tmdb:" "tmdb".data Y tmdb_prefix_data (by decide),
    Bool.false_eq_true, if_false, if_true, JsId.ofStr, truthy_str, JsId.render,
    bind, pure, Traced.andThen, Traced.call, Traced.fail, Traced.ret, hYs, Bool.not_true,
    hinfo, habs, Bool.not_false, List.append_nil, List.nil_append]

theorem series_calls_imdb_no_tvdb (env : Env) (c : Collab) (Y : Nat) (I language : String)
    (config : Config) (catalogChoices : JsOpt String) (fr : FindResults)
    (rest : List FindItem) (info : TvInfo)
    (h1 : startsWith I "tvdb:" = false) (h2 : startsWith I "tmdb:" = false)
    (hfind : c.find I = Except.ok fr) (hy : fr.tv_results = some (⟨Y⟩ :: rest))
    (hinfo : c.tvInfo (toString Y) = Except.ok info)
    (habs : JsId.truthy (JsId.ofNat (optField info.external_ids TvExternalIds.tvdb_id))
      = false) :
    (getSeriesMetaTraced env c I language config catalogChoices).calls =
      if Y = 0 then [ProviderCall.find I]
      else [ProviderCall.find I, ProviderCall.tvInfo (toString Y)] := by
  unfold getSeriesMetaTraced
  simp only [h1, h2, Bool.false_eq_true, if_false, hfind, hy, List.head?, truthy_num,
    JsId.render, bind, pure, Traced.andThen, Traced.call, Traced.fail, Traced.ret]
  by_cases hY : Y = 0
  · subst hY
    rfl
  · have hY0 : (Y != 0) = true := by simpa using hY
    simp only [hY0, Bool.not_true, Bool.false_eq_true, if_false, hinfo, habs, Bool.not_false,
      if_true, hY, List.append_nil, List.nil_append, List.cons_append]

theorem series_calls_imdb_tvInfo_error (env : Env) (c : Collab) (Y : Nat)
    (I language : String) (config : Config) (catalogChoices : JsOpt String) (fr : FindResults)
    (rest : List FindItem) (e : String) (hY : 0 < Y)
    (h1 : startsWith I "tvdb:" = false) (h2 : startsWith I "tmdb:" = false)
    (hfind : c.find I = Except.ok fr) (hy : fr.tv_results = some (⟨Y⟩ :: rest))
    (hinfo : c.tvInfo (toString Y) = Except.error e) :
    (getSeriesMetaTraced env c I language config catalogChoices).calls =
      [ProviderCall.find I, ProviderCall.tvInfo (toString Y)] := by
  have hY0 : (Y != 0) = true := by simpa using Nat.pos_iff_ne_zero.mp hY
  unfold getSeriesMetaTraced
  simp only [h1, h2, Bool.false_eq_true, if_false, hfind, hy, List.head?, truthy_num,
    JsId.render, bind, pure, Traced.andThen, Traced.call, Traced.fail, Traced.ret, hY0,
    Bool.not_true, hinfo, List.append_nil, List.nil_append, List.cons_append]

theorem series_calls_imdb_resolved (env : Env) (c : Collab) (X Y : Nat)
    (I language : String) (config : Config) (catalogChoices : JsOpt String) (fr : FindResults)
    (rest : List FindItem) (info : TvInfo) (hX : 0 < X) (hY : 0 < Y)
    (h1 : startsWith I "tvdb:" = false) (h2 : startsWith I "tmdb:" = false)
    (hfind : c.find I = Except.ok fr) (hy : fr.tv_results = some (⟨Y⟩ :: rest))
    (hinfo : c.tvInfo (toString Y) = Except.ok info)
    (hx : info.external_ids = some ⟨JsOpt.val X⟩) :
    (getSeriesMetaTraced env c I language config catalogChoices).calls =
      [ProviderCall.find I, ProviderCall.tvInfo (toString Y),
        ProviderCall.getSeriesExtended (toString X),
        ProviderCall.getSeriesEpisodes (toString X) language] := by
  have hY0 : (Y != 0) = true := by simpa using Nat.pos_iff_ne_zero.mp hY
  have hX0 : (X != 0) = true := by simpa using Nat.pos_iff_ne_zero.mp hX
  unfold getSeriesMetaTraced
  simp only [h1, h2, Bool.false_eq_true, if_false, hfind, hy, List.head?, truthy_num,
    JsId.ofNat, JsId.render, bind, pure, Traced.andThen, Traced.call, Traced.fail, Traced.ret,
    Traced.all2, Traced.untraced, Except.bind, hY0, hX0, Bool.not_true, hinfo, hx, optField,
    List.append_nil, List.nil_append, List.cons_append]
  cases c.getSeriesExtended (toString X) with
  | error e => rfl
  | ok b =>
    cases c.getSeriesEpisodes (toString X) language with
    | error e => rfl
    | ok e => cases b <;> cases e <;> rfl

/-- C19: the workers with their provider calls have the outcomes of `getMovieMeta` and
`getSeriesMeta`.  Resolution fails, `getMeta` returns `meta` null, and no payload fetch
(`movieInfo`, `getSeriesExtended`, `getSeriesEpisodes`) is among the calls issued, when the
external-id lookup of an IMDb-style identifier has no movie result (for a movie) or no TV result
(for a series): the lookup is the only call; and when the TMDB external ids of a series given as
`tmdb:<id>` or as an IMDb id carry no TVDB id: the calls are the lookup, if any, and `tvInfo`.
When the lookup has several results the first one is used: the movie worker calls `movieInfo`
with the first id, and the series worker calls `tvInfo` with the first id and then fetches under
the TVDB id it gives. -/
theorem resolution_failures (env : Env) (c : Collab) (language : String) (config : Config)
    (catalogChoices : JsOpt String) :
    (∀ stremioId : String,
      (getMovieMetaTraced env c stremioId language config catalogChoices).outcome =
        getMovieMeta env c stremioId language config catalogChoices ∧
      (getSeriesMetaTraced env c stremioId language config catalogChoices).outcome =
        getSeriesMeta env c stremioId language config catalogChoices) ∧
    (∀ (I : String) (fr : FindResults), startsWith I "tt" = true →
      c.find I = Except.ok fr → (fr.movie_results = none ∨ fr.movie_results = some []) →
      getMovieMeta env c I language config catalogChoices =
        Except.error ("Movie with IMDb ID " ++ I ++ " not found on TMDB.") ∧
      (getMeta env c "movie" language I config catalogChoices).meta = none ∧
      (getMovieMetaTraced env c I language config catalogChoices).calls
        = [ProviderCall.find I] ∧
      (getMovieMetaTraced env c I language config catalogChoices).calls.any
        ProviderCall.isPayloadFetch = false) ∧
    (∀ (type I : String) (fr : FindResults), type ≠ "movie" → startsWith I "tt" = true →
      c.find I = Except.ok fr → (fr.tv_results = none ∨ fr.tv_results = some []) →
      (∃ e, getSeriesMeta env c I language config catalogChoices = Except.error e) ∧
      (getMeta env c type language I config catalogChoices).meta = none ∧
      (getSeriesMetaTraced env c I language config catalogChoices).calls
        = [ProviderCall.find I] ∧
      (getSeriesMetaTraced env c I language config catalogChoices).calls.any
        ProviderCall.isPayloadFetch = false) ∧
    (∀ (type : String) (Y : Nat) (info : TvInfo), type ≠ "movie" →
      c.tvInfo (toString Y) = Except.ok info →
      (optField info.external_ids TvExternalIds.tvdb_id = JsOpt.undefined ∨
        optField info.external_ids TvExternalIds.tvdb_id = JsOpt.null) →
      getSeriesMeta env c ("tmdb:" ++ toString Y) language config catalogChoices =
        Except.error ("Could not resolve " ++ ("tmdb:" ++ toString Y) ++ " to a TVDB ID.") ∧
      (getMeta env c type language ("tmdb:" ++ toString Y) config catalogChoices).meta
        = none ∧
      (getSeriesMetaTraced env c ("tmdb:" ++ toString Y) language config catalogChoices).calls
        = [ProviderCall.tvInfo (toString Y)] ∧
      (getSeriesMetaTraced env c ("tmdb:" ++ toString Y) language config
        catalogChoices).calls.any ProviderCall.isPayloadFetch = false) ∧
    (∀ (type I : String) (fr : FindResults) (Y : Nat) (rest : List FindItem) (info : TvInfo),
      type ≠ "movie" → startsWith I "tt" = true → c.find I = Except.ok fr →
      fr.tv_results = some (⟨Y⟩ :: rest) → c.tvInfo (toString Y) = Except.ok info →
      (optField info.external_ids TvExternalIds.tvdb_id = JsOpt.undefined ∨
        optField info.external_ids TvExternalIds.tvdb_id = JsOpt.null) →
      (∃ e, getSeriesMeta env c I language config catalogChoices = Except.error e) ∧
      (getMeta env c type language I config catalogChoices).meta = none ∧
      (getSeriesMetaTraced env c I language config catalogChoices).calls =
        (if Y = 0 then [ProviderCall.find I]
         else [ProviderCall.find I, ProviderCall.tvInfo (toString Y)]) ∧
      (getSeriesMetaTraced env c I language config catalogChoices).calls.any
        ProviderCall.isPayloadFetch = false) ∧
    (∀ (I : String) (fr : FindResults) (Y : Nat) (rest : List FindItem),
      startsWith I "tt" = true → c.find I = Except.ok fr →
      fr.movie_results = some (⟨Y⟩ :: rest) →
      getMovieMeta env c I language config catalogChoices =
        getMovieMeta env c ("tmdb:" ++ toString Y) language config catalogChoices ∧
      (getMovieMetaTraced env c I language config catalogChoices).calls =
        [ProviderCall.find I, ProviderCall.movieInfo (toString Y) language]) ∧
    (∀ (I : String) (fr : FindResults) (Y : Nat) (rest : List FindItem),
      startsWith I "tt" = true → c.find I = Except.ok fr →
      fr.tv_results = some (⟨Y⟩ :: rest) → 0 < Y →
      (∀ e, c.tvInfo (toString Y) = Except.error e →
        getSeriesMeta env c I language config catalogChoices = Except.error e ∧
        (getSeriesMetaTraced env c I language config catalogChoices).calls =
          [ProviderCall.find I, ProviderCall.tvInfo (toString Y)]) ∧
      (∀ (info : TvInfo) (X : Nat), c.tvInfo (toString Y) = Except.ok info →
        info.external_ids = some ⟨JsOpt.val X⟩ → 0 < X →
        getSeriesMeta env c I language config catalogChoices =
          getSeriesMeta env c ("tvdb:" ++ toString X) language config catalogChoices ∧
        (getSeriesMetaTraced env c I language config catalogChoices).calls =
          [ProviderCall.find I, ProviderCall.tvInfo (toString Y),
            ProviderCall.getSeriesExtended (toString X),
            ProviderCall.getSeriesEpisodes (toString X) language])) := by
  refine ⟨?_, ?_, ?_, ?_, ?_, ?_, ?_⟩
  · intro stremioId
    exact ⟨getMovieMetaTraced_outcome env c stremioId language config catalogChoices,
      getSeriesMetaTraced_outcome env c stremioId language config catalogChoices⟩
  · intro I fr hI hfind hnone
    have h := getMovieMeta_no_movie_result env c I language config catalogChoices fr hI hfind
      hnone
    have hc := movie_calls_no_result env c I language config catalogChoices fr hI hfind hnone
    exact ⟨h, getMeta_movie_error env c language I config catalogChoices _ h, hc,
      by rw [hc]; rfl⟩
  · intro type I fr ht hI hfind hnone
    obtain ⟨h1, h2⟩ := startsWith_tt_not_prefixed I hI
    have h : ∃ e, getSeriesMeta env c I language config catalogChoices = Except.error e := by
      rcases hnone with hn | hn
      · exact ⟨_, getSeriesMeta_tv_results_missing env c I language config catalogChoices fr
          h1 h2 hfind hn⟩
      · exact ⟨_, getSeriesMeta_no_tv_result env c I language config catalogChoices fr h1 h2
          hfind hn⟩
    have hc := series_calls_no_result env c I language config catalogChoices fr h1 h2 hfind
      hnone
    obtain ⟨e, he⟩ := h
    exact ⟨⟨e, he⟩, getMeta_series_error env c type language I config catalogChoices e ht he,
      hc, by rw [hc]; rfl⟩
  · intro type Y info ht hinfo habs
    have h := getSeriesMeta_tmdb_no_tvdb env c Y language config catalogChoices info hinfo
      (tvdb_id_absent_not_truthy info habs)
    have hc := series_calls_tmdb_no_tvdb env c Y language config catalogChoices info hinfo
      (tvdb_id_absent_not_truthy info habs)
    exact ⟨h, getMeta_series_error env c type language _ config catalogChoices _ ht h, hc,
      by rw [hc]; rfl⟩
  · intro type I fr Y rest info ht hI hfind hy hinfo habs
    obtain ⟨h1, h2⟩ := startsWith_tt_not_prefixed I hI
    obtain ⟨e, he⟩ := getSeriesMeta_imdb_no_tvdb env c Y I language config catalogChoices fr
      rest info h1 h2 hfind hy hinfo (tvdb_id_absent_not_truthy info habs)
    have hc := series_calls_imdb_no_tvdb env c Y I language config catalogChoices fr rest info
      h1 h2 hfind hy hinfo (tvdb_id_absent_not_truthy info habs)
    refine ⟨⟨e, he⟩, getMeta_series_error env c type language I config catalogChoices e ht he,
      hc, ?_⟩
    rw [hc]
    split <;> rfl
  · intro I fr Y rest hI hfind hy
    constructor
    · rw [getMovieMeta_tmdb, getMovieMeta_imdb env c Y I language config catalogChoices fr rest
        hI hfind hy]
    · exact movie_calls_first_result env c Y I language config catalogChoices fr rest hI hfind
        hy
  · intro I fr Y rest hI hfind hy hY
    obtain ⟨h1, h2⟩ := startsWith_tt_not_prefixed I hI
    constructor
    · intro e he
      exact ⟨getSeriesMeta_imdb_tvInfo_error env c Y I language config catalogChoices fr rest e
        hY h1 h2 hfind hy he,
        series_calls_imdb_tvInfo_error env c Y I language config catalogChoices fr rest e hY h1
          h2 hfind hy he⟩
    · intro info X hinfo hx hX
      constructor
      · rw [getSeriesMeta_tvdb, getSeriesMeta_imdb env c X Y I language config catalogChoices
          fr rest info hX hY hI hfind hy hinfo hx]
      · exact series_calls_imdb_resolved env c X Y I language config catalogChoices fr rest
          info hX hY h1 h2 hfind hy hinfo hx

set_option maxRecDepth 100000 in
/-- Witness of C19: the sample lookup knows no movie under `tt0903747` and nothing under
`tt0000000`, so both kinds answer `meta` null there, with the lookup as the only call; and the
sample series under `tt0903747` is reached through the lookup, `tvInfo` of the first result and
the two fetches under the TVDB id. -/
theorem resolution_failures_witness :
    ((getMeta demoEnv demoCollab "movie" "en-US" "tt0903747" demoConfig JsOpt.undefined).meta
        = none ∧
      (getMovieMetaTraced demoEnv demoCollab "tt0903747" "en-US" demoConfig
        JsOpt.undefined).calls = [ProviderCall.find "tt0903747"]) ∧
    ((getMeta demoEnv demoCollab "series" "de-DE" "tt0000000" demoConfig
        JsOpt.undefined).meta = none ∧
      (getSeriesMetaTraced demoEnv demoCollab "tt0000000" "de-DE" demoConfig
        JsOpt.undefined).calls = [ProviderCall.find "tt0000000"]) ∧
    (getSeriesMetaTraced demoEnv demoCollab "tt0903747" "de-DE" demoConfig
        JsOpt.undefined).calls =
      [ProviderCall.find "tt0903747", ProviderCall.tvInfo "1396",
        ProviderCall.getSeriesExtended "81189",
        ProviderCall.getSeriesEpisodes "81189" "de-DE"] := by
  have h := resolution_failures demoEnv demoCollab "en-US" demoConfig JsOpt.undefined
  have hs := resolution_failures demoEnv demoCollab "de-DE" demoConfig JsOpt.undefined
  refine ⟨?_, ?_, ?_⟩
  · have h1 := h.2.1 "tt0903747" ⟨some [], some [⟨1396⟩]⟩ rfl rfl (Or.inr rfl)
    exact ⟨h1.2.1, h1.2.2.1⟩
  · have h2 := hs.2.2.1 "series" "tt0000000" ⟨some [], some []⟩ (by decide) rfl rfl
      (Or.inr rfl)
    exact ⟨h2.2.1, h2.2.2.1⟩
  · exact ((hs.2.2.2.2.2.2 "tt0903747" ⟨some [], some [⟨1396⟩]⟩ 1396 [] rfl rfl rfl
      (by decide)).2 ⟨some ⟨JsOpt.val 81189⟩⟩ 81189 rfl rfl (by decide)).2

/-- C13 fails on the movie worker: a bare number `n` has none of the three namespace forms, yet
`getMovieMeta` issues `movieInfo` under it as its only call, exactly as it does for `tmdb:n`,
and when that fetch and the build succeed `getMeta` returns the record built from the payload.
The series worker hands the same identifier to the external-id lookup, and when the lookup has
no TV result the resolution fails with the lookup as the only call: no payload is fetched and
`getMeta` returns `meta` null. -/
theorem movie_bare_numeric_id_fetched (env : Env) (c : Collab) (language : String)
    (config : Config) (catalogChoices : JsOpt String) (n : Nat) :
    (startsWith (toString n) "tt" = false ∧ startsWith (toString n) "tmdb:" = false ∧
      startsWith (toString n) "tvdb:" = false) ∧
    (getMovieMetaTraced env c (toString n) language config catalogChoices).calls =
      [ProviderCall.movieInfo (toString n) language] ∧
    (getMovieMetaTraced env c (toString n) language config catalogChoices).calls.any
      ProviderCall.isPayloadFetch = true ∧
    (getMovieMetaTraced env c (toString n) language config catalogChoices).outcome =
      getMovieMeta env c (toString n) language config catalogChoices ∧
    getMovieMeta env c (toString n) language config catalogChoices =
      getMovieMeta env c ("tmdb:" ++ toString n) language config catalogChoices ∧
    (∀ (movieData : MovieData) (m : MovieMeta),
      c.movieInfo (toString n) language = Except.ok movieData →
      buildMovieResponse env c movieData language config catalogChoices = Except.ok m →
      (getMeta env c "movie" language (toString n) config catalogChoices).meta
        = some (Meta.movie m)) ∧
    (∀ (type : String) (fr : FindResults), type ≠ "movie" →
      c.find (toString n) = Except.ok fr →
      (fr.tv_results = none ∨ fr.tv_results = some []) →
      (getMeta env c type language (toString n) config catalogChoices).meta = none ∧
      (getSeriesMetaTraced env c (toString n) language config catalogChoices).calls
        = [ProviderCall.find (toString n)] ∧
      (getSeriesMetaTraced env c (toString n) language config catalogChoices).calls.any
        ProviderCall.isPayloadFetch = false) := by
  have htt : startsWith (toString n) "tt" = false :=
    startsWith_toString_false "tt" (Char.ofNat 116) (by decide) (by decide) n
  have htmdb : startsWith (toString n) "tmdb:" = false :=
    startsWith_toString_false "tmdb:" (Char.ofNat 116) (by decide) (by decide) n
  have htvdb : startsWith (toString n) "tvdb:" = false :=
    startsWith_toString_false "tvdb:" (Char.ofNat 116) (by decide) (by decide) n
  have hbare : getMovieMeta env c (toString n) language config catalogChoices =
      ((c.movieInfo (toString n) language).bind fun movieData =>
        buildMovieResponse env c movieData language config catalogChoices) := by
    rw [getMovieMeta_of_not_tt env c (toString n) language config catalogChoices htt,
      replaceFirst_toString]
  have hc : (getMovieMetaTraced env c (toString n) language config catalogChoices).calls =
      [ProviderCall.movieInfo (toString n) language] := by
    rw [movie_calls_not_tt env c (toString n) language config catalogChoices htt,
      replaceFirst_toString]
  refine ⟨⟨htt, htmdb, htvdb⟩, hc, by rw [hc]; rfl,
    getMovieMetaTraced_outcome env c (toString n) language config catalogChoices, ?_, ?_, ?_⟩
  · rw [hbare, getMovieMeta_tmdb]
  · intro movieData m hinfo hbuild
    apply getMeta_movie_ok env c language (toString n) config catalogChoices m
    rw [hbare, hinfo]
    exact hbuild
  · intro type fr ht hfind hnone
    have h : ∃ e, getSeriesMeta env c (toString n) language config catalogChoices
        = Except.error e := by
      rcases hnone with hn | hn
      · exact ⟨_, getSeriesMeta_tv_results_missing env c (toString n) language config
          catalogChoices fr htvdb htmdb hfind hn⟩
      · exact ⟨_, getSeriesMeta_no_tv_result env c (toString n) language config catalogChoices
          fr htvdb htmdb hfind hn⟩
    have hs := series_calls_no_result env c (toString n) language config catalogChoices fr
      htvdb htmdb hfind hnone
    obtain ⟨e, he⟩ := h
    exact ⟨getMeta_series_error env c type language (toString n) config catalogChoices e ht
      he, hs, by rw [hs]; rfl⟩

set_option maxRecDepth 100000 in
/-- Failing input of C13: on the samples `getMeta` for the movie identifier `603` issues
`movieInfo` under `603` and returns the record of movie 603, while for the series identifier
`603` it issues only the lookup and returns `meta` null. -/
theorem movie_bare_numeric_id_fetched_witness :
    (getMovieMetaTraced demoEnv demoCollab "603" "en-US" demoConfig JsOpt.undefined).calls =
      [ProviderCall.movieInfo "603" "en-US"] ∧
    (getMeta demoEnv demoCollab "movie" "en-US" "603" demoConfig JsOpt.undefined).meta
      = some (Meta.movie demoMovieMeta) ∧
    (getMeta demoEnv demoCollab "series" "en-US" "603" demoConfig JsOpt.undefined).meta
      = none ∧
    (getSeriesMetaTraced demoEnv demoCollab "603" "en-US" demoConfig JsOpt.undefined).calls
      = [ProviderCall.find "603"] :=
  have h := movie_bare_numeric_id_fetched demoEnv demoCollab "en-US" demoConfig
    JsOpt.undefined 603
  have hs := h.2.2.2.2.2.2 "series" ⟨some [], some []⟩ (by decide) rfl (Or.inr rfl)
  ⟨h.2.1, h.2.2.2.2.2.1 demoMovie demoMovieMeta rfl rfl, hs.1, hs.2.1⟩

end TmdbAddon
